import Mathlib

/-!
# IOPlug (libs/ardour/io_plug.cc, libs/ardour/ardour/io_plug.h)

A shallow embedding of `ARDOUR::IOPlug`: the object's fields become a record, every
member function becomes a function on that record, and the calls a member function makes
on its collaborators (port groups, buffer set, plugin, timing statistics) are returned
as a list in program order.  Collaborator classes whose code is not part of the sources
are either parameters (`Env`) or small records modelled from the specification.
-/

namespace ARDOUR

/-! ## Data types, channel counts and channel maps -/

/-- The data types `DataType::begin () .. DataType::end ()` iterates over. -/
inductive DataType
  | AUDIO
  | MIDI
deriving DecidableEq, Repr

/-- The order in which `for (DataType::iterator t = DataType::begin(); t != DataType::end(); ++t)`
visits the data types. -/
def DataType.all : List DataType := [DataType.AUDIO, DataType.MIDI]

/-- A channel count per data type (`ChanCount`: `_n_in`, `_n_out`, `_bufs.count ()`). -/
structure ChanCount where
  n_audio : Nat
  n_midi : Nat
deriving DecidableEq, Repr

/-- The count for one data type: `ChanCount::get (DataType)`. -/
def ChanCount.get (c : ChanCount) : DataType → Nat
  | DataType.AUDIO => c.n_audio
  | DataType.MIDI => c.n_midi

/-- The constant `ChanCount::ZERO`. -/
def ChanCount.ZERO : ChanCount := { n_audio := 0, n_midi := 0 }

/-- The per-type maximum of two channel counts, the quantity the specification calls
`max(n_in, n_out)`. -/
def ChanCount.pointwise_max (a b : ChanCount) : ChanCount :=
  { n_audio := Nat.max a.n_audio b.n_audio, n_midi := Nat.max a.n_midi b.n_midi }

/-- The function template `std::max (a, b)`: `b` when `a < b`, otherwise `a`.  The comparison
is `ChanCount::operator<`, declared in ardour/chan_count.h (not among the sources), and is
taken as the parameter `lt`. -/
def std_max (lt : ChanCount → ChanCount → Bool) (a b : ChanCount) : ChanCount :=
  if lt a b then b else a

/-- Modelled from the spec: `ChanMapping` (ardour/chan_mapping.h is not among the sources), a
list of (data type, plugin channel, buffer channel) associations. -/
structure ChanMapping where
  pairs : List (DataType × Nat × Nat)
deriving DecidableEq, Repr

/-- Modelled from the spec: the constructor `ChanMapping (ChanCount)`, the "index-identity
channel mapping (channel i of the plugin input/output maps to port i)" for every channel
below the count, audio first. -/
def ChanMapping.identity (c : ChanCount) : ChanMapping :=
  { pairs := (List.range c.n_audio).map (fun i => (DataType.AUDIO, i, i))
      ++ (List.range c.n_midi).map (fun i => (DataType.MIDI, i, i)) }

/-! ## Sample positions computed in double precision -/

/-- The binary64 value nearest to an integer (round half to even), as an integer: the
conversion of a `samplepos_t` to `double`.  Integers below 2^53 in absolute value are
exact. -/
def double_of_int (z : Int) : Int :=
  let a := z.natAbs
  if a < 2 ^ 53 then z
  else
    let e := Nat.log2 a - 52
    let q := a / 2 ^ e
    let r := a % 2 ^ e
    let half := 2 ^ (e - 1)
    let q1 := if r < half then q else if half < r then q + 1 else if q % 2 = 0 then q else q + 1
    Int.sign z * ((q1 * 2 ^ e : Nat) : Int)

/-- The expression `start + n_samples * speed` of `IOPlug::run`, evaluated in `double` (both
operands are converted, the product and the sum are rounded) and converted back to
`samplepos_t`.  `speed` holds an integral double. -/
def samplepos_end (start : Int) (n_samples : Nat) (speed : Int) : Int :=
  double_of_int (double_of_int start + double_of_int (double_of_int (n_samples : Int) * speed))

/-! ## Collaborators -/

/-- The direction of a port group: `IO::Input`, `IO::Output`. -/
inductive Direction
  | Input
  | Output
deriving DecidableEq, Repr

end ARDOUR

/-- Modelled from the spec: the port group, class `IO` (ardour/io.h is not among the sources):
"owns a fixed-in-size collection of ports; the core only calls: configure channel count,
collect input to a buffer set, copy buffers to outputs, silence, persist/restore name &
connections".  Kept here: its name, its direction and its configured channel count. -/
structure ARDOUR.IO where
  name : String
  direction : ARDOUR.Direction
  n_ports : ARDOUR.ChanCount
deriving DecidableEq, Repr

namespace ARDOUR

/-- Modelled from the spec: `BufferSet` (ardour/buffer_set.h is not among the sources), "scratch
storage sized to max(in,out) channels × a fixed per-cycle sample capacity".  Kept here: the
number of channels it holds per data type (`count ()`) and the sample capacity. -/
structure BufferSet where
  count : ChanCount
  capacity : Nat
deriving DecidableEq, Repr

/-- A default-constructed `BufferSet`: no channels. -/
def BufferSet.empty : BufferSet := { count := ChanCount.ZERO, capacity := 0 }

/-- Modelled from the spec: `BufferSet::ensure_buffers (ChanCount, size_t)`, which "resizes
`buffers` to at least" the requested channels "at the fixed cycle sample ceiling": every data
type grows to the requested count when it holds fewer, and the capacity grows to the
requested one. -/
def BufferSet.ensure_buffers (b : BufferSet) (chns : ChanCount) (buffer_capacity : Nat) : BufferSet :=
  { count := { n_audio := Nat.max b.count.n_audio chns.n_audio,
               n_midi := Nat.max b.count.n_midi chns.n_midi },
    capacity := Nat.max b.capacity buffer_capacity }

/-- Modelled from the spec: `PBD::TimingStats` (pbd/timing.h is not among the sources), the
"accumulator of per-call duration, exposing min/max/mean/variance".  The accumulator is kept
as the list of durations measured since the last reset, oldest first; `start_val` is the clock
reading taken by the last `start ()`. -/
structure TimingStats where
  start_val : Option Nat
  durations : List Nat
deriving DecidableEq, Repr

/-- Modelled from the spec: `TimingStats::reset ()` forgets every measurement. -/
def TimingStats.reset (_t : TimingStats) : TimingStats :=
  { start_val := none, durations := [] }

/-- Modelled from the spec: `TimingStats::start ()` reads the clock. -/
def TimingStats.start (t : TimingStats) (now : Nat) : TimingStats :=
  { t with start_val := some now }

/-- Modelled from the spec: `TimingStats::update ()` reads the clock again and accumulates the
duration since the last `start ()`. -/
def TimingStats.update (t : TimingStats) (now : Nat) : TimingStats :=
  match t.start_val with
  | some s => { t with durations := t.durations ++ [now - s] }
  | none => t

/-- The plugin formats (`ARDOUR::PluginType`). -/
inductive PluginType
  | AudioUnit
  | LADSPA
  | LV2
  | Windows_VST
  | LXVST
  | MacVST
  | Lua
  | VST3
deriving DecidableEq, Repr

/-- What `Plugin::get_info ()` reports (`PluginInfo`), as far as `IOPlug` reads it. -/
structure PluginInfo where
  name : String
  n_inputs : ChanCount
  n_outputs : ChanCount
  reconfigurable_io : Bool
  is_instrument : Bool
  type : PluginType := PluginType.LV2
deriving DecidableEq, Repr

/-- A value of C++ type `double` or `float`.  `IOPlug` and its controls only store, pass on
and compare such values, so they are carried as rationals. -/
abbrev Value := Rat

/-- The type tags of a typed value, `Variant::Type`. -/
inductive VariantType
  | NOTHING
  | BEATS
  | BOOL
  | DOUBLE
  | FLOAT
  | INT
  | LONG
  | PATH
  | STRING
  | URI
deriving DecidableEq, Repr

/-- Modelled from the spec: a typed value, `Variant` (ardour/variant.h is not among the
sources): its type tag and, for the numeric types, its value. -/
structure Variant where
  type : VariantType
  value : Value
deriving DecidableEq, Repr

/-- A parameter descriptor (`ParameterDescriptor`), as far as `IOPlug` reads it: the declared
datatype and the label. -/
structure ParameterDescriptor where
  datatype : VariantType
  label : String
deriving DecidableEq, Repr

/-- One declared parameter of a plugin: what `parameter_is_control (i)`,
`parameter_is_input (i)` and `get_parameter_descriptor (i, desc)` answer for it. -/
structure PortDeclaration where
  is_control : Bool
  is_input : Bool
  desc : ParameterDescriptor
deriving DecidableEq, Repr

/-- Modelled from the spec: the plugin instance behind `_plugin`, class `Plugin`
(ardour/plugin.h is not among the sources), "an opaque capability".  What the plugin declares
is kept as data: its identity, its info, the name of its state node, its parameter list
(`parameter_count ()` is the length of `ports`), the keys of `get_supported_properties ()` and
what `get_property_descriptor` answers.  What the instance holds at run time (parameter
values, configuration, saved state) is the token `state`, read and advanced only by the
functions of `Host`; what its processing does is in `Env`. -/
structure Plugin where
  unique_id : String
  info : PluginInfo
  state_node_name : String := "lv2"
  ports : List PortDeclaration := []
  supported_properties : List Nat := []
  property_descriptors : List (Nat × ParameterDescriptor) := []
  state : Nat := 0
deriving DecidableEq, Repr

/-- The plugin instance after one of its member functions has moved it to state `s`. -/
def Plugin.with_state (p : Plugin) (s : Nat) : Plugin := { p with state := s }

/-- `Plugin::parameter_count ()`. -/
def Plugin.parameter_count (p : Plugin) : Nat := p.ports.length

/-- `Plugin::get_property_descriptor (id)`: the declared descriptor, or one of datatype
`NOTHING` when the property is not declared. -/
def Plugin.get_property_descriptor (p : Plugin) (id : Nat) : ParameterDescriptor :=
  match p.property_descriptors.find? (fun d => d.1 == id) with
  | some d => d.2
  | none => { datatype := VariantType.NOTHING, label := "" }

/-- The automation types `IOPlug` tells apart (`Evoral::Parameter::type ()`). -/
inductive AutomationType
  | PluginAutomation
  | PluginPropertyAutomation
  | Other (n : Nat)
deriving DecidableEq, Repr

/-- A parameter identity, `Evoral::Parameter (type, channel, id)`. -/
structure Parameter where
  type : AutomationType
  channel : Nat
  id : Nat
deriving DecidableEq, Repr

/-- The class of a control object: the two control classes declared in io_plug.h, a plain
`AutomationControl` (what `control_factory` makes), or an `Evoral::Control` that is not an
`AutomationControl`. -/
inductive ControlClass
  | PluginControl
  | PluginPropertyControl
  | AutomationControl
  | EvoralControl
deriving DecidableEq, Repr

/-- A control object of the control set (`Automatable::controls ()`): its class, its
parameter, the `Controllable::NotAutomatable` flag, its descriptor, its name, its id, the
value held by the automation base (`Evoral::Control`) and, for a `PluginPropertyControl`, the
cached typed value `_value`. -/
structure Control where
  cls : ControlClass
  parameter : Parameter
  not_automatable : Bool
  desc : ParameterDescriptor := { datatype := VariantType.NOTHING, label := "" }
  name : String := ""
  id : Nat := 0
  user_value : Value := 0
  _value : Variant := { type := VariantType.NOTHING, value := 0 }
deriving DecidableEq, Repr

/-- `PBD::Controllable::GroupControlDisposition`. -/
inductive GroupControlDisposition
  | InverseGroup
  | NoGroup
  | UseGroup
  | ForGroup
deriving DecidableEq, Repr

/-- Modelled from the spec: the value of an attribute of a persisted document ("attributes
are name/value pairs", e.g. `pre: bool`, `unique-id: <string>`), kept with its type. -/
inductive XMLValue
  | string (s : String)
  | bool (b : Bool)
  | uint (n : Nat)
deriving DecidableEq, Repr

/-- Modelled from the spec: a nested sub-document of a persisted document (`XMLNode`,
pbd/xml++.h is not among the sources).  `IOPlug` reads only the name and the attributes of a
child; what a child nests further is the business of its owner and is not kept. -/
structure XMLChild where
  name : String
  properties : List (String × XMLValue)
deriving DecidableEq, Repr

/-- Modelled from the spec: a persisted document (`XMLNode`): "tree-structured, attributes
are name/value pairs, children are nested sub-documents". -/
structure XMLNode where
  name : String
  properties : List (String × XMLValue)
  children : List XMLChild
deriving DecidableEq, Repr

/-- Why a member function does not return: a failed `assert`, `->` applied to an empty
`shared_ptr`, or a loop that is still running when the fuel given to it is used up. -/
inductive Fault
  | assertion_failed
  | null_dereference
  | out_of_fuel
deriving DecidableEq, Repr

/-- A call made on a collaborator, with its arguments (the buffer set argument is always
`_bufs`). -/
inductive Call
  | update_thread_tempo_map
  | timing_stats_reset
  | timing_stats_start
  | timing_stats_update
  | input_ensure_io (n : ChanCount) (clear : Bool)
  | output_ensure_io (n : ChanCount) (clear : Bool)
  | bufs_ensure_buffers (n : ChanCount) (buffer_capacity : Nat)
  | input_collect_input (n_samples : Nat) (offset : ChanCount)
  | plugin_connect_and_run (start end_ speed : Int) (in_map out_map : ChanMapping)
      (n_samples offset : Nat)
  | output_silence (n_samples : Nat)
  | output_copy_to_outputs (type : DataType) (n_samples offset : Nat)
  | input_set_name (name : String)
  | output_set_name (name : String)
  | session_object_set_name (name : String)
  | plugin_set_insert_id (id : Nat)
  | plugin_get_state
  | control_get_state (parameter : Parameter)
  | input_get_state
  | output_get_state
  | plugin_set_automation_control (i : Nat)
  | plugin_connect_preset_port_set_value
  | plugin_match_variable_io (n_in aux_in n_out : ChanCount)
  | plugin_reconfigure_io (n_in aux_in n_out : ChanCount)
  | plugin_connect_parameter_changed_externally
  | plugin_activate
  | find_and_load_plugin (type : PluginType) (unique_id : String)
  | set_control_ids (version : Int)
  | plugin_set_state (child : XMLChild) (version : Int)
  | input_set_state (child : XMLChild) (version : Int)
  | output_set_state (child : XMLChild) (version : Int)
  | plugin_set_parameter (which : Nat) (val : Value) (when : Nat)
  | plugin_set_property (id : Nat) (value : Variant)
  | automation_control_actually_set_value (parameter : Parameter) (val : Value)
      (gcd : GroupControlDisposition)
deriving DecidableEq, Repr

/-- What the collaborators answer during one call of a member function.  None of these
functions is defined in the sources, so each is a parameter:
* `lt` is `ChanCount::operator<`;
* `io_ensure_io io count clear` is `IO::ensure_io (count, clear, src)`: its return value (0 on
  success) and the port group afterwards;
* `io_collect_input io bufs n_samples offset` is the buffer set after `IO::collect_input`;
* `plugin_connect_and_run` is `Plugin::connect_and_run`: its return value (0 on success) and
  the buffer set afterwards;
* `clock_at_start`, `clock_at_update` are the clock readings of `_timing_stats.start ()` and
  `_timing_stats.update ()`. -/
structure Env where
  lt : ChanCount → ChanCount → Bool
  io_ensure_io : ARDOUR.IO → ChanCount → Bool → Int × ARDOUR.IO
  io_collect_input : ARDOUR.IO → BufferSet → Nat → ChanCount → BufferSet
  plugin_connect_and_run : Plugin → BufferSet → Int → Int → Int → ChanMapping → ChanMapping →
    Nat → Nat → Int × BufferSet
  clock_at_start : Nat
  clock_at_update : Nat

/-! ## The IOPlug object -/

/-- The fields of `class IOPlug` (io_plug.h), with the name and the id (`PBD::ID`) inherited
from `SessionObject` and the control set inherited from `Automatable`. -/
structure IOPlug where
  _name : String
  _controls : List Control
  _n_in : ChanCount
  _n_out : ChanCount
  _plugin : Option Plugin
  _pre : Bool
  _control_outputs : List Nat
  _bufs : BufferSet
  _input : Option ARDOUR.IO
  _output : Option ARDOUR.IO
  _timing_stats : TimingStats
  _stat_reset : Int
  _id : Nat := 0
deriving DecidableEq, Repr

/-- `IOPlug::clear_stats`: `g_atomic_int_set (&_stat_reset, 1)`. -/
def IOPlug.clear_stats (self : IOPlug) : IOPlug :=
  { self with _stat_reset := 1 }

/-- `IOPlug::ensure_io`.  Returns the function's result, the object afterwards and the calls
made. -/
def IOPlug.ensure_io (E : Env) (self : IOPlug) : Except Fault (Bool × IOPlug × List Call) :=
  match self._input with
  | none => Except.error Fault.null_dereference
  | some input =>
    -- if (_input->ensure_io (_n_in, false, this) != 0) { return false; }
    let r_in := E.io_ensure_io input self._n_in false
    let self1 : IOPlug := { self with _input := some r_in.2 }
    let tr1 : List Call := [Call.input_ensure_io self._n_in false]
    if r_in.1 ≠ 0 then Except.ok (false, self1, tr1)
    else
      match self1._output with
      | none => Except.error Fault.null_dereference
      | some output =>
        -- if (_output->ensure_io (_n_out, false, this) != 0) { return false; }
        let r_out := E.io_ensure_io output self1._n_out false
        let self2 : IOPlug := { self1 with _output := some r_out.2 }
        let tr2 : List Call := tr1 ++ [Call.output_ensure_io self1._n_out false]
        if r_out.1 ≠ 0 then Except.ok (false, self2, tr2)
        else
          -- _bufs.ensure_buffers (std::max (_n_in, _n_out), 8192);
          let chns := std_max E.lt self2._n_in self2._n_out
          Except.ok (true,
            { self2 with _bufs := self2._bufs.ensure_buffers chns 8192 },
            tr2 ++ [Call.bufs_ensure_buffers chns 8192])

/-- The loop `for (DataType::iterator t ...) { if (_bufs.count().get(*t) > 0) {
_output->copy_to_outputs (_bufs, *t, n_samples, 0); } }` of `IOPlug::run`: the calls it makes. -/
def IOPlug.copy_loop (bufs : BufferSet) (n_samples : Nat) : List Call :=
  (DataType.all.filter (fun t => decide (0 < bufs.count.get t))).map
    (fun t => Call.output_copy_to_outputs t n_samples 0)

/-- The statement `if (g_atomic_int_compare_and_exchange (&_stat_reset, 1, 0)) {
_timing_stats.reset (); }` of `IOPlug::run`: the exchange succeeds exactly when the flag
holds 1, and then stores 0. -/
def IOPlug.consume_stat_reset (self : IOPlug) : IOPlug × List Call :=
  if self._stat_reset = 1 then
    ({ self with _stat_reset := 0, _timing_stats := self._timing_stats.reset },
      [Call.timing_stats_reset])
  else (self, [])

/-- `IOPlug::run (samplepos_t start, pframes_t n_samples)`.  Returns the object afterwards and
the calls made. -/
def IOPlug.run (E : Env) (self : IOPlug) (start : Int) (n_samples : Nat) :
    Except Fault (IOPlug × List Call) :=
  -- Temporal::TempoMap::update_thread_tempo_map ();
  let tr0 : List Call := [Call.update_thread_tempo_map]
  -- assert (n_samples > 0);
  if n_samples = 0 then Except.error Fault.assertion_failed
  else
    -- if (g_atomic_int_compare_and_exchange (&_stat_reset, 1, 0)) { _timing_stats.reset (); }
    let self1 : IOPlug := self.consume_stat_reset.1
    let tr1 : List Call := tr0 ++ self.consume_stat_reset.2
    match self1._plugin with
    | none =>
      -- _output->silence (n_samples); return;
      match self1._output with
      | none => Except.error Fault.null_dereference
      | some _ => Except.ok (self1, tr1 ++ [Call.output_silence n_samples])
    | some plugin =>
      -- _timing_stats.start ();
      let self2 : IOPlug :=
        { self1 with _timing_stats := self1._timing_stats.start E.clock_at_start }
      let in_map := ChanMapping.identity self2._n_in
      let out_map := ChanMapping.identity self2._n_out
      let speed : Int := 1
      let end_ := samplepos_end start n_samples speed
      -- _input->collect_input (_bufs, n_samples, ChanCount::ZERO);
      match self2._input with
      | none => Except.error Fault.null_dereference
      | some input =>
        let self3 : IOPlug :=
          { self2 with _bufs := E.io_collect_input input self2._bufs n_samples ChanCount.ZERO }
        let tr3 : List Call :=
          tr1 ++ [Call.timing_stats_start, Call.input_collect_input n_samples ChanCount.ZERO]
        -- if (_plugin->connect_and_run (_bufs, start, end, speed, in_map, out_map, n_samples, 0))
        let r := E.plugin_connect_and_run plugin self3._bufs start end_ speed in_map out_map
          n_samples 0
        let self4 : IOPlug := { self3 with _bufs := r.2 }
        let tr4 : List Call :=
          tr3 ++ [Call.plugin_connect_and_run start end_ speed in_map out_map n_samples 0]
        if r.1 ≠ 0 then
          -- _output->silence (n_samples); _timing_stats.update (); return;
          match self4._output with
          | none => Except.error Fault.null_dereference
          | some _ =>
            Except.ok
              ({ self4 with _timing_stats := self4._timing_stats.update E.clock_at_update },
                tr4 ++ [Call.output_silence n_samples, Call.timing_stats_update])
        else
          -- for (t ...) { if (_bufs.count().get(*t) > 0) { _output->copy_to_outputs (...); } }
          let copies := IOPlug.copy_loop self4._bufs n_samples
          match self4._output with
          | none =>
            -- _output is dereferenced only inside the loop body
            if copies = [] then
              Except.ok
                ({ self4 with _timing_stats := self4._timing_stats.update E.clock_at_update },
                  tr4 ++ [Call.timing_stats_update])
            else Except.error Fault.null_dereference
          | some _ =>
            -- _timing_stats.update ();
            Except.ok
              ({ self4 with _timing_stats := self4._timing_stats.update E.clock_at_update },
                tr4 ++ copies ++ [Call.timing_stats_update])

/-- Successive process cycles: `run` called once per element of the list, each cycle with its
own collaborator answers, start position and length; the calls of all cycles in order. -/
def IOPlug.run_cycles (self : IOPlug) : List (Env × Int × Nat) → Except Fault (IOPlug × List Call)
  | [] => Except.ok (self, [])
  | c :: rest =>
    match self.run c.1 c.2.1 c.2.2 with
    | Except.error e => Except.error e
    | Except.ok r1 =>
      match IOPlug.run_cycles r1.1 rest with
      | Except.error e => Except.error e
      | Except.ok r2 => Except.ok (r2.1, r1.2 ++ r2.2)

/-- What the plugin's `connect_and_run` answers in a cycle of `run`: it is handed the buffer
set as `collect_input` left it, the range from `start` to the computed end at speed 1.0, and
the identity maps of `_n_in` and `_n_out`. -/
def IOPlug.plugin_answer (E : Env) (self : IOPlug) (plugin : Plugin) (input : ARDOUR.IO)
    (start : Int) (n_samples : Nat) : Int × BufferSet :=
  E.plugin_connect_and_run plugin
    (E.io_collect_input input self._bufs n_samples ChanCount.ZERO)
    start (samplepos_end start n_samples 1) 1
    (ChanMapping.identity self._n_in) (ChanMapping.identity self._n_out) n_samples 0

/-! ## Classifying calls -/

/-- Is the call `_output->silence`? -/
def Call.is_silence : Call → Bool
  | Call.output_silence _ => true
  | _ => false

/-- Is the call `_input->collect_input`? -/
def Call.is_collect_input : Call → Bool
  | Call.input_collect_input _ _ => true
  | _ => false

/-- Is the call `_plugin->connect_and_run`? -/
def Call.is_connect_and_run : Call → Bool
  | Call.plugin_connect_and_run _ _ _ _ _ _ _ => true
  | _ => false

/-- Is the call `_output->copy_to_outputs`? -/
def Call.is_copy_to_outputs : Call → Bool
  | Call.output_copy_to_outputs _ _ _ => true
  | _ => false

/-- Is the call `_output->ensure_io`? -/
def Call.is_output_ensure_io : Call → Bool
  | Call.output_ensure_io _ _ => true
  | _ => false

/-- Is the call `_bufs.ensure_buffers`? -/
def Call.is_ensure_buffers : Call → Bool
  | Call.bufs_ensure_buffers _ _ => true
  | _ => false

/-! ## Concrete collaborators and objects -/

/-- A collaborator set for evaluating the member functions: the input port group's resize
succeeds iff `in_ok`, the output port group's iff `out_ok`; a successful resize leaves the
group with the requested count and a failed one leaves it as it was; `collect_input` and the
plugin leave the channel counts of the buffer set alone; the plugin returns `plugin_rc`. -/
def Env.simple (lt : ChanCount → ChanCount → Bool) (in_ok out_ok : Bool) (plugin_rc : Int) : Env :=
  { lt := lt,
    io_ensure_io := fun io count _ =>
      if (match io.direction with
          | Direction.Input => in_ok
          | Direction.Output => out_ok) then (0, { io with n_ports := count })
      else (-1, io),
    io_collect_input := fun _ bufs _ _ => bufs,
    plugin_connect_and_run := fun _ bufs _ _ _ _ _ _ _ => (plugin_rc, bufs),
    clock_at_start := 100,
    clock_at_update := 130 }

/-- A comparison of channel counts by total channel number, used where an evaluation needs
some `operator<`. -/
def lt_by_total (a b : ChanCount) : Bool := decide (a.n_audio + a.n_midi < b.n_audio + b.n_midi)

/-- A 2-in/2-out audio effect. -/
def stereo_effect : Plugin :=
  { unique_id := "urn:example:gain",
    info := { name := "gain", n_inputs := { n_audio := 2, n_midi := 0 },
              n_outputs := { n_audio := 2, n_midi := 0 },
              reconfigurable_io := false, is_instrument := false } }

/-- An instrument: one MIDI input, two audio outputs. -/
def instrument : Plugin :=
  { unique_id := "urn:example:synth",
    info := { name := "synth", n_inputs := { n_audio := 0, n_midi := 1 },
              n_outputs := { n_audio := 2, n_midi := 0 },
              reconfigurable_io := false, is_instrument := true } }

/-- An IOPlug as the constructor leaves it: both port groups created without ports, an empty
buffer set, fresh statistics, `_stat_reset` 0; `plugin` is the plugin handed in (or none) and
the channel counts are the plugin's declared ones. -/
def IOPlug.fresh (plugin : Option Plugin) (n_in n_out : ChanCount) : IOPlug :=
  { _name := "IO",
    _controls := [],
    _n_in := n_in,
    _n_out := n_out,
    _plugin := plugin,
    _pre := true,
    _control_outputs := [],
    _bufs := BufferSet.empty,
    _input := some { name := "IO", direction := Direction.Input, n_ports := ChanCount.ZERO },
    _output := some { name := "IO", direction := Direction.Output, n_ports := ChanCount.ZERO },
    _timing_stats := { start_val := none, durations := [] },
    _stat_reset := 0 }

/-- The 2-in/2-out effect with its ports and buffers allocated, as a successful `ensure_io`
leaves a freshly constructed IOPlug. -/
def IOPlug.stereo_ready : IOPlug :=
  { IOPlug.fresh (some stereo_effect) stereo_effect.info.n_inputs stereo_effect.info.n_outputs with
    _bufs := { count := { n_audio := 2, n_midi := 0 }, capacity := 8192 },
    _input := some { name := "IO", direction := Direction.Input,
                     n_ports := { n_audio := 2, n_midi := 0 } },
    _output := some { name := "IO", direction := Direction.Output,
                      n_ports := { n_audio := 2, n_midi := 0 } } }

/-- The same object with two measurements already accumulated. -/
def IOPlug.stereo_measured : IOPlug :=
  { IOPlug.stereo_ready with _timing_stats := { start_val := some 40, durations := [5, 9] } }

/-- The duration `_timing_stats` measures in a cycle: the clock reading of `update ()` minus
that of `start ()`. -/
def Env.elapsed (E : Env) : Nat := E.clock_at_update - E.clock_at_start

/-- A cycle of 512 samples at `start` in which both port groups would resize and the plugin
returns `plugin_rc`; the clock readings are 100 at `start ()` and 130 at `update ()`. -/
def example_cycle (plugin_rc : Int) (start : Int) : Env × Int × Nat :=
  (Env.simple lt_by_total true true plugin_rc, start, 512)

/-- The 2-in/2-out effect as constructed: no ports and no buffers yet. -/
def IOPlug.stereo_fresh : IOPlug :=
  IOPlug.fresh (some stereo_effect) stereo_effect.info.n_inputs stereo_effect.info.n_outputs

/-- The instrument (one MIDI input, two audio outputs) as constructed: no ports and no
buffers yet. -/
def IOPlug.instrument_fresh : IOPlug :=
  IOPlug.fresh (some instrument) instrument.info.n_inputs instrument.info.n_outputs

/-! ## The control context: documents, the session, names -/

/-- The value of the first attribute called `key`, if any. -/
def XMLValue.lookup (ps : List (String × XMLValue)) (key : String) : Option XMLValue :=
  (ps.find? (fun q => q.1 == key)).map (fun q => q.2)

/-- Setting an attribute: the value of an attribute of that name is replaced, otherwise the
attribute is added at the end (`XMLNode::set_property`). -/
def XMLValue.assign (ps : List (String × XMLValue)) (key : String) (v : XMLValue) :
    List (String × XMLValue) :=
  if ps.any (fun q => q.1 == key) then ps.map (fun q => if q.1 == key then (key, v) else q)
  else ps ++ [(key, v)]

/-- `XMLNode::set_property (name, value)` on a document. -/
def XMLNode.set_property (n : XMLNode) (key : String) (v : XMLValue) : XMLNode :=
  { n with properties := XMLValue.assign n.properties key v }

/-- `XMLNode::add_child_nocopy (child)`: the child is added after the existing children. -/
def XMLNode.add_child_nocopy (n : XMLNode) (c : XMLChild) : XMLNode :=
  { n with children := n.children ++ [c] }

/-- `XMLNode::get_property (name, std::string&)`: the string value of the attribute, if the
document has the attribute. -/
def XMLNode.get_string (n : XMLNode) (key : String) : Option String :=
  match XMLValue.lookup n.properties key with
  | some (XMLValue.string v) => some v
  | _ => none

/-- `XMLNode::get_property (name, bool&)`: the boolean value of the attribute, if the document
has the attribute. -/
def XMLNode.get_bool (n : XMLNode) (key : String) : Option Bool :=
  match XMLValue.lookup n.properties key with
  | some (XMLValue.bool v) => some v
  | _ => none

/-- `XMLNode::get_property (name, PBD::ID&)` or `(name, uint32_t&)`: the numeric value of the
attribute, if the document has the attribute. -/
def XMLNode.get_uint (n : XMLNode) (key : String) : Option Nat :=
  match XMLValue.lookup n.properties key with
  | some (XMLValue.uint v) => some v
  | _ => none

/-- `XMLNode::set_property (name, value)` on a sub-document. -/
def XMLChild.set_property (n : XMLChild) (key : String) (v : XMLValue) : XMLChild :=
  { n with properties := XMLValue.assign n.properties key v }

/-- `XMLNode::remove_property (name)` on a sub-document. -/
def XMLChild.remove_property (n : XMLChild) (key : String) : XMLChild :=
  { n with properties := n.properties.filter (fun q => !(q.1 == key)) }

/-- `XMLNode::get_property (name, std::string&)` on a sub-document. -/
def XMLChild.get_string (n : XMLChild) (key : String) : Option String :=
  match XMLValue.lookup n.properties key with
  | some (XMLValue.string v) => some v
  | _ => none

/-- `enum_2_string (IO::Input)`, `enum_2_string (IO::Output)`: the direction tags of the
persisted schema, `IO{ direction: "Input" }` and `IO{ direction: "Output" }`. -/
def Direction.enum_2_string : Direction → String
  | Direction.Input => "Input"
  | Direction.Output => "Output"

/-- What the collaborators of the control context answer.  None of these functions is defined
in the sources, so each is a parameter.
* The session and free functions: `io_name_is_legal` is `Session::io_name_is_legal`,
  `bump_name_once` is `ARDOUR::bump_name_once (name, delimiter)`,
  `regenerate_xml_or_string_ids` is what `Stateful::regenerate_xml_or_string_ids ()` returns.
* The port groups: `io_set_name io name` is `IO::set_name`: its result and the group
  afterwards; `io_get_state`, `io_set_state` are `IO::get_state` and the group after
  `IO::set_state (node, version)`.
* `PlugInsertBase`: `parse_plugin_type` gives the type and unique id read from a document, or
  none; `find_and_load_plugin` the resolved plugin, or none; `set_control_ids` the control set
  after the persisted control ids were fed back.
* The plugin instance: the functions that change the instance give its `state` afterwards.
* The controls: `automation_control_get_state` is `AutomationControl::get_state ()`,
  `variant_of_double` the constructor `Variant (type, double)`, `variant_to_double` is
  `Variant::to_double ()`.
* `event_type_map_to_symbol` is `EventTypeMap::instance ().to_symbol`, `uri_map_id_to_uri`
  is `URIMap::instance ().id_to_uri`, `plugin_describe_parameter` is
  `Plugin::describe_parameter`. -/
structure Host where
  io_name_is_legal : String → Bool
  bump_name_once : String → Char → String
  regenerate_xml_or_string_ids : Bool
  io_set_name : ARDOUR.IO → String → Bool × ARDOUR.IO
  io_get_state : ARDOUR.IO → XMLChild
  io_set_state : ARDOUR.IO → XMLChild → Int → ARDOUR.IO
  parse_plugin_type : XMLNode → Option (PluginType × String)
  find_and_load_plugin : XMLNode → PluginType → String → Option Plugin
  set_control_ids : List Control → XMLNode → Int → List Control
  plugin_input_streams : Plugin → ChanCount
  plugin_output_streams : Plugin → ChanCount
  plugin_match_variable_io : Plugin → ChanCount → ChanCount → ChanCount →
    (ChanCount × ChanCount × ChanCount) × Nat
  plugin_reconfigure_io : Plugin → ChanCount → ChanCount → ChanCount → Nat
  plugin_activate : Plugin → Nat
  plugin_set_automation_control : Plugin → Nat → Nat
  plugin_set_insert_id : Plugin → Nat → Nat
  plugin_get_state : Plugin → XMLChild
  plugin_set_state : Plugin → XMLChild → Int → Nat
  plugin_get_parameter : Plugin → Nat → Value
  plugin_set_parameter : Plugin → Nat → Value → Nat → Nat
  plugin_set_property : Plugin → Nat → Variant → Nat
  lv2_port_symbol : Plugin → Nat → Option String
  automation_control_get_state : Control → XMLChild
  variant_of_double : VariantType → Value → Variant
  variant_to_double : Variant → Value
  event_type_map_to_symbol : Parameter → String
  uri_map_id_to_uri : Nat → String
  plugin_describe_parameter : Plugin → Parameter → String

/-- `IOPlug::ensure_io_name (newname)`.  The `while` loop is bounded by `fuel` iterations. -/
def IOPlug.ensure_io_name (H : Host) (self : IOPlug) : Nat → String → Except Fault String
  | fuel, newname =>
    -- while (!_session.io_name_is_legal (newname)) {
    if H.io_name_is_legal newname then Except.ok newname
    else
      match fuel with
      | 0 => Except.error Fault.out_of_fuel
      | fuel1 + 1 =>
        -- newname = bump_name_once (newname, ' ');
        let bumped := H.bump_name_once newname ' '
        -- if (newname == name()) { break; }
        if bumped = self._name then Except.ok bumped
        else IOPlug.ensure_io_name H self fuel1 bumped

/-- `IOPlug::set_name (str)`.  Returns the function's result, the object afterwards and the
calls made.  `SessionObject::set_name` "never fails" (the comment and the `assert (ret)` of the
source): it stores the name. -/
def IOPlug.set_name (H : Host) (fuel : Nat) (self : IOPlug) (str : String) :
    Except Fault (Bool × IOPlug × List Call) :=
  -- if (name () == str) { return ret; }
  if self._name = str then Except.ok (true, self, [])
  else
    -- std::string new_name = ensure_io_name (str);
    match self.ensure_io_name H fuel str with
    | Except.error e => Except.error e
    | Except.ok new_name =>
      -- if (ret && _input) { ret = _input->set_name (new_name); }
      let r1 : Bool × Option ARDOUR.IO × List Call :=
        match self._input with
        | none => (true, none, [])
        | some input =>
          ((H.io_set_name input new_name).1, some (H.io_set_name input new_name).2,
            [Call.input_set_name new_name])
      -- if (ret && _output) { ret = _output->set_name (new_name); }
      let r2 : Bool × Option ARDOUR.IO × List Call :=
        if r1.1 then
          match self._output with
          | none => (true, none, r1.2.2)
          | some output =>
            ((H.io_set_name output new_name).1, some (H.io_set_name output new_name).2,
              r1.2.2 ++ [Call.output_set_name new_name])
        else (false, self._output, r1.2.2)
      -- if (ret) { ret = SessionObject::set_name (new_name); assert (ret); }
      if r2.1 then
        Except.ok (true, { self with _input := r1.2.1, _output := r2.2.1, _name := new_name },
          r2.2.2 ++ [Call.session_object_set_name new_name])
      else Except.ok (false, { self with _input := r1.2.1, _output := r2.2.1 }, r2.2.2)

/-- A collaborator set for evaluating the member functions of the control context.  The
session reports exactly the names in `taken` as not legal; `bump_name_once` appends the
delimiter and `1` (what it does to a name that does not end in a number); a port group
accepts a new name iff `in_accepts` (input) or `out_accepts` (output) and is then named as
requested, a refused group stays as it was; a port group's state is its name and direction
and restoring it restores the name; a document resolves to `resolved` when it names type
`lv2` and a unique id; persisted control ids are not fed back; the plugin's streams are its
declared counts and negotiation leaves the counts alone; the instance state is one number:
it is the value of every parameter, it is what the plugin's state document holds and what
restoring such a document brings back; a typed value made from a scalar has the requested
type when that type is numeric and type `NOTHING` otherwise; the plugin describes a parameter
by the label of its descriptor. -/
def Host.simple (taken : List String) (in_accepts out_accepts : Bool)
    (resolved : Option Plugin) : Host :=
  { io_name_is_legal := fun n => !(taken.contains n),
    bump_name_once := fun n d => n ++ String.singleton d ++ "1",
    regenerate_xml_or_string_ids := false,
    io_set_name := fun io n =>
      if (match io.direction with
          | Direction.Input => in_accepts
          | Direction.Output => out_accepts) then (true, { io with name := n })
      else (false, io),
    io_get_state := fun io =>
      { name := "IO",
        properties := [("name", XMLValue.string io.name),
                       ("direction", XMLValue.string io.direction.enum_2_string)] },
    io_set_state := fun io child _ =>
      match child.get_string "name" with
      | some n => { io with name := n }
      | none => io,
    parse_plugin_type := fun node =>
      match node.get_string "type", node.get_string "unique-id" with
      | some t, some uid => if t = "lv2" then some (PluginType.LV2, uid) else none
      | _, _ => none,
    find_and_load_plugin := fun _ _ _ => resolved,
    set_control_ids := fun controls _ _ => controls,
    plugin_input_streams := fun p => p.info.n_inputs,
    plugin_output_streams := fun p => p.info.n_outputs,
    plugin_match_variable_io := fun p n_in aux_in n_out => ((n_in, aux_in, n_out), p.state),
    plugin_reconfigure_io := fun p _ _ _ => p.state,
    plugin_activate := fun p => p.state,
    plugin_set_automation_control := fun p _ => p.state,
    plugin_set_insert_id := fun p _ => p.state,
    plugin_get_state := fun p =>
      { name := p.state_node_name, properties := [("state", XMLValue.uint p.state)] },
    plugin_set_state := fun p child _ =>
      match XMLValue.lookup child.properties "state" with
      | some (XMLValue.uint n) => n
      | _ => p.state,
    plugin_get_parameter := fun p _ => (p.state : Rat),
    plugin_set_parameter := fun _ _ val _ => val.num.toNat,
    plugin_set_property := fun p _ _ => p.state,
    lv2_port_symbol := fun _ _ => none,
    automation_control_get_state := fun c =>
      { name := "Controllable",
        properties := [("name", XMLValue.string c.name), ("id", XMLValue.uint c.id),
                       ("value", XMLValue.uint c.user_value.num.toNat)] },
    variant_of_double := fun t v =>
      match t with
      | VariantType.BOOL => { type := VariantType.BOOL, value := v }
      | VariantType.DOUBLE => { type := VariantType.DOUBLE, value := v }
      | VariantType.FLOAT => { type := VariantType.FLOAT, value := v }
      | VariantType.INT => { type := VariantType.INT, value := v }
      | VariantType.LONG => { type := VariantType.LONG, value := v }
      | _ => { type := VariantType.NOTHING, value := 0 },
    variant_to_double := fun v => v.value,
    event_type_map_to_symbol := fun _ => "parameter",
    uri_map_id_to_uri := fun _ => "urn:example:property",
    plugin_describe_parameter := fun p param =>
      match p.ports[param.id]? with
      | some port => port.desc.label
      | none => "" }

/-- The requested name after `k` rounds of `bump_name_once (newname, ' ')`. -/
def Host.bumped (H : Host) (k : Nat) (str : String) : String :=
  (fun n => H.bump_name_once n ' ')^[k] str

/-- A truncation of a name: a strictly shorter string that the name starts with. -/
def truncation_of (short long : String) : Prop :=
  short.length < long.length ∧ short.data <+: long.data

/-- The 2-in/2-out effect, configured, under the name `A 1` (its port groups carry the same
name). -/
def IOPlug.stereo_named : IOPlug :=
  { IOPlug.stereo_ready with
    _name := "A 1",
    _input := some { name := "A 1", direction := Direction.Input,
                     n_ports := { n_audio := 2, n_midi := 0 } },
    _output := some { name := "A 1", direction := Direction.Output,
                      n_ports := { n_audio := 2, n_midi := 0 } } }

/-- Is the call a write into the plugin (`set_parameter` or `set_property`)? -/
def Call.is_plugin_write : Call → Bool
  | Call.plugin_set_parameter _ _ _ => true
  | Call.plugin_set_property _ _ => true
  | _ => false

/-- The control set after a control object changed: the entry for the control's parameter
holds the control as it is now (the set holds shared pointers to the control objects). -/
def IOPlug.store_control (self : IOPlug) (c : Control) : IOPlug :=
  { self with
    _controls := self._controls.map (fun x => if x.parameter = c.parameter then c else x) }

/-- Modelled from the spec: `AutomationControl::actually_set_value` (ardour/automation_control.h
is not among the sources), the "generic automation base": it takes the value. -/
def AutomationControl.actually_set_value (c : Control) (value : Value) : Control :=
  { c with user_value := value }

/-- `IOPlug::PluginControl::actually_set_value (user_val, group_override)`.  Returns the IOPlug
afterwards (its plugin and its control set), the control afterwards and the calls made. -/
def PluginControl.actually_set_value (H : Host) (iop : IOPlug) (c : Control) (user_val : Value)
    (group_override : GroupControlDisposition) : Except Fault (IOPlug × Control × List Call) :=
  -- _iop->plugin ()->set_parameter (parameter().id(), user_val, 0);
  match iop._plugin with
  | none => Except.error Fault.null_dereference
  | some plugin =>
    let plugin1 := plugin.with_state (H.plugin_set_parameter plugin c.parameter.id user_val 0)
    let iop1 : IOPlug := { iop with _plugin := some plugin1 }
    -- AutomationControl::actually_set_value (user_val, group_override);
    let c1 := AutomationControl.actually_set_value c user_val
    Except.ok (iop1.store_control c1, c1,
      [Call.plugin_set_parameter c.parameter.id user_val 0,
       Call.automation_control_actually_set_value c.parameter user_val group_override])

/-- `IOPlug::PluginControl::catch_up_with_external_value (user_val)`. -/
def PluginControl.catch_up_with_external_value (iop : IOPlug) (c : Control) (user_val : Value) :
    IOPlug × Control × List Call :=
  -- AutomationControl::actually_set_value (user_val, Controllable::NoGroup);
  let c1 := AutomationControl.actually_set_value c user_val
  (iop.store_control c1, c1,
    [Call.automation_control_actually_set_value c.parameter user_val
      GroupControlDisposition.NoGroup])

/-- `IOPlug::PluginControl::get_value ()`. -/
def PluginControl.get_value (H : Host) (iop : IOPlug) (c : Control) : Value :=
  match iop._plugin with
  -- if (!plugin) { return 0.0; }
  | none => 0
  -- return plugin->get_parameter (parameter().id());
  | some plugin => H.plugin_get_parameter plugin c.parameter.id

/-- `IOPlug::parameter_changed_externally (which, val)`: the control keyed
`(PluginAutomation, 0, which)`, when the control set has one and it is a `PluginControl`,
catches up with `val`. -/
def IOPlug.parameter_changed_externally (self : IOPlug) (which : Nat) (val : Value) :
    IOPlug × List Call :=
  match self._controls.find? (fun x =>
      x.parameter = { type := AutomationType.PluginAutomation, channel := 0, id := which }) with
  | none => (self, [])
  | some c =>
    if c.cls = ControlClass.PluginControl then
      ((PluginControl.catch_up_with_external_value self c val).1,
        (PluginControl.catch_up_with_external_value self c val).2.2)
    else (self, [])

/-- `IOPlug::PluginPropertyControl::actually_set_value (user_val, gcd)`. -/
def PluginPropertyControl.actually_set_value (H : Host) (iop : IOPlug) (c : Control)
    (user_val : Value) (gcd : GroupControlDisposition) :
    Except Fault (IOPlug × Control × List Call) :=
  -- const Variant value(_desc.datatype, user_val);
  let value := H.variant_of_double c.desc.datatype user_val
  -- if (value.type() == Variant::NOTHING) { return; }
  if value.type = VariantType.NOTHING then Except.ok (iop, c, [])
  else
    -- _iop->plugin ()->set_property (parameter().id(), value);
    match iop._plugin with
    | none => Except.error Fault.null_dereference
    | some plugin =>
      let plugin1 := plugin.with_state (H.plugin_set_property plugin c.parameter.id value)
      let iop1 : IOPlug := { iop with _plugin := some plugin1 }
      -- _value = value;
      let c1 : Control := { c with _value := value }
      -- AutomationControl::actually_set_value (user_val, gcd);
      let c2 := AutomationControl.actually_set_value c1 user_val
      Except.ok (iop1.store_control c2, c2,
        [Call.plugin_set_property c.parameter.id value,
         Call.automation_control_actually_set_value c.parameter user_val gcd])

/-- `IOPlug::PluginPropertyControl::get_value ()`: `_value.to_double ()`. -/
def PluginPropertyControl.get_value (H : Host) (c : Control) : Value :=
  H.variant_to_double c._value

/-- A `PluginControl` for parameter 0, as `create_parameters` makes it. -/
def gain_control : Control :=
  { cls := ControlClass.PluginControl,
    parameter := { type := AutomationType.PluginAutomation, channel := 0, id := 0 },
    not_automatable := true,
    desc := { datatype := VariantType.NOTHING, label := "gain" } }

/-- A `PluginPropertyControl` for property 7 of declared datatype `DOUBLE`. -/
def property_control : Control :=
  { cls := ControlClass.PluginPropertyControl,
    parameter := { type := AutomationType.PluginPropertyAutomation, channel := 0, id := 7 },
    not_automatable := true,
    desc := { datatype := VariantType.DOUBLE, label := "cutoff" } }

/-- The configured 2-in/2-out effect with the two controls above; the plugin instance is in
state 1, so that (with `Host.simple`) every parameter of the plugin reads 1. -/
def IOPlug.stereo_controlled : IOPlug :=
  { IOPlug.stereo_ready with
    _controls := [gain_control, property_control],
    _plugin := some (stereo_effect.with_state 1) }

/-! ## Parameter discovery and setup -/

/-- `IOPlug::describe_parameter (param)`.  On the `PluginAutomation` branch the source calls
`_plugin->describe_parameter (param)` without returning its result, so control reaches the
final `return EventTypeMap::instance ().to_symbol (param)`. -/
def IOPlug.describe_parameter (H : Host) (self : IOPlug) (param : Parameter) :
    Except Fault String :=
  if param.type = AutomationType.PluginAutomation then
    match self._plugin with
    | none => Except.error Fault.null_dereference
    | some plugin =>
      -- _plugin->describe_parameter (param);   (a statement: the string is dropped)
      let _described := H.plugin_describe_parameter plugin param
      Except.ok (H.event_type_map_to_symbol param)
  else if param.type = AutomationType.PluginPropertyAutomation then
    Except.ok ("Property " ++ H.uri_map_id_to_uri param.id)
  else Except.ok (H.event_type_map_to_symbol param)

/-- `Automatable::add_control (c)`: the control set is a map keyed by parameter, so a control
for a parameter that already has one replaces it; otherwise the control is added. -/
def IOPlug.add_control (self : IOPlug) (c : Control) : IOPlug :=
  { self with
    _controls :=
      if self._controls.any (fun x => decide (x.parameter = c.parameter)) then
        self._controls.map (fun x => if x.parameter = c.parameter then c else x)
      else self._controls ++ [c] }

/-- The assignment `_control_outputs[i] = ...ReadOnlyControl`: index `i` has a meter. -/
def IOPlug.add_control_output (self : IOPlug) (i : Nat) : IOPlug :=
  { self with
    _control_outputs :=
      if self._control_outputs.contains i then self._control_outputs
      else self._control_outputs ++ [i] }

/-- The first loop of `IOPlug::create_parameters`, from parameter index `i` on, over the
plugin's remaining declared parameters.  Carries the IOPlug, the plugin instance and the
calls made. -/
def IOPlug.create_port_controls (H : Host) :
    Nat → List PortDeclaration → IOPlug × Plugin × List Call → IOPlug × Plugin × List Call
  | _, [], acc => acc
  | i, port :: rest, acc =>
    -- if (!_plugin->parameter_is_control (i)) { continue; }
    if port.is_control = false then IOPlug.create_port_controls H (i + 1) rest acc
    -- if (!_plugin->parameter_is_input (i)) { _control_outputs[i] = ...; continue; }
    else if port.is_input = false then
      IOPlug.create_port_controls H (i + 1) rest (acc.1.add_control_output i, acc.2.1, acc.2.2)
    else
      -- Evoral::Parameter param (PluginAutomation, 0, i);
      let param : Parameter := { type := AutomationType.PluginAutomation, channel := 0, id := i }
      -- c (new PluginControl(this, param, desc)); c->set_flag (Controllable::NotAutomatable);
      let c : Control :=
        { cls := ControlClass.PluginControl, parameter := param, not_automatable := true,
          desc := port.desc, name := H.event_type_map_to_symbol param }
      -- add_control (c); _plugin->set_automation_control (i, c);
      IOPlug.create_port_controls H (i + 1) rest
        (acc.1.add_control c,
         acc.2.1.with_state (H.plugin_set_automation_control acc.2.1 i),
         acc.2.2 ++ [Call.plugin_set_automation_control i])

/-- The second loop of `IOPlug::create_parameters`, over the keys of the plugin's supported
properties. -/
def IOPlug.create_property_controls (plugin : Plugin) : List Nat → IOPlug → IOPlug
  | [], s => s
  | key :: rest, s =>
    -- Evoral::Parameter param (PluginPropertyAutomation, 0, p->first);
    let param : Parameter :=
      { type := AutomationType.PluginPropertyAutomation, channel := 0, id := key }
    -- desc = _plugin->get_property_descriptor (param.id());
    let desc := plugin.get_property_descriptor param.id
    -- if (desc.datatype == Variant::NOTHING) { continue; }
    if desc.datatype = VariantType.NOTHING then IOPlug.create_property_controls plugin rest s
    else
      IOPlug.create_property_controls plugin rest
        (s.add_control
          { cls := ControlClass.PluginPropertyControl, parameter := param,
            not_automatable := true, desc := desc })

/-- `IOPlug::create_parameters`. -/
def IOPlug.create_parameters (H : Host) (self : IOPlug) : Except Fault (IOPlug × List Call) :=
  -- assert (_plugin);
  match self._plugin with
  | none => Except.error Fault.assertion_failed
  | some plugin =>
    let r1 := IOPlug.create_port_controls H 0 plugin.ports (self, plugin, [])
    let s2 := IOPlug.create_property_controls r1.2.1 r1.2.1.supported_properties r1.1
    -- _plugin->PresetPortSetValue.connect_same_thread (...);
    Except.ok ({ s2 with _plugin := some r1.2.1 },
      r1.2.2 ++ [Call.plugin_connect_preset_port_set_value])

/-- `IOPlug::setup`. -/
def IOPlug.setup (H : Host) (self : IOPlug) : Except Fault (IOPlug × List Call) :=
  -- create_parameters ();
  match self.create_parameters H with
  | Except.error e => Except.error e
  | Except.ok r1 =>
    -- PluginInfoPtr pip = _plugin->get_info (); ChanCount aux_in;
    match r1.1._plugin with
    | none => Except.error Fault.null_dereference
    | some plugin =>
      let aux_in := ChanCount.ZERO
      if plugin.info.reconfigurable_io = true then
        -- _n_in = _plugin->input_streams (); _n_out = _plugin->output_streams ();
        let n_in0 := H.plugin_input_streams plugin
        let n_out0 := H.plugin_output_streams plugin
        -- _plugin->match_variable_io (_n_in, aux_in, _n_out);   (all three by reference)
        let m := H.plugin_match_variable_io plugin n_in0 aux_in n_out0
        let plugin1 := plugin.with_state m.2
        -- _plugin->reconfigure_io (_n_in, aux_in, _n_out); ...connect...; _plugin->activate ();
        let plugin2 := plugin1.with_state (H.plugin_reconfigure_io plugin1 m.1.1 m.1.2.1 m.1.2.2)
        let plugin3 := plugin2.with_state (H.plugin_activate plugin2)
        Except.ok ({ r1.1 with _n_in := m.1.1, _n_out := m.1.2.2, _plugin := some plugin3 },
          r1.2 ++ [Call.plugin_match_variable_io n_in0 aux_in n_out0,
                   Call.plugin_reconfigure_io m.1.1 m.1.2.1 m.1.2.2,
                   Call.plugin_connect_parameter_changed_externally, Call.plugin_activate])
      else
        -- _n_in = pip->n_inputs; _n_out = pip->n_outputs;
        let plugin2 := plugin.with_state
          (H.plugin_reconfigure_io plugin plugin.info.n_inputs aux_in plugin.info.n_outputs)
        let plugin3 := plugin2.with_state (H.plugin_activate plugin2)
        Except.ok
          ({ r1.1 with _n_in := plugin.info.n_inputs, _n_out := plugin.info.n_outputs,
                       _plugin := some plugin3 },
          r1.2 ++ [Call.plugin_reconfigure_io plugin.info.n_inputs aux_in plugin.info.n_outputs,
                   Call.plugin_connect_parameter_changed_externally, Call.plugin_activate])

/-- The constructor `IOPlug::IOPlug (Session&, boost::shared_ptr<Plugin> p, bool pre)`; `id` is
the id the new object draws.  The name starts empty; with a plugin, `setup ()` and
`set_name (string_compose (_("IO %1"), p->get_info()->name))` run before the port groups
exist; then both port groups are created under the name the object has by then. -/
def IOPlug.construct (H : Host) (fuel : Nat) (p : Option Plugin) (pre : Bool) (id : Nat) :
    Except Fault (IOPlug × List Call) :=
  let self0 : IOPlug :=
    { _name := "", _controls := [], _n_in := ChanCount.ZERO, _n_out := ChanCount.ZERO,
      _plugin := p, _pre := pre, _control_outputs := [], _bufs := BufferSet.empty,
      _input := none, _output := none,
      _timing_stats := { start_val := none, durations := [] },
      -- g_atomic_int_set (&_stat_reset, 0);
      _stat_reset := 0, _id := id }
  let with_ports (s : IOPlug) : IOPlug :=
    -- _input.reset (new IO (_session, name (), IO::Input)); _output.reset (...);
    { s with
      _input := some { name := s._name, direction := Direction.Input, n_ports := ChanCount.ZERO },
      _output := some { name := s._name, direction := Direction.Output,
                        n_ports := ChanCount.ZERO } }
  match p with
  | none => Except.ok (with_ports self0, [])
  | some plugin =>
    -- if (_plugin) { setup (); set_name (...); }
    match self0.setup H with
    | Except.error e => Except.error e
    | Except.ok r1 =>
      match r1.1.set_name H fuel ("IO " ++ plugin.info.name) with
      | Except.error e => Except.error e
      | Except.ok r2 => Except.ok (with_ports r2.2.1, r1.2 ++ r2.2.2)

/-! ## Persistence: `get_state` and `set_state` -/

/-- Does `boost::dynamic_pointer_cast<AutomationControl>` succeed on the control? -/
def Control.is_automation_control (c : Control) : Bool :=
  match c.cls with
  | ControlClass.EvoralControl => false
  | _ => true

/-- `IOPlug::PluginControl::get_state ()`; `plugin` is `_iop->plugin ()`, and
`Host.lv2_port_symbol` answers none when that plugin is not an `LV2Plugin`. -/
def PluginControl.get_state (H : Host) (plugin : Option Plugin) (c : Control) : XMLChild :=
  -- XMLNode& node (AutomationControl::get_state()); node.set_property ("parameter", ...);
  let node := (H.automation_control_get_state c).set_property "parameter"
    (XMLValue.uint c.parameter.id)
  -- if (lv2plugin) { node.set_property ("symbol", lv2plugin->port_symbol (parameter().id())); }
  match plugin with
  | none => node
  | some p =>
    match H.lv2_port_symbol p c.parameter.id with
    | some symbol => node.set_property "symbol" (XMLValue.string symbol)
    | none => node

/-- `IOPlug::PluginPropertyControl::get_state ()`. -/
def PluginPropertyControl.get_state (H : Host) (c : Control) : XMLChild :=
  ((H.automation_control_get_state c).set_property "property"
    (XMLValue.uint c.parameter.id)).remove_property "value"

/-- The virtual call `ac->get_state ()` on an automation control of the control set. -/
def Control.get_state (H : Host) (plugin : Option Plugin) (c : Control) : XMLChild :=
  match c.cls with
  | ControlClass.PluginControl => PluginControl.get_state H plugin c
  | ControlClass.PluginPropertyControl => PluginPropertyControl.get_state H c
  | _ => H.automation_control_get_state c

/-- The loop `for (auto const& c : controls()) { ... if (ac) { node->add_child_nocopy
(ac->get_state()); } }` of `IOPlug::get_state`. -/
def IOPlug.add_control_states (H : Host) (plugin : Option Plugin) :
    List Control → XMLNode × List Call → XMLNode × List Call
  | [], acc => acc
  | c :: rest, acc =>
    if c.is_automation_control = true then
      IOPlug.add_control_states H plugin rest
        (acc.1.add_child_nocopy (c.get_state H plugin),
         acc.2 ++ [Call.control_get_state c.parameter])
    else IOPlug.add_control_states H plugin rest acc

/-- `IOPlug::get_state`.  Returns the document, the object afterwards and the calls made. -/
def IOPlug.get_state (H : Host) (self : IOPlug) : Except Fault (XMLNode × IOPlug × List Call) :=
  -- XMLNode* node = new XMLNode ("IOPlug");
  let node0 : XMLNode := { name := "IOPlug", properties := [], children := [] }
  -- node->set_property("type", _plugin->state_node_name ());
  match self._plugin with
  | none => Except.error Fault.null_dereference
  | some plugin =>
    let node1 := node0.set_property "type" (XMLValue.string plugin.state_node_name)
    let node2 := node1.set_property "unique-id" (XMLValue.string plugin.unique_id)
    let node3 := node2.set_property "id" (XMLValue.uint self._id)
    let node4 := node3.set_property "name" (XMLValue.string self._name)
    let node5 := node4.set_property "pre" (XMLValue.bool self._pre)
    -- _plugin->set_insert_id(this->id());
    let plugin1 := plugin.with_state (H.plugin_set_insert_id plugin self._id)
    -- node->add_child_nocopy (_plugin->get_state());
    let node6 := node5.add_child_nocopy (H.plugin_get_state plugin1)
    let r7 := IOPlug.add_control_states H (some plugin1) self._controls
      (node6, [Call.plugin_set_insert_id self._id, Call.plugin_get_state])
    -- if (_input) { node->add_child_nocopy (_input->get_state ()); }
    let r8 : XMLNode × List Call :=
      match self._input with
      | none => r7
      | some input => (r7.1.add_child_nocopy (H.io_get_state input), r7.2 ++ [Call.input_get_state])
    -- if (_output) { node->add_child_nocopy (_output->get_state ()); }
    let r9 : XMLNode × List Call :=
      match self._output with
      | none => r8
      | some output =>
        (r8.1.add_child_nocopy (H.io_get_state output), r8.2 ++ [Call.output_get_state])
    Except.ok (r9.1, { self with _plugin := some plugin1 }, r9.2)

/-- `Stateful::set_id (node)`, with `regenerate_xml_or_string_ids ()` false: the id is taken
from the document's `id` attribute when it has one. -/
def IOPlug.set_id (self : IOPlug) (node : XMLNode) : IOPlug :=
  match node.get_uint "id" with
  | some id => { self with _id := id }
  | none => self

/-- The first part of `IOPlug::set_state`, down to `set_control_ids (node, version)`.  The
boolean tells whether the part ran through; when it is false, `set_state` returns -1 at one of
its two early returns. -/
def IOPlug.set_state_load (H : Host) (fuel : Nat) (self : IOPlug) (node : XMLNode)
    (version : Int) : Except Fault (Bool × IOPlug × List Call) :=
  -- set_id (node); assert (!regenerate_xml_or_string_ids ());
  if H.regenerate_xml_or_string_ids = true then Except.error Fault.assertion_failed
  else
    let self1 := self.set_id node
    -- if (! parse_plugin_type (node, type, unique_id)) { return -1; }
    match H.parse_plugin_type node with
    | none => Except.ok (false, self1, [])
    | some tu =>
      -- _plugin = find_and_load_plugin (_session, node, type, unique_id, any_vst);
      let self2 : IOPlug := { self1 with _plugin := H.find_and_load_plugin node tu.1 tu.2 }
      let tr2 : List Call := [Call.find_and_load_plugin tu.1 tu.2]
      -- if (!_plugin) { return -1; }
      match self2._plugin with
      | none => Except.ok (false, self2, tr2)
      | some plugin =>
        -- if (node.get_property ("name", name)) { set_name (name); }
        -- else { set_name (string_compose (_("IO %1"), _plugin->get_info()->name)); }
        let requested : String :=
          match node.get_string "name" with
          | some name => name
          | none => "IO " ++ plugin.info.name
        match self2.set_name H fuel requested with
        | Except.error e => Except.error e
        | Except.ok r3 =>
          -- node.get_property ("pre", _pre);
          let self4 : IOPlug :=
            match node.get_bool "pre" with
            | some pre => { r3.2.1 with _pre := pre }
            | none => r3.2.1
          -- setup ();
          match self4.setup H with
          | Except.error e => Except.error e
          | Except.ok r5 =>
            -- set_control_ids (node, version);
            Except.ok (true,
              { r5.1 with _controls := H.set_control_ids r5.1._controls node version },
              tr2 ++ r3.2.2 ++ r5.2 ++ [Call.set_control_ids version])

/-- The first loop of the second part of `IOPlug::set_state`: the plugin's state is restored
from the first child named after the plugin's state node, if there is one. -/
def IOPlug.restore_plugin_state (H : Host) (self : IOPlug) (node : XMLNode) (version : Int) :
    Except Fault (IOPlug × List Call) :=
  match self._plugin with
  | none =>
    -- (*niter)->name() == _plugin->state_node_name () is evaluated for the first child
    if node.children = [] then Except.ok (self, []) else Except.error Fault.null_dereference
  | some plugin =>
    match node.children.find? (fun c => c.name == plugin.state_node_name) with
    | none => Except.ok (self, [])
    | some child =>
      -- _plugin->set_state (**niter, version); break;
      Except.ok
        ({ self with _plugin := some (plugin.with_state (H.plugin_set_state plugin child version)) },
         [Call.plugin_set_state child version])

/-- Is the child tagged with the direction: `(*niter)->get_property ("direction", str) &&
str == enum_2_string (d)`. -/
def XMLChild.has_direction (d : Direction) (c : XMLChild) : Bool :=
  match c.get_string "direction" with
  | some str => str == d.enum_2_string
  | none => false

/-- The second loop: if there is an input port group, it is restored from the first child
tagged `Input`, if there is one. -/
def IOPlug.restore_input (H : Host) (self : IOPlug) (node : XMLNode) (version : Int) :
    IOPlug × List Call :=
  match self._input with
  | none => (self, [])
  | some input =>
    match node.children.find? (XMLChild.has_direction Direction.Input) with
    | none => (self, [])
    | some child =>
      -- _input->set_state(**niter, version); break;
      ({ self with _input := some (H.io_set_state input child version) },
       [Call.input_set_state child version])

/-- The body of the third loop over the remaining children: the output port group is restored
from every child tagged `Output`, one after the other (the loop has no `break`). -/
def IOPlug.restore_output_from (H : Host) (version : Int) :
    List XMLChild → ARDOUR.IO × List Call → ARDOUR.IO × List Call
  | [], acc => acc
  | child :: rest, acc =>
    if child.has_direction Direction.Output = true then
      -- _output->set_state(**niter, version);
      IOPlug.restore_output_from H version rest
        (H.io_set_state acc.1 child version, acc.2 ++ [Call.output_set_state child version])
    else IOPlug.restore_output_from H version rest acc

/-- The third loop: if there is an output port group, it is restored from the children tagged
`Output`. -/
def IOPlug.restore_output (H : Host) (self : IOPlug) (node : XMLNode) (version : Int) :
    IOPlug × List Call :=
  match self._output with
  | none => (self, [])
  | some output =>
    ({ self with
       _output := some (IOPlug.restore_output_from H version node.children (output, [])).1 },
     (IOPlug.restore_output_from H version node.children (output, [])).2)

/-- `IOPlug::set_state (node, version)`.  Returns the function's result, the object afterwards
and the calls made. -/
def IOPlug.set_state (H : Host) (fuel : Nat) (self : IOPlug) (node : XMLNode) (version : Int) :
    Except Fault (Int × IOPlug × List Call) :=
  match self.set_state_load H fuel node version with
  | Except.error e => Except.error e
  | Except.ok r1 =>
    if r1.1 = false then Except.ok (-1, r1.2.1, r1.2.2)
    else
      match r1.2.1.restore_plugin_state H node version with
      | Except.error e => Except.error e
      | Except.ok r2 =>
        let r3 := r2.1.restore_input H node version
        let r4 := r3.1.restore_output H node version
        -- return 0;
        Except.ok (0, r4.1, r1.2.2 ++ r2.2 ++ r3.2 ++ r4.2)

/-- A 2-in/2-out gain effect that declares three parameters (a control input `gain`, a
control output `level`, an audio port) and two properties, of which only property 7 has a
datatype; the instance is in state 5. -/
def gain_plugin : Plugin :=
  { unique_id := "urn:example:gain",
    info := { name := "gain", n_inputs := { n_audio := 2, n_midi := 0 },
              n_outputs := { n_audio := 2, n_midi := 0 },
              reconfigurable_io := false, is_instrument := false },
    ports := [{ is_control := true, is_input := true,
                desc := { datatype := VariantType.NOTHING, label := "gain" } },
              { is_control := true, is_input := false,
                desc := { datatype := VariantType.NOTHING, label := "level" } },
              { is_control := false, is_input := true,
                desc := { datatype := VariantType.NOTHING, label := "in" } }],
    supported_properties := [7, 9],
    property_descriptors := [(7, { datatype := VariantType.DOUBLE, label := "cutoff" })],
    state := 5 }

/-- The IOPlug the constructor builds for `gain_plugin` (post position, id 42) in a session
where every name is legal: named `IO gain`, one `PluginControl` for parameter 0, one
`PluginPropertyControl` for property 7, a meter for parameter 1, port groups without ports. -/
def IOPlug.gain_constructed : IOPlug :=
  { _name := "IO gain",
    _controls :=
      [{ cls := ControlClass.PluginControl,
         parameter := { type := AutomationType.PluginAutomation, channel := 0, id := 0 },
         not_automatable := true,
         desc := { datatype := VariantType.NOTHING, label := "gain" },
         name := "parameter" },
       { cls := ControlClass.PluginPropertyControl,
         parameter := { type := AutomationType.PluginPropertyAutomation, channel := 0, id := 7 },
         not_automatable := true,
         desc := { datatype := VariantType.DOUBLE, label := "cutoff" } }],
    _n_in := { n_audio := 2, n_midi := 0 },
    _n_out := { n_audio := 2, n_midi := 0 },
    _plugin := some gain_plugin,
    _pre := false,
    _control_outputs := [1],
    _bufs := BufferSet.empty,
    _input := some { name := "IO gain", direction := Direction.Input,
                     n_ports := ChanCount.ZERO },
    _output := some { name := "IO gain", direction := Direction.Output,
                      n_ports := ChanCount.ZERO },
    _timing_stats := { start_val := none, durations := [] },
    _stat_reset := 0,
    _id := 42 }

/-- The IOPlug the constructor builds without a plugin (pre position, id 1): unconfigured. -/
def IOPlug.unconfigured : IOPlug :=
  { _name := "",
    _controls := [],
    _n_in := ChanCount.ZERO,
    _n_out := ChanCount.ZERO,
    _plugin := none,
    _pre := true,
    _control_outputs := [],
    _bufs := BufferSet.empty,
    _input := some { name := "", direction := Direction.Input, n_ports := ChanCount.ZERO },
    _output := some { name := "", direction := Direction.Output, n_ports := ChanCount.ZERO },
    _timing_stats := { start_val := none, durations := [] },
    _stat_reset := 0,
    _id := 1 }

/-- Is the call one of the three restoring calls of `set_state`: `_plugin->set_state`,
`_input->set_state`, `_output->set_state`? -/
def Call.is_restore : Call → Bool
  | Call.plugin_set_state _ _ => true
  | Call.input_set_state _ _ => true
  | Call.output_set_state _ _ => true
  | _ => false

/-- Is the call `_plugin->set_state`? -/
def Call.is_plugin_set_state : Call → Bool
  | Call.plugin_set_state _ _ => true
  | _ => false

/-- Is the call `_input->set_state`? -/
def Call.is_input_set_state : Call → Bool
  | Call.input_set_state _ _ => true
  | _ => false

/-- Is the call `_output->set_state`? -/
def Call.is_output_set_state : Call → Bool
  | Call.output_set_state _ _ => true
  | _ => false

/-- A document whose `type` attribute names no plugin format `Host.simple` can parse; its
`id` attribute is 7. -/
def unparsable_document : XMLNode :=
  { name := "IOPlug",
    properties := [("type", XMLValue.string "vst9"), ("unique-id", XMLValue.string "x"),
                   ("id", XMLValue.uint 7), ("name", XMLValue.string "other"),
                   ("pre", XMLValue.bool true)],
    children := [] }

/-- A document that parses (type `lv2`, a unique id) and has no children; its `id` attribute
is 7, its name `other`, its position pre. -/
def childless_document : XMLNode :=
  { name := "IOPlug",
    properties := [("type", XMLValue.string "lv2"),
                   ("unique-id", XMLValue.string "urn:example:gain"),
                   ("id", XMLValue.uint 7), ("name", XMLValue.string "other"),
                   ("pre", XMLValue.bool true)],
    children := [] }

/-- The channel counts `setup` computes for a plugin instance: the pair the plugin negotiates
from its current streams when its info reports reconfigurable I/O, the declared counts
otherwise. -/
def IOPlug.negotiated (H : Host) (plugin : Plugin) : ChanCount × ChanCount :=
  if plugin.info.reconfigurable_io = true then
    ((H.plugin_match_variable_io plugin (H.plugin_input_streams plugin) ChanCount.ZERO
        (H.plugin_output_streams plugin)).1.1,
     (H.plugin_match_variable_io plugin (H.plugin_input_streams plugin) ChanCount.ZERO
        (H.plugin_output_streams plugin)).1.2.2)
  else (plugin.info.n_inputs, plugin.info.n_outputs)

/-- The IOPlug that the first part of `set_state` leaves when `childless_document` is loaded
into `IOPlug.unconfigured` and the document resolves to `gain_plugin`: what the constructor
builds for `gain_plugin`, with the document's id, name and position. -/
def IOPlug.gain_loaded : IOPlug :=
  { IOPlug.gain_constructed with
    _name := "other",
    _pre := true,
    _id := 7,
    _input := some { name := "other", direction := Direction.Input,
                     n_ports := ChanCount.ZERO },
    _output := some { name := "other", direction := Direction.Output,
                      n_ports := ChanCount.ZERO } }

/-- The calls made by the first part of `set_state` on that load. -/
def gain_load_trace : List Call :=
  [Call.find_and_load_plugin PluginType.LV2 "urn:example:gain",
   Call.input_set_name "other", Call.output_set_name "other",
   Call.session_object_set_name "other",
   Call.plugin_set_automation_control 0,
   Call.plugin_connect_preset_port_set_value,
   Call.plugin_reconfigure_io { n_audio := 2, n_midi := 0 } ChanCount.ZERO
     { n_audio := 2, n_midi := 0 },
   Call.plugin_connect_parameter_changed_externally,
   Call.plugin_activate,
   Call.set_control_ids 3000]

/-- The document `get_state` returns for `IOPlug.gain_constructed` under `Host.simple`. -/
def gain_document : XMLNode :=
  { name := "IOPlug",
    properties := [("type", XMLValue.string "lv2"),
                   ("unique-id", XMLValue.string "urn:example:gain"),
                   ("id", XMLValue.uint 42),
                   ("name", XMLValue.string "IO gain"),
                   ("pre", XMLValue.bool false)],
    children :=
      [{ name := "lv2", properties := [("state", XMLValue.uint 5)] },
       { name := "Controllable",
         properties := [("name", XMLValue.string "parameter"), ("id", XMLValue.uint 0),
                        ("value", XMLValue.uint 0), ("parameter", XMLValue.uint 0)] },
       { name := "Controllable",
         properties := [("name", XMLValue.string ""), ("id", XMLValue.uint 0),
                        ("property", XMLValue.uint 7)] },
       { name := "IO",
         properties := [("name", XMLValue.string "IO gain"),
                        ("direction", XMLValue.string "Input")] },
       { name := "IO",
         properties := [("name", XMLValue.string "IO gain"),
                        ("direction", XMLValue.string "Output")] }] }

/-- The calls `get_state` makes on `IOPlug.gain_constructed`. -/
def gain_get_state_trace : List Call :=
  [Call.plugin_set_insert_id 42, Call.plugin_get_state,
   Call.control_get_state { type := AutomationType.PluginAutomation, channel := 0, id := 0 },
   Call.control_get_state
     { type := AutomationType.PluginPropertyAutomation, channel := 0, id := 7 },
   Call.input_get_state, Call.output_get_state]

/-- Is the call `_timing_stats.start ()`? -/
def Call.is_timing_start : Call → Bool
  | Call.timing_stats_start => true
  | _ => false

/-- Is the call `_timing_stats.update ()`? -/
def Call.is_timing_update : Call → Bool
  | Call.timing_stats_update => true
  | _ => false

/-- A document that parses (type `lv2`, a unique id) and has two children of each kind: two
named after the plugin's state node (holding states 1 and 2), two tagged `Input` and two tagged
`Output`. -/
def doubled_document : XMLNode :=
  { name := "IOPlug",
    properties := [("type", XMLValue.string "lv2"),
                   ("unique-id", XMLValue.string "urn:example:gain"),
                   ("id", XMLValue.uint 7), ("name", XMLValue.string "other"),
                   ("pre", XMLValue.bool true)],
    children :=
      [{ name := "lv2", properties := [("state", XMLValue.uint 1)] },
       { name := "lv2", properties := [("state", XMLValue.uint 2)] },
       { name := "IO",
         properties := [("name", XMLValue.string "in first"),
                        ("direction", XMLValue.string "Input")] },
       { name := "IO",
         properties := [("name", XMLValue.string "in second"),
                        ("direction", XMLValue.string "Input")] },
       { name := "IO",
         properties := [("name", XMLValue.string "out first"),
                        ("direction", XMLValue.string "Output")] },
       { name := "IO",
         properties := [("name", XMLValue.string "out second"),
                        ("direction", XMLValue.string "Output")] }] }

/-- Is the call `_plugin->reconfigure_io`? -/
def Call.is_reconfigure_io : Call → Bool
  | Call.plugin_reconfigure_io _ _ _ => true
  | _ => false

/-- The instance state of a plugin that remembers the counts it was last configured with. -/
def encode_streams (n_in n_out : ChanCount) : Nat :=
  Nat.pair (Nat.pair n_in.n_audio n_in.n_midi) (Nat.pair n_out.n_audio n_out.n_midi)

/-- A 2-in/2-out effect whose info reports reconfigurable I/O; its instance state says it is
configured for 2 audio inputs and 2 audio outputs. -/
def variable_effect : Plugin :=
  { unique_id := "urn:example:variable",
    info := { name := "variable", n_inputs := { n_audio := 2, n_midi := 0 },
              n_outputs := { n_audio := 2, n_midi := 0 },
              reconfigurable_io := true, is_instrument := false },
    state := encode_streams { n_audio := 2, n_midi := 0 } { n_audio := 2, n_midi := 0 } }

/-- The collaborators of `Host.simple`, with a plugin that answers `match_variable_io` by
asking for one auxiliary (side-chain) audio input next to the counts it was offered. -/
def Host.sidechain : Host :=
  { Host.simple [] true true none with
    plugin_match_variable_io := fun p n_in _ n_out =>
      ((n_in, { n_audio := 1, n_midi := 0 }, n_out), p.state) }

/-- The object on which the constructor runs `setup ()` when it is handed `plugin`: the name
is empty and the port groups do not exist yet. -/
def IOPlug.initial (plugin : Plugin) (pre : Bool) (id : Nat) : IOPlug :=
  { _name := "", _controls := [], _n_in := ChanCount.ZERO, _n_out := ChanCount.ZERO,
    _plugin := some plugin, _pre := pre, _control_outputs := [], _bufs := BufferSet.empty,
    _input := none, _output := none,
    _timing_stats := { start_val := none, durations := [] },
    _stat_reset := 0, _id := id }

/-- The plugin instance after `reconfigure_io (n_in, aux_in, n_out)` followed by
`activate ()`. -/
def Host.configured (H : Host) (q : Plugin) (n_in aux_in n_out : ChanCount) : Plugin :=
  (q.with_state (H.plugin_reconfigure_io q n_in aux_in n_out)).with_state
    (H.plugin_activate (q.with_state (H.plugin_reconfigure_io q n_in aux_in n_out)))

/-- The control the first loop of `create_parameters` makes for parameter `i`:
`new PluginControl (this, Evoral::Parameter (PluginAutomation, 0, i), desc)` with the flag
`NotAutomatable` set. -/
def PluginControl.for_port (H : Host) (i : Nat) (port : PortDeclaration) : Control :=
  { cls := ControlClass.PluginControl,
    parameter := { type := AutomationType.PluginAutomation, channel := 0, id := i },
    not_automatable := true, desc := port.desc,
    name := H.event_type_map_to_symbol
      { type := AutomationType.PluginAutomation, channel := 0, id := i } }

/-- The control the second loop of `create_parameters` makes for the property `key`:
`new PluginPropertyControl (this, Evoral::Parameter (PluginPropertyAutomation, 0, key), desc)`
with the flag `NotAutomatable` set. -/
def PluginPropertyControl.for_key (plugin : Plugin) (key : Nat) : Control :=
  { cls := ControlClass.PluginPropertyControl,
    parameter := { type := AutomationType.PluginPropertyAutomation, channel := 0, id := key },
    not_automatable := true, desc := plugin.get_property_descriptor key }

/-! ## What `run` does, case by case -/

/-- The exchange at the head of `run` touches the flag and the statistics only. -/
theorem IOPlug.consume_stat_reset_frame (self : IOPlug) :
    self.consume_stat_reset.1._plugin = self._plugin ∧
    self.consume_stat_reset.1._output = self._output ∧
    self.consume_stat_reset.1._input = self._input ∧
    self.consume_stat_reset.1._bufs = self._bufs ∧
    self.consume_stat_reset.1._n_in = self._n_in ∧
    self.consume_stat_reset.1._n_out = self._n_out := by
  unfold IOPlug.consume_stat_reset
  split <;> simp

/-- `run` without a plugin: the exchange on the flag, then `_output->silence (n_samples)`. -/
theorem IOPlug.run_no_plugin (E : Env) (self : IOPlug) (out : ARDOUR.IO) (start : Int)
    (n_samples : Nat) (h_plugin : self._plugin = none) (h_out : self._output = some out)
    (h_n : 0 < n_samples) :
    self.run E start n_samples =
      Except.ok (self.consume_stat_reset.1,
        [Call.update_thread_tempo_map] ++ self.consume_stat_reset.2
          ++ [Call.output_silence n_samples]) := by
  obtain ⟨hp, ho, -⟩ := self.consume_stat_reset_frame
  have hn : n_samples ≠ 0 := Nat.pos_iff_ne_zero.mp h_n
  simp only [IOPlug.run, hn, if_false, hp, h_plugin, ho, h_out]

/-- `run` with a plugin whose `connect_and_run` returns non-zero. -/
theorem IOPlug.run_plugin_failure (E : Env) (self : IOPlug) (plugin : Plugin)
    (input out : ARDOUR.IO) (start : Int) (n_samples : Nat)
    (h_plugin : self._plugin = some plugin) (h_in : self._input = some input)
    (h_out : self._output = some out) (h_n : 0 < n_samples)
    (h_rc : (self.plugin_answer E plugin input start n_samples).1 ≠ 0) :
    self.run E start n_samples =
      Except.ok
        ({ self.consume_stat_reset.1 with
            _bufs := (self.plugin_answer E plugin input start n_samples).2,
            _timing_stats :=
              (self.consume_stat_reset.1._timing_stats.start E.clock_at_start).update
                E.clock_at_update },
         [Call.update_thread_tempo_map] ++ self.consume_stat_reset.2
          ++ [Call.timing_stats_start, Call.input_collect_input n_samples ChanCount.ZERO,
              Call.plugin_connect_and_run start (samplepos_end start n_samples 1) 1
                (ChanMapping.identity self._n_in) (ChanMapping.identity self._n_out) n_samples 0,
              Call.output_silence n_samples, Call.timing_stats_update]) := by
  obtain ⟨hp, ho, hi, hb, hni, hno⟩ := self.consume_stat_reset_frame
  have hn : n_samples ≠ 0 := Nat.pos_iff_ne_zero.mp h_n
  unfold IOPlug.plugin_answer at h_rc
  simp only [IOPlug.run, hn, if_false, hp, h_plugin, ho, h_out, hi, h_in, hb, hni, hno]
  rw [if_pos h_rc]
  simp [IOPlug.plugin_answer]

/-- `run` with a plugin whose `connect_and_run` returns zero. -/
theorem IOPlug.run_plugin_success (E : Env) (self : IOPlug) (plugin : Plugin)
    (input out : ARDOUR.IO) (start : Int) (n_samples : Nat)
    (h_plugin : self._plugin = some plugin) (h_in : self._input = some input)
    (h_out : self._output = some out) (h_n : 0 < n_samples)
    (h_rc : (self.plugin_answer E plugin input start n_samples).1 = 0) :
    self.run E start n_samples =
      Except.ok
        ({ self.consume_stat_reset.1 with
            _bufs := (self.plugin_answer E plugin input start n_samples).2,
            _timing_stats :=
              (self.consume_stat_reset.1._timing_stats.start E.clock_at_start).update
                E.clock_at_update },
         [Call.update_thread_tempo_map] ++ self.consume_stat_reset.2
          ++ [Call.timing_stats_start, Call.input_collect_input n_samples ChanCount.ZERO,
              Call.plugin_connect_and_run start (samplepos_end start n_samples 1) 1
                (ChanMapping.identity self._n_in) (ChanMapping.identity self._n_out) n_samples 0]
          ++ IOPlug.copy_loop (self.plugin_answer E plugin input start n_samples).2 n_samples
          ++ [Call.timing_stats_update]) := by
  obtain ⟨hp, ho, hi, hb, hni, hno⟩ := self.consume_stat_reset_frame
  have hn : n_samples ≠ 0 := Nat.pos_iff_ne_zero.mp h_n
  unfold IOPlug.plugin_answer at h_rc
  simp only [IOPlug.run, hn, if_false, hp, h_plugin, ho, h_out, hi, h_in, hb, hni, hno]
  rw [if_neg (by simpa using h_rc)]
  simp [IOPlug.plugin_answer]

/-- The exchange at the head of `run` makes no call, or the one `_timing_stats.reset ()`. -/
theorem IOPlug.consume_stat_reset_calls (self : IOPlug) :
    self.consume_stat_reset.2 = [] ∨ self.consume_stat_reset.2 = [Call.timing_stats_reset] := by
  unfold IOPlug.consume_stat_reset
  split <;> simp

/-! ## C1, C2, C4: the three ways through `run` -/

/-- C1: for every IOPlug with no plugin loaded (its output port group in place) and every
n_samples > 0, `run (start, n_samples)` returns normally, calls `_output->silence (n_samples)`
exactly once and as its last call, calls neither `collect_input` nor `connect_and_run` nor
`copy_to_outputs`, and leaves the buffer set and both port groups as they were. -/
theorem C1_run_without_plugin_silences (E : Env) (self : IOPlug) (out : ARDOUR.IO)
    (start : Int) (n_samples : Nat) (h_plugin : self._plugin = none)
    (h_out : self._output = some out) (h_n : 0 < n_samples) :
    ∃ s1 tr, self.run E start n_samples = Except.ok (s1, tr) ∧
      tr.filter Call.is_silence = [Call.output_silence n_samples] ∧
      tr.getLast? = some (Call.output_silence n_samples) ∧
      (∀ c ∈ tr, c.is_collect_input = false ∧ c.is_connect_and_run = false ∧
        c.is_copy_to_outputs = false) ∧
      s1._bufs = self._bufs ∧ s1._input = self._input ∧ s1._output = self._output ∧
      s1._plugin = none := by
  obtain ⟨hp, ho, hi, hb, -⟩ := self.consume_stat_reset_frame
  refine ⟨_, _, self.run_no_plugin E out start n_samples h_plugin h_out h_n, ?_, ?_, ?_,
    hb, hi, ho, hp.trans h_plugin⟩
  · rcases self.consume_stat_reset_calls with h | h <;> simp [h, Call.is_silence]
  · rcases self.consume_stat_reset_calls with h | h <;> simp [h]
  · rcases self.consume_stat_reset_calls with h | h <;>
      simp [h, Call.is_collect_input, Call.is_connect_and_run, Call.is_copy_to_outputs]

/-- The witness of C1: a freshly constructed IOPlug without a plugin, run for 512 samples. -/
theorem C1_run_without_plugin_silences_witness :
    0 < 512 ∧
    ∃ s1 tr, (IOPlug.fresh none ChanCount.ZERO ChanCount.ZERO).run
        (Env.simple lt_by_total true true 0) 0 512 = Except.ok (s1, tr) ∧
      tr.filter Call.is_silence = [Call.output_silence 512] ∧
      tr.getLast? = some (Call.output_silence 512) ∧
      (∀ c ∈ tr, c.is_collect_input = false ∧ c.is_connect_and_run = false ∧
        c.is_copy_to_outputs = false) ∧
      s1._bufs = (IOPlug.fresh none ChanCount.ZERO ChanCount.ZERO)._bufs ∧
      s1._input = (IOPlug.fresh none ChanCount.ZERO ChanCount.ZERO)._input ∧
      s1._output = (IOPlug.fresh none ChanCount.ZERO ChanCount.ZERO)._output ∧
      s1._plugin = none :=
  ⟨by decide,
   C1_run_without_plugin_silences (Env.simple lt_by_total true true 0)
     (IOPlug.fresh none ChanCount.ZERO ChanCount.ZERO)
     { name := "IO", direction := Direction.Output, n_ports := ChanCount.ZERO } 0 512 rfl rfl
     (by decide)⟩

/-- C2: for every IOPlug with a plugin loaded (both port groups in place) and every
n_samples > 0, if the plugin's `connect_and_run` returns non-zero then `run` returns normally,
calls `_output->silence (n_samples)` exactly once, right after `connect_and_run` and right
before the closing `_timing_stats.update ()`, and makes no `copy_to_outputs` call. -/
theorem C2_run_plugin_failure_silences (E : Env) (self : IOPlug) (plugin : Plugin)
    (input out : ARDOUR.IO) (start : Int) (n_samples : Nat)
    (h_plugin : self._plugin = some plugin) (h_in : self._input = some input)
    (h_out : self._output = some out) (h_n : 0 < n_samples)
    (h_rc : (self.plugin_answer E plugin input start n_samples).1 ≠ 0) :
    ∃ s1 tr, self.run E start n_samples = Except.ok (s1, tr) ∧
      tr.filter Call.is_silence = [Call.output_silence n_samples] ∧
      (∃ before, tr = before ++
        [Call.plugin_connect_and_run start (samplepos_end start n_samples 1) 1
            (ChanMapping.identity self._n_in) (ChanMapping.identity self._n_out) n_samples 0,
          Call.output_silence n_samples, Call.timing_stats_update]) ∧
      (∀ c ∈ tr, c.is_copy_to_outputs = false) := by
  refine ⟨_, _,
    self.run_plugin_failure E plugin input out start n_samples h_plugin h_in h_out h_n h_rc,
    ?_, ?_, ?_⟩
  · rcases self.consume_stat_reset_calls with h | h <;> simp [h, Call.is_silence]
  · exact ⟨[Call.update_thread_tempo_map] ++ self.consume_stat_reset.2
      ++ [Call.timing_stats_start, Call.input_collect_input n_samples ChanCount.ZERO], by simp⟩
  · rcases self.consume_stat_reset_calls with h | h <;> simp [h, Call.is_copy_to_outputs]

/-- The witness of C2: a 2-in/2-out effect whose processing returns -1. -/
theorem C2_run_plugin_failure_silences_witness :
    ∃ s1 tr, (IOPlug.fresh (some stereo_effect) stereo_effect.info.n_inputs
          stereo_effect.info.n_outputs).run (Env.simple lt_by_total true true (-1)) 0 512
        = Except.ok (s1, tr) ∧
      tr.filter Call.is_silence = [Call.output_silence 512] ∧
      (∃ before, tr = before ++
        [Call.plugin_connect_and_run 0 (samplepos_end 0 512 1) 1
            (ChanMapping.identity stereo_effect.info.n_inputs)
            (ChanMapping.identity stereo_effect.info.n_outputs) 512 0,
          Call.output_silence 512, Call.timing_stats_update]) ∧
      (∀ c ∈ tr, c.is_copy_to_outputs = false) :=
  C2_run_plugin_failure_silences (Env.simple lt_by_total true true (-1))
    (IOPlug.fresh (some stereo_effect) stereo_effect.info.n_inputs stereo_effect.info.n_outputs)
    stereo_effect
    { name := "IO", direction := Direction.Input, n_ports := ChanCount.ZERO }
    { name := "IO", direction := Direction.Output, n_ports := ChanCount.ZERO }
    0 512 rfl rfl rfl (by decide) (by decide)

/-- The calls of the copy loop: one per data type the buffer set holds, none for the others,
each with `n_samples` and offset 0. -/
theorem IOPlug.copy_loop_count (bufs : BufferSet) (n_samples : Nat) (t : DataType) :
    (IOPlug.copy_loop bufs n_samples).count (Call.output_copy_to_outputs t n_samples 0)
      = if 0 < bufs.count.get t then 1 else 0 := by
  cases t <;>
    by_cases ha : 0 < bufs.count.get DataType.AUDIO <;>
    by_cases hm : 0 < bufs.count.get DataType.MIDI <;>
    simp [IOPlug.copy_loop, DataType.all, List.filter, ha, hm]

/-- Every call of the copy loop is a `copy_to_outputs` for a data type the buffer set holds,
with `n_samples` and offset 0. -/
theorem IOPlug.copy_loop_mem (bufs : BufferSet) (n_samples : Nat) (c : Call)
    (hc : c ∈ IOPlug.copy_loop bufs n_samples) :
    ∃ t, c = Call.output_copy_to_outputs t n_samples 0 ∧ 0 < bufs.count.get t := by
  simp only [IOPlug.copy_loop, List.mem_map, List.mem_filter, decide_eq_true_eq] at hc
  obtain ⟨t, ⟨-, ht⟩, rfl⟩ := hc
  exact ⟨t, rfl, ht⟩

/-- C4: for every run with a plugin loaded whose `connect_and_run` returns zero (both port
groups in place, n_samples > 0), `run` returns normally and, with the buffer set as the plugin
left it, calls `copy_to_outputs (_bufs, t, n_samples, 0)` exactly once for each data type `t`
whose channel count in the buffer set is greater than zero and never for a data type whose
count is zero; every `copy_to_outputs` call has these arguments; `silence` is not called. -/
theorem C4_run_success_copies_each_present_type (E : Env) (self : IOPlug) (plugin : Plugin)
    (input out : ARDOUR.IO) (start : Int) (n_samples : Nat)
    (h_plugin : self._plugin = some plugin) (h_in : self._input = some input)
    (h_out : self._output = some out) (h_n : 0 < n_samples)
    (h_rc : (self.plugin_answer E plugin input start n_samples).1 = 0) :
    ∃ s1 tr, self.run E start n_samples = Except.ok (s1, tr) ∧
      s1._bufs = (self.plugin_answer E plugin input start n_samples).2 ∧
      (∀ t : DataType, tr.count (Call.output_copy_to_outputs t n_samples 0)
        = if 0 < s1._bufs.count.get t then 1 else 0) ∧
      (∀ c ∈ tr, c.is_copy_to_outputs = true →
        ∃ t, c = Call.output_copy_to_outputs t n_samples 0 ∧ 0 < s1._bufs.count.get t) ∧
      (∀ c ∈ tr, c.is_silence = false) := by
  refine ⟨_, _,
    self.run_plugin_success E plugin input out start n_samples h_plugin h_in h_out h_n h_rc,
    rfl, ?_, ?_, ?_⟩
  · intro t
    have hloop := IOPlug.copy_loop_count
      (self.plugin_answer E plugin input start n_samples).2 n_samples t
    rcases self.consume_stat_reset_calls with h | h <;>
      simp [h, List.count_cons, hloop]
  · intro c hc hcopy
    by_cases hl : c ∈ IOPlug.copy_loop
        (self.plugin_answer E plugin input start n_samples).2 n_samples
    · exact IOPlug.copy_loop_mem _ n_samples c hl
    · exfalso
      rcases self.consume_stat_reset_calls with h | h
      · simp [h, hl] at hc
        rcases hc with rfl | rfl | rfl | rfl | rfl <;> simp [Call.is_copy_to_outputs] at hcopy
      · simp [h, hl] at hc
        rcases hc with rfl | rfl | rfl | rfl | rfl | rfl <;>
          simp [Call.is_copy_to_outputs] at hcopy
  · intro c hc
    by_cases hl : c ∈ IOPlug.copy_loop
        (self.plugin_answer E plugin input start n_samples).2 n_samples
    · obtain ⟨t, rfl, -⟩ := IOPlug.copy_loop_mem _ n_samples c hl
      rfl
    · rcases self.consume_stat_reset_calls with h | h
      · simp [h, hl] at hc
        rcases hc with rfl | rfl | rfl | rfl | rfl <;> rfl
      · simp [h, hl] at hc
        rcases hc with rfl | rfl | rfl | rfl | rfl | rfl <;> rfl

/-- The witness of C4: the 2-in/2-out effect with buffers allocated, processing succeeds. -/
theorem C4_run_success_copies_each_present_type_witness :
    ∃ s1 tr, IOPlug.stereo_ready.run (Env.simple lt_by_total true true 0) 0 512
        = Except.ok (s1, tr) ∧
      s1._bufs = (IOPlug.stereo_ready.plugin_answer (Env.simple lt_by_total true true 0)
        stereo_effect { name := "IO", direction := Direction.Input,
                        n_ports := { n_audio := 2, n_midi := 0 } } 0 512).2 ∧
      (∀ t : DataType, tr.count (Call.output_copy_to_outputs t 512 0)
        = if 0 < s1._bufs.count.get t then 1 else 0) ∧
      (∀ c ∈ tr, c.is_copy_to_outputs = true →
        ∃ t, c = Call.output_copy_to_outputs t 512 0 ∧ 0 < s1._bufs.count.get t) ∧
      (∀ c ∈ tr, c.is_silence = false) :=
  C4_run_success_copies_each_present_type (Env.simple lt_by_total true true 0)
    IOPlug.stereo_ready stereo_effect
    { name := "IO", direction := Direction.Input, n_ports := { n_audio := 2, n_midi := 0 } }
    { name := "IO", direction := Direction.Output, n_ports := { n_audio := 2, n_midi := 0 } }
    0 512 rfl rfl rfl (by decide) rfl

/-! ## C5, C6: the deferred statistics reset -/

/-- The exchange when the flag holds 1: the flag is cleared and the accumulator emptied. -/
theorem IOPlug.consume_stat_reset_pending (self : IOPlug) (h : self._stat_reset = 1) :
    self.consume_stat_reset.1._stat_reset = 0 ∧
    self.consume_stat_reset.1._timing_stats.durations = [] ∧
    self.consume_stat_reset.2 = [Call.timing_stats_reset] := by
  simp [IOPlug.consume_stat_reset, h, TimingStats.reset]

/-- The exchange when the flag does not hold 1: nothing happens. -/
theorem IOPlug.consume_stat_reset_clear (self : IOPlug) (h : self._stat_reset ≠ 1) :
    self.consume_stat_reset = (self, []) := by
  simp [IOPlug.consume_stat_reset, h]

/-- One cycle of `run` on an IOPlug whose port groups are in place: it returns, its calls are
the tempo-map update, then those of the exchange, then calls that do not reset the
statistics; a cycle with a plugin adds exactly one measurement. -/
theorem IOPlug.run_step (E : Env) (self : IOPlug) (input out : ARDOUR.IO) (start : Int)
    (n_samples : Nat) (h_in : self._input = some input) (h_out : self._output = some out)
    (h_n : 0 < n_samples) :
    ∃ s1 tail, self.run E start n_samples
        = Except.ok (s1, Call.update_thread_tempo_map :: (self.consume_stat_reset.2 ++ tail)) ∧
      Call.timing_stats_reset ∉ tail ∧
      (self._plugin.isSome = true → ∃ more, tail = Call.timing_stats_start :: more) ∧
      s1._plugin = self._plugin ∧ s1._input = self._input ∧ s1._output = self._output ∧
      s1._stat_reset = self.consume_stat_reset.1._stat_reset ∧
      s1._timing_stats.durations = self.consume_stat_reset.1._timing_stats.durations
        ++ (if self._plugin.isSome then [E.elapsed] else []) := by
  obtain ⟨hp, ho, hi, -⟩ := self.consume_stat_reset_frame
  cases hpl : self._plugin with
  | none =>
    refine ⟨self.consume_stat_reset.1, [Call.output_silence n_samples], ?_, by simp, by simp,
      hp.trans hpl, hi, ho, rfl, by simp⟩
    rw [self.run_no_plugin E out start n_samples hpl h_out h_n]
    simp
  | some plugin =>
    by_cases h_rc : (self.plugin_answer E plugin input start n_samples).1 = 0
    · refine ⟨{ self.consume_stat_reset.1 with
            _bufs := (self.plugin_answer E plugin input start n_samples).2,
            _timing_stats :=
              (self.consume_stat_reset.1._timing_stats.start E.clock_at_start).update
                E.clock_at_update },
          [Call.timing_stats_start, Call.input_collect_input n_samples ChanCount.ZERO,
          Call.plugin_connect_and_run start (samplepos_end start n_samples 1) 1
            (ChanMapping.identity self._n_in) (ChanMapping.identity self._n_out) n_samples 0]
          ++ IOPlug.copy_loop (self.plugin_answer E plugin input start n_samples).2 n_samples
          ++ [Call.timing_stats_update], ?_, ?_, fun _ => ⟨_, rfl⟩, hp.trans hpl, hi, ho, rfl, ?_⟩
      · rw [self.run_plugin_success E plugin input out start n_samples hpl h_in h_out h_n h_rc]
        simp
      · intro hmem
        simp at hmem
        obtain ⟨t, ht, -⟩ := IOPlug.copy_loop_mem _ n_samples _ hmem
        cases ht
      · simp [TimingStats.start, TimingStats.update, Env.elapsed]
    · refine ⟨{ self.consume_stat_reset.1 with
            _bufs := (self.plugin_answer E plugin input start n_samples).2,
            _timing_stats :=
              (self.consume_stat_reset.1._timing_stats.start E.clock_at_start).update
                E.clock_at_update },
          [Call.timing_stats_start, Call.input_collect_input n_samples ChanCount.ZERO,
          Call.plugin_connect_and_run start (samplepos_end start n_samples 1) 1
            (ChanMapping.identity self._n_in) (ChanMapping.identity self._n_out) n_samples 0,
          Call.output_silence n_samples, Call.timing_stats_update],
          ?_, by simp, fun _ => ⟨_, rfl⟩, hp.trans hpl, hi, ho, rfl, ?_⟩
      · rw [self.run_plugin_failure E plugin input out start n_samples hpl h_in h_out h_n h_rc]
        simp
      · simp [TimingStats.start, TimingStats.update, Env.elapsed]

/-- Cycles run while the flag is clear: all of them return, none resets the statistics, and
each cycle with a plugin appends its measurement. -/
theorem IOPlug.run_cycles_flag_clear (cycles : List (Env × Int × Nat)) :
    ∀ (self : IOPlug) (input out : ARDOUR.IO), self._input = some input →
      self._output = some out → self._stat_reset = 0 → (∀ x ∈ cycles, 0 < x.2.2) →
      ∃ s2 tr2, self.run_cycles cycles = Except.ok (s2, tr2) ∧
        s2._stat_reset = 0 ∧ Call.timing_stats_reset ∉ tr2 ∧
        s2._timing_stats.durations = self._timing_stats.durations
          ++ (if self._plugin.isSome then cycles.map (fun x => x.1.elapsed) else []) := by
  induction cycles with
  | nil =>
    intro self input out _ _ h0 _
    exact ⟨self, [], rfl, h0, by simp, by simp⟩
  | cons c rest ih =>
    intro self input out h_in h_out h0 h_n
    have hclear : self.consume_stat_reset = (self, []) :=
      self.consume_stat_reset_clear (by rw [h0]; decide)
    obtain ⟨s1, tail, hrun, hnotin, -, hp1, hi1, ho1, hf1, hd1⟩ :=
      self.run_step c.1 input out c.2.1 c.2.2 h_in h_out (h_n c (List.mem_cons_self _ _))
    simp only [hclear, List.nil_append] at hrun hf1 hd1
    obtain ⟨s2, tr2, hrest, hf2, hnotin2, hd2⟩ :=
      ih s1 input out (hi1.trans h_in) (ho1.trans h_out) (hf1.trans h0)
        (fun x hx => h_n x (List.mem_cons_of_mem _ hx))
    refine ⟨s2, (Call.update_thread_tempo_map :: tail) ++ tr2, ?_, hf2, ?_, ?_⟩
    · simp only [IOPlug.run_cycles, hrun, hrest]
    · simp only [List.mem_append, List.mem_cons, not_or]
      exact ⟨⟨by decide, hnotin⟩, hnotin2⟩
    · rw [hd2, hd1, hp1]
      cases self._plugin <;> simp

/-- A cycle of `run` that finds the flag clear and returns has made no reset call, left the
flag as it was and kept every measurement already accumulated. -/
theorem IOPlug.run_flag_clear_no_reset (E : Env) (s : IOPlug) (start : Int) (n_samples : Nat)
    (r : IOPlug × List Call) (h0 : s._stat_reset ≠ 1)
    (hrun : s.run E start n_samples = Except.ok r) :
    Call.timing_stats_reset ∉ r.2 ∧ r.1._stat_reset = s._stat_reset ∧
      s._timing_stats.durations <+: r.1._timing_stats.durations := by
  have hclear : s.consume_stat_reset = (s, []) := s.consume_stat_reset_clear h0
  have hloop : ∀ b : BufferSet, Call.timing_stats_reset ∉ IOPlug.copy_loop b n_samples := by
    intro b hmem
    obtain ⟨t, ht, -⟩ := IOPlug.copy_loop_mem _ n_samples _ hmem
    cases ht
  have hpre : ∀ a b : Nat, s._timing_stats.durations <+:
      ((s._timing_stats.start a).update b).durations := by
    intro a b
    simp [TimingStats.start, TimingStats.update]
  simp only [IOPlug.run, hclear] at hrun
  repeat' split at hrun
  all_goals cases hrun
  all_goals simp_all

/-- C5: after `clear_stats`, on an IOPlug whose port groups are in place, any one or more
cycles of `run` (each with n_samples > 0) all return, and: the first cycle performs the
exchange on the flag right after the tempo-map update, resetting the accumulator before
`_timing_stats.start ()` and never again; the flag is clear after the first cycle and after
the last; no later cycle resets the accumulator; the accumulator finally holds exactly one
measurement per cycle run since the request when a plugin is loaded (none otherwise),
whatever it held before; and any run that finds the flag clear makes no reset call and keeps
every measurement already accumulated. -/
theorem C5_clear_stats_then_run (self : IOPlug) (input out : ARDOUR.IO)
    (c : Env × Int × Nat) (rest : List (Env × Int × Nat))
    (h_in : self._input = some input) (h_out : self._output = some out)
    (h_n : ∀ x ∈ c :: rest, 0 < x.2.2) :
    (∃ s1 tail s2 tr2,
      self.clear_stats.run c.1 c.2.1 c.2.2
        = Except.ok (s1, Call.update_thread_tempo_map :: Call.timing_stats_reset :: tail) ∧
      Call.timing_stats_reset ∉ tail ∧
      (self._plugin.isSome = true → ∃ more, tail = Call.timing_stats_start :: more) ∧
      s1._stat_reset = 0 ∧
      s1.run_cycles rest = Except.ok (s2, tr2) ∧
      Call.timing_stats_reset ∉ tr2 ∧
      s2._stat_reset = 0 ∧
      s2._timing_stats.durations
        = if self._plugin.isSome then (c :: rest).map (fun x => x.1.elapsed) else []) ∧
    (∀ (E : Env) (s : IOPlug) (start : Int) (n_samples : Nat) (r : IOPlug × List Call),
      s._stat_reset = 0 → s.run E start n_samples = Except.ok r →
      Call.timing_stats_reset ∉ r.2 ∧ r.1._stat_reset = 0 ∧
      s._timing_stats.durations <+: r.1._timing_stats.durations) := by
  constructor
  · have hflag : self.clear_stats._stat_reset = 1 := rfl
    obtain ⟨hf0, hd0, hcalls⟩ := self.clear_stats.consume_stat_reset_pending hflag
    obtain ⟨s1, tail, hrun, hnotin, hstart, hp1, hi1, ho1, hf1, hd1⟩ :=
      self.clear_stats.run_step c.1 input out c.2.1 c.2.2 h_in h_out
        (h_n c (List.mem_cons_self _ _))
    rw [hcalls] at hrun
    rw [hf0] at hf1
    rw [hd0] at hd1
    have hp1' : s1._plugin = self._plugin := hp1
    obtain ⟨s2, tr2, hrest, hf2, hnotin2, hd2⟩ :=
      IOPlug.run_cycles_flag_clear rest s1 input out (hi1.trans h_in) (ho1.trans h_out) hf1
        (fun x hx => h_n x (List.mem_cons_of_mem _ hx))
    refine ⟨s1, tail, s2, tr2, by simpa using hrun, hnotin, hstart, hf1, hrest, hnotin2, hf2, ?_⟩
    rw [hd2, hd1, hp1']
    have : self.clear_stats._plugin = self._plugin := rfl
    rw [this]
    cases self._plugin <;> simp
  · intro E s start n_samples r h0 hrun
    obtain ⟨h1, h2, h3⟩ :=
      IOPlug.run_flag_clear_no_reset E s start n_samples r (by rw [h0]; decide) hrun
    exact ⟨h1, h2.trans h0, h3⟩

/-- The witness of C5: an IOPlug holding the measurements 5 and 9, `clear_stats`, then a
cycle in which the plugin succeeds and a cycle in which it fails. -/
theorem C5_clear_stats_then_run_witness :
    (∃ s1 tail s2 tr2,
      IOPlug.stereo_measured.clear_stats.run (example_cycle 0 0).1 (example_cycle 0 0).2.1
          (example_cycle 0 0).2.2
        = Except.ok (s1, Call.update_thread_tempo_map :: Call.timing_stats_reset :: tail) ∧
      Call.timing_stats_reset ∉ tail ∧
      (IOPlug.stereo_measured._plugin.isSome = true →
        ∃ more, tail = Call.timing_stats_start :: more) ∧
      s1._stat_reset = 0 ∧
      s1.run_cycles [example_cycle (-1) 512] = Except.ok (s2, tr2) ∧
      Call.timing_stats_reset ∉ tr2 ∧
      s2._stat_reset = 0 ∧
      s2._timing_stats.durations
        = if IOPlug.stereo_measured._plugin.isSome then
            (example_cycle 0 0 :: [example_cycle (-1) 512]).map (fun x => x.1.elapsed)
          else []) ∧
    (∀ (E : Env) (s : IOPlug) (start : Int) (n_samples : Nat) (r : IOPlug × List Call),
      s._stat_reset = 0 → s.run E start n_samples = Except.ok r →
      Call.timing_stats_reset ∉ r.2 ∧ r.1._stat_reset = 0 ∧
      s._timing_stats.durations <+: r.1._timing_stats.durations) :=
  C5_clear_stats_then_run IOPlug.stereo_measured
    { name := "IO", direction := Direction.Input, n_ports := { n_audio := 2, n_midi := 0 } }
    { name := "IO", direction := Direction.Output, n_ports := { n_audio := 2, n_midi := 0 } }
    (example_cycle 0 0) [example_cycle (-1) 512] rfl rfl
    (by
      intro x hx
      simp only [List.mem_cons, List.mem_singleton, List.not_mem_nil, or_false] at hx
      rcases hx with rfl | rfl <;> decide)

/-- C6: `clear_stats` sets `_stat_reset` to 1 and changes no other field: the timing
accumulator, the plugin, the channel counts, the buffer set, both port groups, the controls
and control outputs, the name and the position flag are as before; calling it twice leaves
the same object as calling it once. -/
theorem C6_clear_stats_only_sets_flag (self : IOPlug) :
    self.clear_stats._stat_reset = 1 ∧
    self.clear_stats._timing_stats = self._timing_stats ∧
    self.clear_stats._plugin = self._plugin ∧
    self.clear_stats._n_in = self._n_in ∧
    self.clear_stats._n_out = self._n_out ∧
    self.clear_stats._bufs = self._bufs ∧
    self.clear_stats._input = self._input ∧
    self.clear_stats._output = self._output ∧
    self.clear_stats._controls = self._controls ∧
    self.clear_stats._control_outputs = self._control_outputs ∧
    self.clear_stats._name = self._name ∧
    self.clear_stats._pre = self._pre ∧
    self.clear_stats.clear_stats = self.clear_stats :=
  ⟨rfl, rfl, rfl, rfl, rfl, rfl, rfl, rfl, rfl, rfl, rfl, rfl, rfl⟩

/-! ## C7 - C10: `ensure_io` -/

/-- `ensure_io` when the input port group's resize fails. -/
theorem IOPlug.ensure_io_input_fails (E : Env) (self : IOPlug) (input : ARDOUR.IO)
    (h_in : self._input = some input)
    (h_rin : (E.io_ensure_io input self._n_in false).1 ≠ 0) :
    self.ensure_io E = Except.ok (false,
      { self with _input := some (E.io_ensure_io input self._n_in false).2 },
      [Call.input_ensure_io self._n_in false]) := by
  simp only [IOPlug.ensure_io, h_in]
  rw [if_pos h_rin]

/-- `ensure_io` when the input port group's resize succeeds and the output's fails. -/
theorem IOPlug.ensure_io_output_fails (E : Env) (self : IOPlug) (input out : ARDOUR.IO)
    (h_in : self._input = some input) (h_out : self._output = some out)
    (h_rin : (E.io_ensure_io input self._n_in false).1 = 0)
    (h_rout : (E.io_ensure_io out self._n_out false).1 ≠ 0) :
    self.ensure_io E = Except.ok (false,
      { self with _input := some (E.io_ensure_io input self._n_in false).2,
                  _output := some (E.io_ensure_io out self._n_out false).2 },
      [Call.input_ensure_io self._n_in false, Call.output_ensure_io self._n_out false]) := by
  simp only [IOPlug.ensure_io, h_in, h_out]
  rw [if_neg (by simpa using h_rin), if_pos h_rout]
  simp

/-- `ensure_io` when both resizes succeed. -/
theorem IOPlug.ensure_io_succeeds (E : Env) (self : IOPlug) (input out : ARDOUR.IO)
    (h_in : self._input = some input) (h_out : self._output = some out)
    (h_rin : (E.io_ensure_io input self._n_in false).1 = 0)
    (h_rout : (E.io_ensure_io out self._n_out false).1 = 0) :
    self.ensure_io E = Except.ok (true,
      { self with _input := some (E.io_ensure_io input self._n_in false).2,
                  _output := some (E.io_ensure_io out self._n_out false).2,
                  _bufs := self._bufs.ensure_buffers (std_max E.lt self._n_in self._n_out) 8192 },
      [Call.input_ensure_io self._n_in false, Call.output_ensure_io self._n_out false,
       Call.bufs_ensure_buffers (std_max E.lt self._n_in self._n_out) 8192]) := by
  simp only [IOPlug.ensure_io, h_in, h_out]
  rw [if_neg (by simpa using h_rin), if_neg (by simpa using h_rout)]
  simp

/-- C7: on an IOPlug whose port groups are in place `ensure_io` returns, and it returns true
if and only if both the input port group's resize to `_n_in` and the output port group's
resize to `_n_out` return 0; when the input resize fails the output resize is not attempted
(no `_output->ensure_io` call, output port group untouched); whenever it returns false the
buffer set is as before and `ensure_buffers` was not called. -/
theorem C7_ensure_io_true_iff_both_resizes_succeed (E : Env) (self : IOPlug)
    (input out : ARDOUR.IO) (h_in : self._input = some input)
    (h_out : self._output = some out) :
    ∃ ret s1 tr, self.ensure_io E = Except.ok (ret, s1, tr) ∧
      (ret = true ↔ (E.io_ensure_io input self._n_in false).1 = 0 ∧
        (E.io_ensure_io out self._n_out false).1 = 0) ∧
      ((E.io_ensure_io input self._n_in false).1 ≠ 0 →
        (∀ c ∈ tr, c.is_output_ensure_io = false) ∧ s1._output = self._output) ∧
      (ret = false → s1._bufs = self._bufs ∧ ∀ c ∈ tr, c.is_ensure_buffers = false) := by
  by_cases h_rin : (E.io_ensure_io input self._n_in false).1 = 0
  · by_cases h_rout : (E.io_ensure_io out self._n_out false).1 = 0
    · refine ⟨_, _, _, self.ensure_io_succeeds E input out h_in h_out h_rin h_rout, ?_, ?_, ?_⟩
      · simp [h_rin, h_rout]
      · intro h
        exact absurd h_rin h
      · intro h
        cases h
    · refine ⟨_, _, _, self.ensure_io_output_fails E input out h_in h_out h_rin h_rout,
        ?_, ?_, ?_⟩
      · simp [h_rout]
      · intro h
        exact absurd h_rin h
      · intro _
        simp [Call.is_ensure_buffers]
  · refine ⟨_, _, _, self.ensure_io_input_fails E input h_in h_rin, ?_, ?_, ?_⟩
    · simp [h_rin]
    · intro _
      simp [Call.is_output_ensure_io]
    · intro _
      simp [Call.is_ensure_buffers]

/-- The witness of C7: the freshly constructed 2-in/2-out effect, the input resize granted and
the output resize refused. -/
theorem C7_ensure_io_true_iff_both_resizes_succeed_witness :
    ∃ ret s1 tr, IOPlug.stereo_fresh.ensure_io (Env.simple lt_by_total true false 0)
        = Except.ok (ret, s1, tr) ∧
      (ret = true ↔
        ((Env.simple lt_by_total true false 0).io_ensure_io
          { name := "IO", direction := Direction.Input, n_ports := ChanCount.ZERO }
          IOPlug.stereo_fresh._n_in false).1 = 0 ∧
        ((Env.simple lt_by_total true false 0).io_ensure_io
          { name := "IO", direction := Direction.Output, n_ports := ChanCount.ZERO }
          IOPlug.stereo_fresh._n_out false).1 = 0) ∧
      (((Env.simple lt_by_total true false 0).io_ensure_io
          { name := "IO", direction := Direction.Input, n_ports := ChanCount.ZERO }
          IOPlug.stereo_fresh._n_in false).1 ≠ 0 →
        (∀ c ∈ tr, c.is_output_ensure_io = false) ∧ s1._output = IOPlug.stereo_fresh._output) ∧
      (ret = false → s1._bufs = IOPlug.stereo_fresh._bufs ∧
        ∀ c ∈ tr, c.is_ensure_buffers = false) :=
  C7_ensure_io_true_iff_both_resizes_succeed (Env.simple lt_by_total true false 0)
    IOPlug.stereo_fresh
    { name := "IO", direction := Direction.Input, n_ports := ChanCount.ZERO }
    { name := "IO", direction := Direction.Output, n_ports := ChanCount.ZERO } rfl rfl

/-- C8, as stated, fails: on the freshly constructed 2-in/2-out effect, with the input resize
granted and the output resize refused, `ensure_io` returns false and the input port group,
which had no ports, now has two audio ports. -/
theorem C8_partial_resize_is_visible :
    IOPlug.stereo_fresh.ensure_io (Env.simple lt_by_total true false 0)
      = Except.ok (false,
          { IOPlug.stereo_fresh with
            _input := some { name := "IO", direction := Direction.Input,
                             n_ports := { n_audio := 2, n_midi := 0 } } },
          [Call.input_ensure_io { n_audio := 2, n_midi := 0 } false,
           Call.output_ensure_io { n_audio := 2, n_midi := 0 } false]) ∧
    IOPlug.stereo_fresh._input
      = some { name := "IO", direction := Direction.Input,
               n_ports := { n_audio := 0, n_midi := 0 } } ∧
    (some { name := "IO", direction := Direction.Input,
            n_ports := { n_audio := 2, n_midi := 0 } } : Option ARDOUR.IO)
      ≠ IOPlug.stereo_fresh._input := by
  refine ⟨rfl, rfl, ?_⟩
  simp [IOPlug.stereo_fresh, IOPlug.fresh, ChanCount.ZERO]

/-- C8, amended: if either port-group resize fails (and a failed `IO::ensure_io` leaves its
own port group as it was), `ensure_io` returns false, the buffer set and the output port group
are as before the call and every other field is untouched; the input port group is as before
when its own resize failed, and keeps the configuration its successful resize gave it when
only the output resize failed. -/
theorem C8_ensure_io_failure_keeps_input_resize (E : Env) (self : IOPlug)
    (input out : ARDOUR.IO) (h_in : self._input = some input)
    (h_out : self._output = some out)
    (h_atomic : ∀ (io : ARDOUR.IO) (n : ChanCount) (clear : Bool),
      (E.io_ensure_io io n clear).1 ≠ 0 → (E.io_ensure_io io n clear).2 = io)
    (h_fail : (E.io_ensure_io input self._n_in false).1 ≠ 0 ∨
      (E.io_ensure_io out self._n_out false).1 ≠ 0) :
    ∃ s1 tr, self.ensure_io E = Except.ok (false, s1, tr) ∧
      s1._bufs = self._bufs ∧ s1._output = self._output ∧
      s1._input = (if (E.io_ensure_io input self._n_in false).1 ≠ 0 then self._input
        else some (E.io_ensure_io input self._n_in false).2) ∧
      s1 = { self with _input := s1._input } ∧
      (∀ c ∈ tr, c.is_ensure_buffers = false) := by
  by_cases h_rin : (E.io_ensure_io input self._n_in false).1 = 0
  · have h_rout : (E.io_ensure_io out self._n_out false).1 ≠ 0 := by
      rcases h_fail with h | h
      · exact absurd h_rin h
      · exact h
    have hout := h_atomic out self._n_out false h_rout
    refine ⟨_, _, self.ensure_io_output_fails E input out h_in h_out h_rin h_rout, rfl, ?_, ?_,
      ?_, ?_⟩
    · simp [hout, h_out]
    · simp [h_rin]
    · simp [hout, h_out]
    · simp [Call.is_ensure_buffers]
  · have hin := h_atomic input self._n_in false h_rin
    refine ⟨_, _, self.ensure_io_input_fails E input h_in h_rin, rfl, rfl, ?_, ?_, ?_⟩
    · simp [h_rin, hin, h_in]
    · simp [hin, h_in]
    · simp [Call.is_ensure_buffers]

/-- The witness of C8 amended: the freshly constructed 2-in/2-out effect, the input resize
granted and the output resize refused. -/
theorem C8_ensure_io_failure_keeps_input_resize_witness :
    ∃ s1 tr, IOPlug.stereo_fresh.ensure_io (Env.simple lt_by_total true false 0)
        = Except.ok (false, s1, tr) ∧
      s1._bufs = IOPlug.stereo_fresh._bufs ∧ s1._output = IOPlug.stereo_fresh._output ∧
      s1._input = (if ((Env.simple lt_by_total true false 0).io_ensure_io
            { name := "IO", direction := Direction.Input, n_ports := ChanCount.ZERO }
            IOPlug.stereo_fresh._n_in false).1 ≠ 0 then IOPlug.stereo_fresh._input
        else some ((Env.simple lt_by_total true false 0).io_ensure_io
            { name := "IO", direction := Direction.Input, n_ports := ChanCount.ZERO }
            IOPlug.stereo_fresh._n_in false).2) ∧
      s1 = { IOPlug.stereo_fresh with _input := s1._input } ∧
      (∀ c ∈ tr, c.is_ensure_buffers = false) :=
  C8_ensure_io_failure_keeps_input_resize (Env.simple lt_by_total true false 0)
    IOPlug.stereo_fresh
    { name := "IO", direction := Direction.Input, n_ports := ChanCount.ZERO }
    { name := "IO", direction := Direction.Output, n_ports := ChanCount.ZERO } rfl rfl
    (by
      intro io n clear h
      cases hd : io.direction <;> simp [Env.simple, hd] at h ⊢)
    (Or.inr (by decide))

/-- A successful `ensure_io` on an IOPlug whose buffer set starts empty and whose two channel
counts each exceed the other for some data type leaves the buffer set short of the per-type
maximum for some data type: `std::max` hands `ensure_buffers` one of the two counts. -/
theorem IOPlug.ensure_io_buffers_short (E : Env) (self s1 : IOPlug) (tr : List Call)
    (h_empty : self._bufs = BufferSet.empty)
    (h_inc : ∃ t u, self._n_out.get t < self._n_in.get t ∧ self._n_in.get u < self._n_out.get u)
    (h_ok : self.ensure_io E = Except.ok (true, s1, tr)) :
    ∃ t, s1._bufs.count.get t < (ChanCount.pointwise_max self._n_in self._n_out).get t := by
  cases h_in : self._input with
  | none => simp [IOPlug.ensure_io, h_in] at h_ok
  | some input =>
    cases h_out : self._output with
    | none =>
      simp only [IOPlug.ensure_io, h_in, h_out] at h_ok
      split at h_ok <;> simp at h_ok
    | some out =>
      by_cases h_rin : (E.io_ensure_io input self._n_in false).1 = 0
      · by_cases h_rout : (E.io_ensure_io out self._n_out false).1 = 0
        · rw [self.ensure_io_succeeds E input out h_in h_out h_rin h_rout] at h_ok
          simp only [Except.ok.injEq, Prod.mk.injEq, true_and] at h_ok
          obtain ⟨rfl, -⟩ := h_ok
          obtain ⟨t, u, ht, hu⟩ := h_inc
          simp only [h_empty, BufferSet.empty, BufferSet.ensure_buffers, ChanCount.ZERO,
            std_max, ChanCount.pointwise_max]
          cases hlt : E.lt self._n_in self._n_out
          · refine ⟨u, ?_⟩
            cases u <;> simp [ChanCount.get] at hu ⊢ <;> omega
          · refine ⟨t, ?_⟩
            cases t <;> simp [ChanCount.get] at ht ⊢ <;> omega
        · rw [self.ensure_io_output_fails E input out h_in h_out h_rin h_rout] at h_ok
          simp at h_ok
      · rw [self.ensure_io_input_fails E input h_in h_rin] at h_ok
        simp at h_ok

/-- C9, the code at the failing input: for every `operator<`, on the freshly constructed
instrument (`_n_in` one MIDI channel, `_n_out` two audio channels) with both resizes granted,
`ensure_io` returns true, has asked the input and output port groups for exactly `_n_in` and
`_n_out` and the buffer set for `std::max (_n_in, _n_out)` at 8192 samples; the buffer set
then holds either one MIDI channel and no audio channel or two audio channels and no MIDI
channel, whereas the per-type maximum of the two counts is two audio and one MIDI. -/
theorem C9_ensure_io_instrument_buffers_short (lt : ChanCount → ChanCount → Bool) :
    ∃ s1, IOPlug.instrument_fresh.ensure_io (Env.simple lt true true 0)
        = Except.ok (true, s1,
            [Call.input_ensure_io { n_audio := 0, n_midi := 1 } false,
             Call.output_ensure_io { n_audio := 2, n_midi := 0 } false,
             Call.bufs_ensure_buffers
               (std_max lt { n_audio := 0, n_midi := 1 } { n_audio := 2, n_midi := 0 }) 8192]) ∧
      s1._bufs.capacity = 8192 ∧
      (s1._bufs.count = { n_audio := 0, n_midi := 1 } ∨
        s1._bufs.count = { n_audio := 2, n_midi := 0 }) ∧
      ChanCount.pointwise_max IOPlug.instrument_fresh._n_in IOPlug.instrument_fresh._n_out
        = { n_audio := 2, n_midi := 1 } ∧
      (∃ t, s1._bufs.count.get t
        < (ChanCount.pointwise_max IOPlug.instrument_fresh._n_in
            IOPlug.instrument_fresh._n_out).get t) := by
  have hrun := IOPlug.instrument_fresh.ensure_io_succeeds (Env.simple lt true true 0)
    { name := "IO", direction := Direction.Input, n_ports := ChanCount.ZERO }
    { name := "IO", direction := Direction.Output, n_ports := ChanCount.ZERO } rfl rfl rfl rfl
  refine ⟨_, hrun, rfl, ?_, rfl, ?_⟩
  · cases h : lt { n_audio := 0, n_midi := 1 } { n_audio := 2, n_midi := 0 }
    · left
      simp [IOPlug.instrument_fresh, IOPlug.fresh, instrument, Env.simple, std_max, h,
        BufferSet.ensure_buffers, BufferSet.empty, ChanCount.ZERO]
    · right
      simp [IOPlug.instrument_fresh, IOPlug.fresh, instrument, Env.simple, std_max, h,
        BufferSet.ensure_buffers, BufferSet.empty, ChanCount.ZERO]
  · exact IOPlug.ensure_io_buffers_short (Env.simple lt true true 0) IOPlug.instrument_fresh _ _
      rfl ⟨DataType.MIDI, DataType.AUDIO, by decide, by decide⟩ hrun

/-- The calls of the copy loop are not `connect_and_run` calls. -/
theorem IOPlug.copy_loop_filter_connect (bufs : BufferSet) (n_samples : Nat) :
    (IOPlug.copy_loop bufs n_samples).filter Call.is_connect_and_run = [] := by
  rw [List.filter_eq_nil_iff]
  intro c hc
  obtain ⟨t, rfl, -⟩ := IOPlug.copy_loop_mem bufs n_samples c hc
  simp [Call.is_connect_and_run]

/-- A cycle of `run` with a plugin loaded and both port groups in place returns and calls
`connect_and_run` exactly once, whatever the plugin answers. -/
theorem IOPlug.run_calls_plugin_once (E : Env) (self : IOPlug) (plugin : Plugin)
    (input out : ARDOUR.IO) (start : Int) (n_samples : Nat)
    (h_plugin : self._plugin = some plugin) (h_in : self._input = some input)
    (h_out : self._output = some out) (h_n : 0 < n_samples) :
    ∃ s2 tr2, self.run E start n_samples = Except.ok (s2, tr2) ∧
      tr2.filter Call.is_connect_and_run =
        [Call.plugin_connect_and_run start (samplepos_end start n_samples 1) 1
          (ChanMapping.identity self._n_in) (ChanMapping.identity self._n_out) n_samples 0] := by
  by_cases h_rc : (self.plugin_answer E plugin input start n_samples).1 = 0
  · refine ⟨_, _,
      self.run_plugin_success E plugin input out start n_samples h_plugin h_in h_out h_n h_rc,
      ?_⟩
    rcases self.consume_stat_reset_calls with h | h <;>
      simp [h, List.filter_cons, Call.is_connect_and_run, IOPlug.copy_loop_filter_connect]
  · refine ⟨_, _,
      self.run_plugin_failure E plugin input out start n_samples h_plugin h_in h_out h_n h_rc,
      ?_⟩
    rcases self.consume_stat_reset_calls with h | h <;>
      simp [h, List.filter_cons, Call.is_connect_and_run]

/-- C10, as stated, fails: on the freshly constructed 2-in/2-out effect, `ensure_io` with the
input resize granted and the output resize refused returns false (input port group resized,
output port group not), and the next `run` still calls the plugin's `connect_and_run`. -/
theorem C10_run_after_partial_failure_processes :
    ∃ s1 tr1 s2 tr2,
      IOPlug.stereo_fresh.ensure_io (Env.simple lt_by_total true false 0)
        = Except.ok (false, s1, tr1) ∧
      s1._input = some { name := "IO", direction := Direction.Input,
                         n_ports := { n_audio := 2, n_midi := 0 } } ∧
      s1._output = some { name := "IO", direction := Direction.Output,
                          n_ports := { n_audio := 0, n_midi := 0 } } ∧
      s1.run (Env.simple lt_by_total true false 0) 0 512 = Except.ok (s2, tr2) ∧
      tr2.filter Call.is_connect_and_run =
        [Call.plugin_connect_and_run 0 512 1
          (ChanMapping.identity { n_audio := 2, n_midi := 0 })
          (ChanMapping.identity { n_audio := 2, n_midi := 0 }) 512 0] := by
  refine ⟨_, _, _, _, rfl, rfl, rfl, rfl, ?_⟩
  decide

/-- C10, amended: when `ensure_io` returns false on an IOPlug with a plugin loaded and both
port groups in place, the plugin handle is untouched and the IOPlug is still able to run: a
subsequent `run` (n_samples > 0, whatever the collaborators answer then) returns and calls the
plugin's `connect_and_run` exactly once. -/
theorem C10_failed_ensure_io_leaves_run_enabled (E E1 : Env) (self s1 : IOPlug)
    (tr1 : List Call) (plugin : Plugin) (input out : ARDOUR.IO) (start : Int) (n_samples : Nat)
    (h_plugin : self._plugin = some plugin) (h_in : self._input = some input)
    (h_out : self._output = some out) (h_n : 0 < n_samples)
    (h_fail : self.ensure_io E = Except.ok (false, s1, tr1)) :
    s1._plugin = some plugin ∧ s1._n_in = self._n_in ∧ s1._n_out = self._n_out ∧
    ∃ s2 tr2, s1.run E1 start n_samples = Except.ok (s2, tr2) ∧
      tr2.filter Call.is_connect_and_run =
        [Call.plugin_connect_and_run start (samplepos_end start n_samples 1) 1
          (ChanMapping.identity self._n_in) (ChanMapping.identity self._n_out) n_samples 0] := by
  by_cases h_rin : (E.io_ensure_io input self._n_in false).1 = 0
  · by_cases h_rout : (E.io_ensure_io out self._n_out false).1 = 0
    · rw [self.ensure_io_succeeds E input out h_in h_out h_rin h_rout] at h_fail
      simp at h_fail
    · rw [self.ensure_io_output_fails E input out h_in h_out h_rin h_rout] at h_fail
      simp only [Except.ok.injEq, Prod.mk.injEq, true_and] at h_fail
      obtain ⟨rfl, -⟩ := h_fail
      exact ⟨h_plugin, rfl, rfl,
        IOPlug.run_calls_plugin_once E1 _ plugin _ _ start n_samples h_plugin rfl rfl h_n⟩
  · rw [self.ensure_io_input_fails E input h_in h_rin] at h_fail
    simp only [Except.ok.injEq, Prod.mk.injEq, true_and] at h_fail
    obtain ⟨rfl, -⟩ := h_fail
    exact ⟨h_plugin, rfl, rfl,
      IOPlug.run_calls_plugin_once E1 _ plugin _ out start n_samples h_plugin rfl h_out h_n⟩

/-- The witness of C10 amended: the freshly constructed 2-in/2-out effect after the
partially failed `ensure_io`, run for 512 samples. -/
theorem C10_failed_ensure_io_leaves_run_enabled_witness :
    0 < 512 ∧
    IOPlug.stereo_fresh.ensure_io (Env.simple lt_by_total true false 0)
      = Except.ok (false,
          { IOPlug.stereo_fresh with
            _input := some { name := "IO", direction := Direction.Input,
                             n_ports := { n_audio := 2, n_midi := 0 } } },
          [Call.input_ensure_io { n_audio := 2, n_midi := 0 } false,
           Call.output_ensure_io { n_audio := 2, n_midi := 0 } false]) ∧
    ∃ s2 tr2,
      ({ IOPlug.stereo_fresh with
          _input := some { name := "IO", direction := Direction.Input,
                           n_ports := { n_audio := 2, n_midi := 0 } } } : IOPlug).run
          (Env.simple lt_by_total true true 0) 0 512 = Except.ok (s2, tr2) ∧
      tr2.filter Call.is_connect_and_run =
        [Call.plugin_connect_and_run 0 (samplepos_end 0 512 1) 1
          (ChanMapping.identity IOPlug.stereo_fresh._n_in)
          (ChanMapping.identity IOPlug.stereo_fresh._n_out) 512 0] :=
  ⟨by decide, rfl,
   (C10_failed_ensure_io_leaves_run_enabled (Env.simple lt_by_total true false 0)
     (Env.simple lt_by_total true true 0) IOPlug.stereo_fresh _ _ stereo_effect
     { name := "IO", direction := Direction.Input, n_ports := ChanCount.ZERO }
     { name := "IO", direction := Direction.Output, n_ports := ChanCount.ZERO }
     0 512 rfl rfl rfl (by decide) rfl).2.2.2⟩

/-! ## C3: what reaches the outputs -/

/-- The 2-in/2-out effect: `ensure_io` with both resizes granted leaves two audio ports on
either side and two audio channels in the buffer set, and the following `run (0, 512)` with a
plugin that succeeds collects input, processes and copies the audio channels to the outputs,
in this order. -/
theorem IOPlug.run_stereo_calls :
    IOPlug.stereo_fresh.ensure_io (Env.simple lt_by_total true true 0)
      = Except.ok (true, IOPlug.stereo_ready,
          [Call.input_ensure_io { n_audio := 2, n_midi := 0 } false,
           Call.output_ensure_io { n_audio := 2, n_midi := 0 } false,
           Call.bufs_ensure_buffers { n_audio := 2, n_midi := 0 } 8192]) ∧
    (IOPlug.stereo_ready.run (Env.simple lt_by_total true true 0) 0 512).map (fun r => r.2)
      = Except.ok
          [Call.update_thread_tempo_map, Call.timing_stats_start,
           Call.input_collect_input 512 ChanCount.ZERO,
           Call.plugin_connect_and_run 0 512 1
             (ChanMapping.identity { n_audio := 2, n_midi := 0 })
             (ChanMapping.identity { n_audio := 2, n_midi := 0 }) 512 0,
           Call.output_copy_to_outputs DataType.AUDIO 512 0, Call.timing_stats_update] := by
  constructor
  · rfl
  · rfl


/-- C3, the code at the failing input: for every `operator<`, on the freshly constructed
instrument (one MIDI input, two audio outputs) `ensure_io` with both resizes granted returns
true and leaves the input port group with one MIDI port and the output port group with two
audio ports; in the following `run (0, 512)` with a plugin that succeeds, either the buffer
set holds one MIDI channel and no audio channel and `copy_to_outputs` is called for MIDI
only, so that the two audio output channels receive nothing of what the plugin produced, or
the buffer set holds two audio channels and no MIDI channel, so that the one MIDI input
channel has no buffer to be collected into. -/
theorem C3_run_instrument_output_not_delivered (lt : ChanCount → ChanCount → Bool) :
    ∃ s1 tr1 s2 tr2,
      IOPlug.instrument_fresh.ensure_io (Env.simple lt true true 0)
        = Except.ok (true, s1, tr1) ∧
      s1._input = some { name := "IO", direction := Direction.Input,
                         n_ports := { n_audio := 0, n_midi := 1 } } ∧
      s1._output = some { name := "IO", direction := Direction.Output,
                          n_ports := { n_audio := 2, n_midi := 0 } } ∧
      s1.run (Env.simple lt true true 0) 0 512 = Except.ok (s2, tr2) ∧
      ((s1._bufs.count = { n_audio := 0, n_midi := 1 } ∧
          tr2.filter Call.is_copy_to_outputs
            = [Call.output_copy_to_outputs DataType.MIDI 512 0]) ∨
        (s1._bufs.count = { n_audio := 2, n_midi := 0 } ∧
          tr2.filter Call.is_copy_to_outputs
            = [Call.output_copy_to_outputs DataType.AUDIO 512 0])) := by
  have hens := IOPlug.instrument_fresh.ensure_io_succeeds (Env.simple lt true true 0)
    { name := "IO", direction := Direction.Input, n_ports := ChanCount.ZERO }
    { name := "IO", direction := Direction.Output, n_ports := ChanCount.ZERO } rfl rfl rfl rfl
  refine ⟨_, _, _, _, hens, rfl, rfl,
    IOPlug.run_plugin_success (Env.simple lt true true 0) _ instrument
      { name := "IO", direction := Direction.Input, n_ports := { n_audio := 0, n_midi := 1 } }
      { name := "IO", direction := Direction.Output, n_ports := { n_audio := 2, n_midi := 0 } }
      0 512 rfl rfl rfl (by decide) rfl, ?_⟩
  cases h : lt { n_audio := 0, n_midi := 1 } { n_audio := 2, n_midi := 0 }
  · left
    simp [IOPlug.instrument_fresh, IOPlug.fresh, instrument, Env.simple, std_max, h,
      BufferSet.ensure_buffers, BufferSet.empty, ChanCount.ZERO, IOPlug.plugin_answer,
      IOPlug.consume_stat_reset, IOPlug.copy_loop, DataType.all, ChanCount.get,
      Call.is_copy_to_outputs, List.filter]
  · right
    simp [IOPlug.instrument_fresh, IOPlug.fresh, instrument, Env.simple, std_max, h,
      BufferSet.ensure_buffers, BufferSet.empty, ChanCount.ZERO, IOPlug.plugin_answer,
      IOPlug.consume_stat_reset, IOPlug.copy_loop, DataType.all, ChanCount.get,
      Call.is_copy_to_outputs, List.filter]

/-! ## C11 - C13: `set_name` and `ensure_io_name` -/

/-- `set_name` with a name other than the current one, once `ensure_io_name` has produced
`new_name`, on an IOPlug with both port groups: the three ways through. -/
theorem IOPlug.set_name_cases (H : Host) (fuel : Nat) (self : IOPlug) (input out : ARDOUR.IO)
    (str new_name : String) (h_in : self._input = some input)
    (h_out : self._output = some out) (h_ne : self._name ≠ str)
    (h_new : self.ensure_io_name H fuel str = Except.ok new_name) :
    self.set_name H fuel str =
      if (H.io_set_name input new_name).1 = true then
        if (H.io_set_name out new_name).1 = true then
          Except.ok (true,
            { self with _input := some (H.io_set_name input new_name).2,
                        _output := some (H.io_set_name out new_name).2,
                        _name := new_name },
            [Call.input_set_name new_name, Call.output_set_name new_name,
             Call.session_object_set_name new_name])
        else
          Except.ok (false,
            { self with _input := some (H.io_set_name input new_name).2,
                        _output := some (H.io_set_name out new_name).2 },
            [Call.input_set_name new_name, Call.output_set_name new_name])
      else
        Except.ok (false, { self with _input := some (H.io_set_name input new_name).2 },
          [Call.input_set_name new_name]) := by
  simp only [IOPlug.set_name, if_neg h_ne, h_new, h_in, h_out]
  by_cases h1 : (H.io_set_name input new_name).1 = true
  · by_cases h2 : (H.io_set_name out new_name).1 = true
    · simp [h1, h2]
    · simp [h1, h2]
  · simp [h1]

/-- C11, as stated, fails: on the 2-in/2-out effect named `IO` with both port groups named
`IO`, `set_name ("B")` with the input port group accepting and the output port group
rejecting returns false, and the input port group is now named `B` while the output port
group and the IOPlug are still named `IO`. -/
theorem C11_partial_rename_is_visible :
    IOPlug.stereo_ready.set_name (Host.simple [] true false none) 8 "B"
      = Except.ok (false,
          { IOPlug.stereo_ready with
            _input := some { name := "B", direction := Direction.Input,
                             n_ports := { n_audio := 2, n_midi := 0 } } },
          [Call.input_set_name "B", Call.output_set_name "B"]) ∧
    IOPlug.stereo_ready._name = "IO" ∧
    IOPlug.stereo_ready._input
      = some { name := "IO", direction := Direction.Input,
               n_ports := { n_audio := 2, n_midi := 0 } } ∧
    IOPlug.stereo_ready._output
      = some { name := "IO", direction := Direction.Output,
               n_ports := { n_audio := 2, n_midi := 0 } } ∧
    ("B" : String) ≠ "IO" := by
  refine ⟨rfl, rfl, rfl, rfl, by decide⟩

/-- C11, amended: if either port group rejects the new name (a rejecting `IO::set_name`
leaving its own group as it was), `set_name` returns false, the IOPlug's own name and the
output port group are unchanged and every other field is untouched; the input port group is
unchanged when it rejected the name itself, and keeps what its accepted rename gave it when
only the output port group rejected. -/
theorem C11_set_name_failure_keeps_input_rename (H : Host) (fuel : Nat) (self : IOPlug)
    (input out : ARDOUR.IO) (str new_name : String)
    (h_in : self._input = some input) (h_out : self._output = some out)
    (h_ne : self._name ≠ str)
    (h_new : self.ensure_io_name H fuel str = Except.ok new_name)
    (h_rejected : ∀ (io : ARDOUR.IO) (n : String),
      (H.io_set_name io n).1 = false → (H.io_set_name io n).2 = io)
    (h_fail : (H.io_set_name input new_name).1 = false ∨
      (H.io_set_name out new_name).1 = false) :
    ∃ s1 tr, self.set_name H fuel str = Except.ok (false, s1, tr) ∧
      s1._name = self._name ∧ s1._output = self._output ∧
      s1._input = (if (H.io_set_name input new_name).1 = false then self._input
        else some (H.io_set_name input new_name).2) ∧
      s1 = { self with _input := s1._input } ∧
      (∀ c ∈ tr, c ≠ Call.session_object_set_name new_name) := by
  rw [self.set_name_cases H fuel input out str new_name h_in h_out h_ne h_new]
  by_cases h1 : (H.io_set_name input new_name).1 = true
  · have h2 : (H.io_set_name out new_name).1 = false := by
      rcases h_fail with h | h
      · rw [h1] at h
        cases h
      · exact h
    have hout := h_rejected out new_name h2
    rw [if_pos h1, if_neg (by simp [h2])]
    refine ⟨_, _, rfl, rfl, ?_, ?_, ?_, ?_⟩
    · simp [hout, h_out]
    · simp [h1]
    · simp [hout, h_out]
    · simp
  · have h1f : (H.io_set_name input new_name).1 = false := by simpa using h1
    have hin := h_rejected input new_name h1f
    rw [if_neg h1]
    refine ⟨_, _, rfl, rfl, rfl, ?_, ?_, ?_⟩
    · simp [h1f, hin, h_in]
    · simp [hin, h_in]
    · simp

/-- The witness of C11 amended: the effect named `IO`, renamed to `B`, the output port group
rejecting. -/
theorem C11_set_name_failure_keeps_input_rename_witness :
    ∃ s1 tr, IOPlug.stereo_ready.set_name (Host.simple [] true false none) 8 "B"
        = Except.ok (false, s1, tr) ∧
      s1._name = IOPlug.stereo_ready._name ∧ s1._output = IOPlug.stereo_ready._output ∧
      s1._input = (if ((Host.simple [] true false none).io_set_name
            { name := "IO", direction := Direction.Input,
              n_ports := { n_audio := 2, n_midi := 0 } } "B").1 = false
          then IOPlug.stereo_ready._input
          else some ((Host.simple [] true false none).io_set_name
            { name := "IO", direction := Direction.Input,
              n_ports := { n_audio := 2, n_midi := 0 } } "B").2) ∧
      s1 = { IOPlug.stereo_ready with _input := s1._input } ∧
      (∀ c ∈ tr, c ≠ Call.session_object_set_name "B") :=
  C11_set_name_failure_keeps_input_rename (Host.simple [] true false none) 8
    IOPlug.stereo_ready
    { name := "IO", direction := Direction.Input, n_ports := { n_audio := 2, n_midi := 0 } }
    { name := "IO", direction := Direction.Output, n_ports := { n_audio := 2, n_midi := 0 } }
    "B" "B" rfl rfl (by decide) rfl
    (by
      intro io n h
      cases hd : io.direction <;> simp [Host.simple, hd] at h ⊢)
    (Or.inr rfl)

/-- `ensure_io_name` returns a name the session reports legal as it is, whatever the fuel. -/
theorem IOPlug.ensure_io_name_legal (H : Host) (self : IOPlug) (fuel : Nat) (str : String)
    (h : H.io_name_is_legal str = true) :
    self.ensure_io_name H fuel str = Except.ok str := by
  unfold IOPlug.ensure_io_name
  simp [h]

/-- `ensure_io_name` on a name the session reports not legal returns the first of the bumped
names that is the current name or reported legal, given fuel for that many rounds. -/
theorem IOPlug.ensure_io_name_bumped (H : Host) (self : IOPlug) (k : Nat) :
    ∀ (fuel : Nat) (str : String), H.io_name_is_legal str = false → 0 < k → k ≤ fuel →
      (∀ j, 0 < j → j < k →
        H.io_name_is_legal (H.bumped j str) = false ∧ H.bumped j str ≠ self._name) →
      (H.io_name_is_legal (H.bumped k str) = true ∨ H.bumped k str = self._name) →
      self.ensure_io_name H fuel str = Except.ok (H.bumped k str) := by
  induction k with
  | zero =>
    intro fuel str _ hk
    exact absurd hk (Nat.lt_irrefl 0)
  | succ k ih =>
    intro fuel str h_illegal _ h_fuel h_before h_at
    obtain ⟨fuel1, rfl⟩ : ∃ f, fuel = f + 1 := ⟨fuel - 1, by omega⟩
    unfold IOPlug.ensure_io_name
    simp only [h_illegal, Bool.false_eq_true, if_false]
    rcases Nat.eq_zero_or_pos k with hk0 | hkpos
    · subst hk0
      have hb : H.bumped 1 str = H.bump_name_once str ' ' := rfl
      rw [hb] at h_at ⊢
      by_cases hcur : H.bump_name_once str ' ' = self._name
      · simp [hcur]
      · rw [if_neg hcur]
        rcases h_at with hl | hc
        · exact IOPlug.ensure_io_name_legal H self fuel1 _ hl
        · exact absurd hc hcur
    · have h1 := h_before 1 (by omega) (by omega)
      have hb : H.bumped 1 str = H.bump_name_once str ' ' := rfl
      rw [hb] at h1
      rw [if_neg h1.2]
      have hshift : ∀ j, H.bumped j (H.bump_name_once str ' ') = H.bumped (j + 1) str := by
        intro j
        rfl
      have := ih fuel1 (H.bump_name_once str ' ') h1.1 hkpos (by omega)
        (by
          intro j hj hjk
          rw [hshift]
          exact h_before (j + 1) (by omega) (by omega))
        (by
          rw [hshift]
          exact h_at)
      rw [this, hshift]

/-- Bumping never yields a truncation of the requested name when no round of
`bump_name_once` shortens a name. -/
theorem Host.bumped_not_truncation (H : Host) (str : String)
    (h_len : ∀ n : String, n.length ≤ (H.bump_name_once n ' ').length) (k : Nat) :
    ¬ truncation_of (H.bumped k str) str := by
  have hlen : ∀ k, str.length ≤ (H.bumped k str).length := by
    intro k
    induction k with
    | zero => exact Nat.le_refl _
    | succ k ih =>
      have hstep : H.bumped (k + 1) str = H.bump_name_once (H.bumped k str) ' ' := by
        simp only [Host.bumped, Function.iterate_succ_apply']
      rw [hstep]
      exact Nat.le_trans ih (h_len _)
  intro h
  have := hlen k
  unfold truncation_of at h
  omega

/-- C13, as stated, fails: the IOPlug is named `A 1` and so are its port groups; the session
reports `A` and `A 1` as not legal (both are in use, `A 1` by this IOPlug).  Requested `A`,
`ensure_io_name` bumps it to `A 1`, the current name, and stops there by the
`newname == name ()` test: the name it produces is one the session reports not legal, and
`set_name ("A")` returns true with all three names still `A 1`. -/
theorem C13_bumped_to_current_name_not_legal :
    (Host.simple ["A", "A 1"] true true none).io_name_is_legal "A" = false ∧
    IOPlug.stereo_named.ensure_io_name (Host.simple ["A", "A 1"] true true none) 8 "A"
      = Except.ok "A 1" ∧
    (Host.simple ["A", "A 1"] true true none).io_name_is_legal "A 1" = false ∧
    IOPlug.stereo_named.set_name (Host.simple ["A", "A 1"] true true none) 8 "A"
      = Except.ok (true, IOPlug.stereo_named,
          [Call.input_set_name "A 1", Call.output_set_name "A 1",
           Call.session_object_set_name "A 1"]) := by
  refine ⟨by decide, rfl, by decide, rfl⟩

/-- C13, amended: for every requested name the session reports not legal, the name produced
by `ensure_io_name` (given fuel for `k` rounds) is the first of the names obtained by bumping
the requested name once, twice, ... that is the IOPlug's current name or that the session
reports legal, so it is a legal name or the current name; it is no truncation of the
requested name when no round of `bump_name_once` shortens a name; when the requested name is
not the current one and both port groups accept the produced name and take it, `set_name`
returns true and the IOPlug and both port groups end up with that name; and a requested name
that is already legal is returned unchanged. -/
theorem C13_ensure_io_name_first_legal_or_current (H : Host) (fuel k : Nat) (self : IOPlug)
    (input out : ARDOUR.IO) (str : String)
    (h_in : self._input = some input) (h_out : self._output = some out)
    (h_collides : H.io_name_is_legal str = false) (h_k : 0 < k) (h_fuel : k ≤ fuel)
    (h_before : ∀ j, 0 < j → j < k →
      H.io_name_is_legal (H.bumped j str) = false ∧ H.bumped j str ≠ self._name)
    (h_at : H.io_name_is_legal (H.bumped k str) = true ∨ H.bumped k str = self._name)
    (h_len : ∀ n : String, n.length ≤ (H.bump_name_once n ' ').length)
    (h_accept : ∀ io : ARDOUR.IO, (H.io_set_name io (H.bumped k str)).1 = true ∧
      (H.io_set_name io (H.bumped k str)).2.name = H.bumped k str) :
    self.ensure_io_name H fuel str = Except.ok (H.bumped k str) ∧
    ¬ truncation_of (H.bumped k str) str ∧
    (self._name ≠ str → ∃ s1 i1 o1 tr,
      self.set_name H fuel str = Except.ok (true, s1, tr) ∧
      s1._name = H.bumped k str ∧ s1._input = some i1 ∧ i1.name = H.bumped k str ∧
      s1._output = some o1 ∧ o1.name = H.bumped k str) ∧
    (∀ (legal_name : String) (fuel1 : Nat), H.io_name_is_legal legal_name = true →
      self.ensure_io_name H fuel1 legal_name = Except.ok legal_name) := by
  have h_new := IOPlug.ensure_io_name_bumped H self k fuel str h_collides h_k h_fuel h_before
    h_at
  refine ⟨h_new, H.bumped_not_truncation str h_len k, ?_,
    fun legal_name fuel1 h => IOPlug.ensure_io_name_legal H self fuel1 legal_name h⟩
  intro h_ne
  rw [self.set_name_cases H fuel input out str _ h_in h_out h_ne h_new]
  rw [if_pos (h_accept input).1, if_pos (h_accept out).1]
  exact ⟨_, _, _, _, rfl, rfl, rfl, (h_accept input).2, rfl, (h_accept out).2⟩

/-- The witness of C13 amended: the effect named `IO`; the session reports `A` and `A 1` as
not legal; requested `A`, two rounds of bumping give `A 1 1`. -/
theorem C13_ensure_io_name_first_legal_or_current_witness :
    IOPlug.stereo_ready.ensure_io_name (Host.simple ["A", "A 1"] true true none) 8 "A"
      = Except.ok ((Host.simple ["A", "A 1"] true true none).bumped 2 "A") ∧
    ¬ truncation_of ((Host.simple ["A", "A 1"] true true none).bumped 2 "A") "A" ∧
    (IOPlug.stereo_ready._name ≠ "A" → ∃ s1 i1 o1 tr,
      IOPlug.stereo_ready.set_name (Host.simple ["A", "A 1"] true true none) 8 "A"
        = Except.ok (true, s1, tr) ∧
      s1._name = (Host.simple ["A", "A 1"] true true none).bumped 2 "A" ∧
      s1._input = some i1 ∧
      i1.name = (Host.simple ["A", "A 1"] true true none).bumped 2 "A" ∧
      s1._output = some o1 ∧
      o1.name = (Host.simple ["A", "A 1"] true true none).bumped 2 "A") ∧
    (∀ (legal_name : String) (fuel1 : Nat),
      (Host.simple ["A", "A 1"] true true none).io_name_is_legal legal_name = true →
      IOPlug.stereo_ready.ensure_io_name (Host.simple ["A", "A 1"] true true none) fuel1
        legal_name = Except.ok legal_name) :=
  C13_ensure_io_name_first_legal_or_current (Host.simple ["A", "A 1"] true true none) 8 2
    IOPlug.stereo_ready
    { name := "IO", direction := Direction.Input, n_ports := { n_audio := 2, n_midi := 0 } }
    { name := "IO", direction := Direction.Output, n_ports := { n_audio := 2, n_midi := 0 } }
    "A" rfl rfl (by decide) (by decide) (by decide)
    (by
      intro j hj hj2
      obtain rfl : j = 1 := by omega
      exact ⟨by decide, by decide⟩)
    (Or.inl (by decide))
    (by
      intro n
      simp only [Host.simple, String.length_append]
      omega)
    (by
      intro io
      cases hd : io.direction <;> simp [Host.simple, hd])

/-! ## C18 - C20: the parameter controls -/

/-- `PluginControl::actually_set_value` with a plugin loaded. -/
theorem PluginControl.actually_set_value_loaded (H : Host) (iop : IOPlug) (plugin : Plugin)
    (c : Control) (v : Value) (gcd : GroupControlDisposition)
    (h_plugin : iop._plugin = some plugin) :
    PluginControl.actually_set_value H iop c v gcd =
      Except.ok
        (IOPlug.store_control
            { iop with
              _plugin := some
                (plugin.with_state (H.plugin_set_parameter plugin c.parameter.id v 0)) }
            { c with user_value := v },
         { c with user_value := v },
         [Call.plugin_set_parameter c.parameter.id v 0,
          Call.automation_control_actually_set_value c.parameter v gcd]) := by
  simp only [PluginControl.actually_set_value, h_plugin, AutomationControl.actually_set_value]

/-- `PluginPropertyControl::actually_set_value` with a typed value and a plugin loaded. -/
theorem PluginPropertyControl.actually_set_value_typed (H : Host) (iop : IOPlug)
    (plugin : Plugin) (c : Control) (x : Value) (gcd : GroupControlDisposition)
    (h_plugin : iop._plugin = some plugin)
    (h_type : (H.variant_of_double c.desc.datatype x).type ≠ VariantType.NOTHING) :
    PluginPropertyControl.actually_set_value H iop c x gcd =
      Except.ok
        (IOPlug.store_control
            { iop with
              _plugin := some
                (plugin.with_state (H.plugin_set_property plugin c.parameter.id
                  (H.variant_of_double c.desc.datatype x))) }
            { c with _value := H.variant_of_double c.desc.datatype x, user_value := x },
         { c with _value := H.variant_of_double c.desc.datatype x, user_value := x },
         [Call.plugin_set_property c.parameter.id (H.variant_of_double c.desc.datatype x),
          Call.automation_control_actually_set_value c.parameter x gcd]) := by
  simp only [PluginPropertyControl.actually_set_value, if_neg h_type, h_plugin,
    AutomationControl.actually_set_value]

/-- C18: for every `PluginControl` of an IOPlug with a plugin loaded and every value `v`,
`actually_set_value (v, gcd)` returns after exactly one write into the plugin,
`set_parameter (parameter ().id (), v, 0)`, followed by the update of the automation base to
`v`; `catch_up_with_external_value (v)` makes no write into the plugin, leaves the plugin as it
was and changes nothing but the automation base, which takes `v`; and
`parameter_changed_externally`, which goes through `catch_up_with_external_value`, makes no
write into the plugin either. -/
theorem C18_plugin_control_writes (H : Host) (iop : IOPlug) (plugin : Plugin) (c : Control)
    (v : Value) (gcd : GroupControlDisposition) (h_plugin : iop._plugin = some plugin) :
    (∃ iop1 c1 tr, PluginControl.actually_set_value H iop c v gcd = Except.ok (iop1, c1, tr) ∧
      tr = [Call.plugin_set_parameter c.parameter.id v 0,
            Call.automation_control_actually_set_value c.parameter v gcd] ∧
      tr.filter Call.is_plugin_write = [Call.plugin_set_parameter c.parameter.id v 0] ∧
      c1.user_value = v) ∧
    ((PluginControl.catch_up_with_external_value iop c v).2.2.filter Call.is_plugin_write = [] ∧
      (PluginControl.catch_up_with_external_value iop c v).2.2
        = [Call.automation_control_actually_set_value c.parameter v
            GroupControlDisposition.NoGroup] ∧
      (PluginControl.catch_up_with_external_value iop c v).2.1 = { c with user_value := v } ∧
      (PluginControl.catch_up_with_external_value iop c v).1._plugin = iop._plugin) ∧
    (∀ (which : Nat) (val : Value),
      (iop.parameter_changed_externally which val).2.filter Call.is_plugin_write = [] ∧
      (iop.parameter_changed_externally which val).1._plugin = iop._plugin) := by
  refine ⟨?_, ?_, ?_⟩
  · refine ⟨_, _, _, PluginControl.actually_set_value_loaded H iop plugin c v gcd h_plugin,
      rfl, ?_, rfl⟩
    simp [Call.is_plugin_write]
  · simp [PluginControl.catch_up_with_external_value, Call.is_plugin_write,
      AutomationControl.actually_set_value, IOPlug.store_control]
  · intro which val
    unfold IOPlug.parameter_changed_externally
    split
    · simp
    · split
      · simp [PluginControl.catch_up_with_external_value, Call.is_plugin_write,
          IOPlug.store_control]
      · simp

/-- The witness of C18: the gain control of the configured effect, set to 3. -/
theorem C18_plugin_control_writes_witness :
    (∃ iop1 c1 tr,
      PluginControl.actually_set_value (Host.simple [] true true none) IOPlug.stereo_controlled
        gain_control 3 GroupControlDisposition.UseGroup = Except.ok (iop1, c1, tr) ∧
      tr = [Call.plugin_set_parameter gain_control.parameter.id 3 0,
            Call.automation_control_actually_set_value gain_control.parameter 3
              GroupControlDisposition.UseGroup] ∧
      tr.filter Call.is_plugin_write
        = [Call.plugin_set_parameter gain_control.parameter.id 3 0] ∧
      c1.user_value = 3) ∧
    ((PluginControl.catch_up_with_external_value IOPlug.stereo_controlled gain_control
        3).2.2.filter Call.is_plugin_write = [] ∧
      (PluginControl.catch_up_with_external_value IOPlug.stereo_controlled gain_control 3).2.2
        = [Call.automation_control_actually_set_value gain_control.parameter 3
            GroupControlDisposition.NoGroup] ∧
      (PluginControl.catch_up_with_external_value IOPlug.stereo_controlled gain_control 3).2.1
        = { gain_control with user_value := 3 } ∧
      (PluginControl.catch_up_with_external_value IOPlug.stereo_controlled gain_control
        3).1._plugin = IOPlug.stereo_controlled._plugin) ∧
    (∀ (which : Nat) (val : Value),
      (IOPlug.stereo_controlled.parameter_changed_externally which val).2.filter
        Call.is_plugin_write = [] ∧
      (IOPlug.stereo_controlled.parameter_changed_externally which val).1._plugin
        = IOPlug.stereo_controlled._plugin) :=
  C18_plugin_control_writes (Host.simple [] true true none) IOPlug.stereo_controlled
    (stereo_effect.with_state 1) gain_control 3 GroupControlDisposition.UseGroup rfl

/-- C19, as stated, fails: the plugin of the configured effect holds 1 for parameter 0; after
`catch_up_with_external_value (3)` on the control of that parameter, `get_value ()` still
reports 1, the plugin's value, not 3. -/
theorem C19_catch_up_value_not_reported :
    PluginControl.get_value (Host.simple [] true true none)
        (PluginControl.catch_up_with_external_value IOPlug.stereo_controlled gain_control 3).1
        (PluginControl.catch_up_with_external_value IOPlug.stereo_controlled gain_control 3).2.1
      = 1 ∧
    (PluginControl.catch_up_with_external_value IOPlug.stereo_controlled gain_control
      3).2.1.user_value = 3 ∧
    (1 : Value) ≠ 3 := by
  refine ⟨?_, rfl, by norm_num⟩
  simp [PluginControl.get_value, PluginControl.catch_up_with_external_value,
    IOPlug.store_control, IOPlug.stereo_controlled, Host.simple, Plugin.with_state]

/-- C19, amended: for every `PluginControl` and every value `v`, after
`catch_up_with_external_value (v)` the automation base holds `v`, and `get_value ()` reports
what it reported before the call: the plugin's own value of the parameter
(`get_parameter`), or 0 when no plugin is loaded; so it reports `v` whenever the plugin holds
`v` for the parameter (as when the plugin itself made the change it notifies). -/
theorem C19_catch_up_reports_plugin_value (H : Host) (iop : IOPlug) (c : Control) (v : Value) :
    (PluginControl.catch_up_with_external_value iop c v).2.1.user_value = v ∧
    PluginControl.get_value H (PluginControl.catch_up_with_external_value iop c v).1
        (PluginControl.catch_up_with_external_value iop c v).2.1
      = PluginControl.get_value H iop c ∧
    (∀ plugin : Plugin, iop._plugin = some plugin →
      PluginControl.get_value H (PluginControl.catch_up_with_external_value iop c v).1
          (PluginControl.catch_up_with_external_value iop c v).2.1
        = H.plugin_get_parameter plugin c.parameter.id) ∧
    (∀ plugin : Plugin, iop._plugin = some plugin →
      H.plugin_get_parameter plugin c.parameter.id = v →
      PluginControl.get_value H (PluginControl.catch_up_with_external_value iop c v).1
          (PluginControl.catch_up_with_external_value iop c v).2.1 = v) ∧
    (iop._plugin = none →
      PluginControl.get_value H (PluginControl.catch_up_with_external_value iop c v).1
          (PluginControl.catch_up_with_external_value iop c v).2.1 = 0) := by
  refine ⟨rfl, rfl, ?_, ?_, ?_⟩
  · intro plugin hp
    simp [PluginControl.get_value, PluginControl.catch_up_with_external_value,
      IOPlug.store_control, AutomationControl.actually_set_value, hp]
  · intro plugin hp hv
    simp [PluginControl.get_value, PluginControl.catch_up_with_external_value,
      IOPlug.store_control, AutomationControl.actually_set_value, hp, hv]
  · intro hp
    simp [PluginControl.get_value, PluginControl.catch_up_with_external_value,
      IOPlug.store_control, hp]

/-- C20: for every `PluginPropertyControl` and raw scalar `x`: if the typed value built from
the control's declared datatype and `x` has type `NOTHING`, `actually_set_value (x, gcd)`
returns having done nothing (no call, plugin, cached value and automation base as before);
otherwise, with a plugin loaded, it returns after calling the plugin's `set_property` exactly
once, with the control's parameter id and that typed value, the control caches the typed
value, so that `get_value ()` is its `to_double ()`, and the automation base is then updated
to `x`. -/
theorem C20_property_control_set_value (H : Host) (iop : IOPlug) (c : Control) (x : Value)
    (gcd : GroupControlDisposition) :
    ((H.variant_of_double c.desc.datatype x).type = VariantType.NOTHING →
      PluginPropertyControl.actually_set_value H iop c x gcd = Except.ok (iop, c, [])) ∧
    ((H.variant_of_double c.desc.datatype x).type ≠ VariantType.NOTHING →
      ∀ plugin : Plugin, iop._plugin = some plugin →
      ∃ iop1 c1 tr,
        PluginPropertyControl.actually_set_value H iop c x gcd = Except.ok (iop1, c1, tr) ∧
        tr = [Call.plugin_set_property c.parameter.id (H.variant_of_double c.desc.datatype x),
              Call.automation_control_actually_set_value c.parameter x gcd] ∧
        tr.filter Call.is_plugin_write
          = [Call.plugin_set_property c.parameter.id (H.variant_of_double c.desc.datatype x)] ∧
        c1._value = H.variant_of_double c.desc.datatype x ∧
        PluginPropertyControl.get_value H c1
          = H.variant_to_double (H.variant_of_double c.desc.datatype x) ∧
        c1.user_value = x) := by
  constructor
  · intro h
    simp [PluginPropertyControl.actually_set_value, h]
  · intro h plugin hp
    refine ⟨_, _, _,
      PluginPropertyControl.actually_set_value_typed H iop plugin c x gcd hp h, rfl, ?_, rfl,
      rfl, rfl⟩
    simp [Call.is_plugin_write]

/-! ## C16: the document `get_state` writes -/

/-- The example objects are what the constructor builds. -/
theorem IOPlug.construct_examples :
    IOPlug.construct (Host.simple [] true true none) 8 (some gain_plugin) false 42
      = Except.ok (IOPlug.gain_constructed,
          [Call.plugin_set_automation_control 0, Call.plugin_connect_preset_port_set_value,
           Call.plugin_reconfigure_io { n_audio := 2, n_midi := 0 } ChanCount.ZERO
             { n_audio := 2, n_midi := 0 },
           Call.plugin_connect_parameter_changed_externally, Call.plugin_activate,
           Call.session_object_set_name "IO gain"]) ∧
    IOPlug.construct (Host.simple [] true true none) 8 none true 1
      = Except.ok (IOPlug.unconfigured, []) := by
  constructor <;> rfl

/-- The control loop of `get_state` adds one child per automation control, in the order of
the control set, and touches nothing else of the document. -/
theorem IOPlug.add_control_states_eq (H : Host) (plugin : Option Plugin)
    (controls : List Control) :
    ∀ acc : XMLNode × List Call,
      IOPlug.add_control_states H plugin controls acc =
        ({ acc.1 with
           children := acc.1.children ++
             (controls.filter Control.is_automation_control).map (Control.get_state H plugin) },
         acc.2 ++ (controls.filter Control.is_automation_control).map
           (fun c => Call.control_get_state c.parameter)) := by
  induction controls with
  | nil =>
    intro acc
    simp [IOPlug.add_control_states]
  | cons c rest ih =>
    intro acc
    by_cases hc : c.is_automation_control = true
    · simp [IOPlug.add_control_states, hc, ih, XMLNode.add_child_nocopy]
    · simp [IOPlug.add_control_states, hc, ih]

/-- `get_state` on an IOPlug with a plugin and both port groups, written out. -/
theorem IOPlug.get_state_eq (H : Host) (self : IOPlug) (plugin : Plugin)
    (input out : ARDOUR.IO) (h_plugin : self._plugin = some plugin)
    (h_in : self._input = some input) (h_out : self._output = some out) :
    self.get_state H = Except.ok
      ({ name := "IOPlug",
         properties :=
           [("type", XMLValue.string plugin.state_node_name),
            ("unique-id", XMLValue.string plugin.unique_id),
            ("id", XMLValue.uint self._id),
            ("name", XMLValue.string self._name),
            ("pre", XMLValue.bool self._pre)],
         children :=
           [H.plugin_get_state (plugin.with_state (H.plugin_set_insert_id plugin self._id))]
           ++ (self._controls.filter Control.is_automation_control).map
               (Control.get_state H
                 (some (plugin.with_state (H.plugin_set_insert_id plugin self._id))))
           ++ [H.io_get_state input, H.io_get_state out] },
       { self with
         _plugin := some (plugin.with_state (H.plugin_set_insert_id plugin self._id)) },
       [Call.plugin_set_insert_id self._id, Call.plugin_get_state]
         ++ (self._controls.filter Control.is_automation_control).map
             (fun c => Call.control_get_state c.parameter)
         ++ [Call.input_get_state, Call.output_get_state]) := by
  simp [IOPlug.get_state, h_plugin, h_in, h_out, IOPlug.add_control_states_eq,
    XMLNode.set_property, XMLNode.add_child_nocopy, XMLValue.assign]

/-- C16: for every IOPlug with a plugin loaded and both port groups in place, `get_state`
returns a document named `IOPlug` whose attributes are, in this order, `type` (the plugin's
state-node name), `unique-id`, `id`, `name` and `pre`, and whose children are, in order: the
plugin's state document, one entry per control of the control set that is an automation
control (its own `get_state ()`), the input port group's state and the output port group's
state; the IOPlug afterwards differs from the one before only in its plugin having been told
the owning insert id. -/
theorem C16_get_state_document (H : Host) (self : IOPlug) (plugin : Plugin)
    (input out : ARDOUR.IO) (h_plugin : self._plugin = some plugin)
    (h_in : self._input = some input) (h_out : self._output = some out) :
    ∃ node tr,
      self.get_state H = Except.ok (node,
        { self with
          _plugin := some (plugin.with_state (H.plugin_set_insert_id plugin self._id)) }, tr) ∧
      node.name = "IOPlug" ∧
      node.properties =
        [("type", XMLValue.string plugin.state_node_name),
         ("unique-id", XMLValue.string plugin.unique_id),
         ("id", XMLValue.uint self._id),
         ("name", XMLValue.string self._name),
         ("pre", XMLValue.bool self._pre)] ∧
      node.children =
        [H.plugin_get_state (plugin.with_state (H.plugin_set_insert_id plugin self._id))]
        ++ (self._controls.filter Control.is_automation_control).map
            (Control.get_state H
              (some (plugin.with_state (H.plugin_set_insert_id plugin self._id))))
        ++ [H.io_get_state input, H.io_get_state out] ∧
      (node.children.length = (self._controls.filter Control.is_automation_control).length + 3) := by
  refine ⟨_, _, self.get_state_eq H plugin input out h_plugin h_in h_out, rfl, rfl, rfl, ?_⟩
  simp

/-- The witness of C16: the IOPlug constructed for `gain_plugin`. -/
theorem C16_get_state_document_witness :
    ∃ node tr,
      IOPlug.gain_constructed.get_state (Host.simple [] true true none) = Except.ok (node,
        { IOPlug.gain_constructed with
          _plugin := some (gain_plugin.with_state
            ((Host.simple [] true true none).plugin_set_insert_id gain_plugin
              IOPlug.gain_constructed._id)) }, tr) ∧
      node.name = "IOPlug" ∧
      node.properties =
        [("type", XMLValue.string gain_plugin.state_node_name),
         ("unique-id", XMLValue.string gain_plugin.unique_id),
         ("id", XMLValue.uint IOPlug.gain_constructed._id),
         ("name", XMLValue.string IOPlug.gain_constructed._name),
         ("pre", XMLValue.bool IOPlug.gain_constructed._pre)] ∧
      node.children =
        [(Host.simple [] true true none).plugin_get_state (gain_plugin.with_state
          ((Host.simple [] true true none).plugin_set_insert_id gain_plugin
            IOPlug.gain_constructed._id))]
        ++ (IOPlug.gain_constructed._controls.filter Control.is_automation_control).map
            (Control.get_state (Host.simple [] true true none)
              (some (gain_plugin.with_state
                ((Host.simple [] true true none).plugin_set_insert_id gain_plugin
                  IOPlug.gain_constructed._id))))
        ++ [(Host.simple [] true true none).io_get_state
              { name := "IO gain", direction := Direction.Input, n_ports := ChanCount.ZERO },
            (Host.simple [] true true none).io_get_state
              { name := "IO gain", direction := Direction.Output, n_ports := ChanCount.ZERO }] ∧
      (node.children.length
        = (IOPlug.gain_constructed._controls.filter Control.is_automation_control).length + 3) :=
  C16_get_state_document (Host.simple [] true true none) IOPlug.gain_constructed gain_plugin
    { name := "IO gain", direction := Direction.Input, n_ports := ChanCount.ZERO }
    { name := "IO gain", direction := Direction.Output, n_ports := ChanCount.ZERO } rfl rfl rfl

/-! ## C14: the failure returns of `set_state` -/

/-- `set_state` when the plugin type cannot be parsed. -/
theorem IOPlug.set_state_unparsed (H : Host) (fuel : Nat) (self : IOPlug) (node : XMLNode)
    (version : Int) (h_regen : H.regenerate_xml_or_string_ids = false)
    (h_parse : H.parse_plugin_type node = none) :
    self.set_state H fuel node version = Except.ok (-1, self.set_id node, []) := by
  simp [IOPlug.set_state, IOPlug.set_state_load, h_regen, h_parse]

/-- `set_state` when the plugin is not resolved. -/
theorem IOPlug.set_state_unresolved (H : Host) (fuel : Nat) (self : IOPlug) (node : XMLNode)
    (version : Int) (tu : PluginType × String)
    (h_regen : H.regenerate_xml_or_string_ids = false)
    (h_parse : H.parse_plugin_type node = some tu)
    (h_find : H.find_and_load_plugin node tu.1 tu.2 = none) :
    self.set_state H fuel node version =
      Except.ok (-1, { self.set_id node with _plugin := none },
        [Call.find_and_load_plugin tu.1 tu.2]) := by
  simp [IOPlug.set_state, IOPlug.set_state_load, h_regen, h_parse, h_find]

/-- `set_id` touches the id only. -/
theorem IOPlug.set_id_frame (self : IOPlug) (node : XMLNode) :
    self.set_id node = { self with _id := (self.set_id node)._id } := by
  unfold IOPlug.set_id
  split <;> rfl

/-- C14, as stated, fails.  The IOPlug constructed for `gain_plugin` has id 42 and a plugin.
Given a document with id 7 whose plugin type cannot be parsed, `set_state` returns -1 and the
id is now 7; given a document with id 7 that parses but resolves to no plugin, `set_state`
returns -1, the id is now 7 and the plugin handle is now empty. -/
theorem C14_failed_set_state_mutates :
    IOPlug.gain_constructed._id = 42 ∧ IOPlug.gain_constructed._plugin = some gain_plugin ∧
    IOPlug.gain_constructed.set_state (Host.simple [] true true none) 8 unparsable_document
        3000
      = Except.ok (-1, { IOPlug.gain_constructed with _id := 7 }, []) ∧
    IOPlug.gain_constructed.set_state (Host.simple [] true true none) 8 childless_document
        3000
      = Except.ok (-1, { IOPlug.gain_constructed with _id := 7, _plugin := none },
          [Call.find_and_load_plugin PluginType.LV2 "urn:example:gain"]) := by
  refine ⟨rfl, rfl, rfl, rfl⟩

/-- C14, amended: if the plugin type cannot be parsed from the document or plugin resolution
yields no plugin, `set_state` returns -1 with the name, position, channel counts, controls,
control outputs, buffers and port groups as before the call; the id is by then the one of
the document's `id` attribute (when it has one); the plugin handle is as before when the
type could not be parsed and empty when resolution failed (so as before on an IOPlug without
a plugin). -/
theorem C14_failed_set_state_keeps_configuration (H : Host) (fuel : Nat) (self : IOPlug)
    (node : XMLNode) (version : Int) (h_regen : H.regenerate_xml_or_string_ids = false)
    (h_fail : H.parse_plugin_type node = none ∨
      ∃ tu, H.parse_plugin_type node = some tu ∧ H.find_and_load_plugin node tu.1 tu.2 = none) :
    ∃ s1 tr, self.set_state H fuel node version = Except.ok (-1, s1, tr) ∧
      s1._name = self._name ∧ s1._pre = self._pre ∧
      s1._n_in = self._n_in ∧ s1._n_out = self._n_out ∧
      s1._controls = self._controls ∧ s1._control_outputs = self._control_outputs ∧
      s1._bufs = self._bufs ∧ s1._input = self._input ∧ s1._output = self._output ∧
      s1._id = (match node.get_uint "id" with
                | some id => id
                | none => self._id) ∧
      (H.parse_plugin_type node = none → s1._plugin = self._plugin) ∧
      (H.parse_plugin_type node ≠ none → s1._plugin = none) ∧
      (self._plugin = none → s1._plugin = none) := by
  have hid : (self.set_id node)._id = (match node.get_uint "id" with
                | some id => id
                | none => self._id) := by
    unfold IOPlug.set_id
    split <;> rfl
  rcases h_fail with h_parse | ⟨tu, h_parse, h_find⟩
  · refine ⟨_, _, self.set_state_unparsed H fuel node version h_regen h_parse, ?_, ?_, ?_, ?_,
      ?_, ?_, ?_, ?_, ?_, hid, ?_, ?_, ?_⟩
    all_goals
      unfold IOPlug.set_id
      split <;> simp_all
  · refine ⟨_, _, self.set_state_unresolved H fuel node version tu h_regen h_parse h_find,
      ?_, ?_, ?_, ?_, ?_, ?_, ?_, ?_, ?_, hid, ?_, ?_, ?_⟩
    all_goals
      unfold IOPlug.set_id
      split <;> simp_all

/-- The witness of C14 amended: the IOPlug constructed for `gain_plugin` and a document that
resolves to no plugin. -/
theorem C14_failed_set_state_keeps_configuration_witness :
    ∃ s1 tr,
      IOPlug.gain_constructed.set_state (Host.simple [] true true none) 8 childless_document
        3000 = Except.ok (-1, s1, tr) ∧
      s1._name = IOPlug.gain_constructed._name ∧ s1._pre = IOPlug.gain_constructed._pre ∧
      s1._n_in = IOPlug.gain_constructed._n_in ∧ s1._n_out = IOPlug.gain_constructed._n_out ∧
      s1._controls = IOPlug.gain_constructed._controls ∧
      s1._control_outputs = IOPlug.gain_constructed._control_outputs ∧
      s1._bufs = IOPlug.gain_constructed._bufs ∧ s1._input = IOPlug.gain_constructed._input ∧
      s1._output = IOPlug.gain_constructed._output ∧
      s1._id = (match childless_document.get_uint "id" with
                | some id => id
                | none => IOPlug.gain_constructed._id) ∧
      ((Host.simple [] true true none).parse_plugin_type childless_document = none →
        s1._plugin = IOPlug.gain_constructed._plugin) ∧
      ((Host.simple [] true true none).parse_plugin_type childless_document ≠ none →
        s1._plugin = none) ∧
      (IOPlug.gain_constructed._plugin = none → s1._plugin = none) :=
  C14_failed_set_state_keeps_configuration (Host.simple [] true true none) 8
    IOPlug.gain_constructed childless_document 3000 rfl
    (Or.inr ⟨(PluginType.LV2, "urn:example:gain"), rfl, rfl⟩)

/-! ## What `setup` and the first part of `set_state` leave behind -/

/-- Moving a plugin instance to a state twice is moving it to the second state. -/
@[simp] theorem Plugin.with_state_with_state (p : Plugin) (a b : Nat) :
    (p.with_state a).with_state b = p.with_state b := rfl

/-- The first loop of `create_parameters` changes the control set and the control outputs of
the IOPlug and the state of the plugin instance, and makes no restoring call. -/
theorem IOPlug.create_port_controls_eq (H : Host) (ports : List PortDeclaration) :
    ∀ (i : Nat) (s : IOPlug) (p : Plugin) (tr : List Call),
      ∃ cs cos st tr1,
        IOPlug.create_port_controls H i ports (s, p, tr)
          = ({ s with _controls := cs, _control_outputs := cos }, p.with_state st, tr ++ tr1) ∧
        ∀ c ∈ tr1, c.is_restore = false := by
  induction ports with
  | nil =>
    intro i s p tr
    exact ⟨s._controls, s._control_outputs, p.state, [], by simp [IOPlug.create_port_controls,
      Plugin.with_state], by simp⟩
  | cons port rest ih =>
    intro i s p tr
    by_cases hc : port.is_control = false
    · obtain ⟨cs, cos, st, tr1, h, htr⟩ := ih (i + 1) s p tr
      exact ⟨cs, cos, st, tr1, by simp [IOPlug.create_port_controls, hc, h], htr⟩
    · by_cases hi : port.is_input = false
      · obtain ⟨cs, cos, st, tr1, h, htr⟩ := ih (i + 1) (s.add_control_output i) p tr
        refine ⟨cs, cos, st, tr1, ?_, htr⟩
        simp only [IOPlug.create_port_controls, hc, hi, if_false, if_true]
        rw [h]
        rfl
      · obtain ⟨cs, cos, st, tr1, h, htr⟩ := ih (i + 1)
          (s.add_control
            { cls := ControlClass.PluginControl,
              parameter := { type := AutomationType.PluginAutomation, channel := 0, id := i },
              not_automatable := true, desc := port.desc,
              name := H.event_type_map_to_symbol
                { type := AutomationType.PluginAutomation, channel := 0, id := i } })
          (p.with_state (H.plugin_set_automation_control p i))
          (tr ++ [Call.plugin_set_automation_control i])
        refine ⟨cs, cos, st, Call.plugin_set_automation_control i :: tr1, ?_, ?_⟩
        · simp only [IOPlug.create_port_controls, hc, hi, if_false]
          rw [h]
          simp [IOPlug.add_control]
        · intro c hcm
          rcases List.mem_cons.mp hcm with rfl | hcm
          · rfl
          · exact htr c hcm

/-- The second loop of `create_parameters` changes the control set only. -/
theorem IOPlug.create_property_controls_eq (plugin : Plugin) (keys : List Nat) :
    ∀ s : IOPlug, ∃ cs,
      IOPlug.create_property_controls plugin keys s = { s with _controls := cs } := by
  induction keys with
  | nil =>
    intro s
    exact ⟨s._controls, rfl⟩
  | cons key rest ih =>
    intro s
    by_cases hd : (plugin.get_property_descriptor key).datatype = VariantType.NOTHING
    · obtain ⟨cs, h⟩ := ih s
      exact ⟨cs, by simp [IOPlug.create_property_controls, hd, h]⟩
    · obtain ⟨cs, h⟩ := ih (s.add_control
        { cls := ControlClass.PluginPropertyControl,
          parameter := { type := AutomationType.PluginPropertyAutomation, channel := 0,
                         id := key },
          not_automatable := true, desc := plugin.get_property_descriptor key })
      refine ⟨cs, ?_⟩
      simp only [IOPlug.create_property_controls, hd, if_false]
      rw [h]
      rfl

/-- `setup` on an IOPlug with a plugin returns; it changes the control set, the control
outputs, the channel counts (to the pair the plugin negotiates) and the state of the plugin
instance, and makes no restoring call. -/
theorem IOPlug.setup_eq (H : Host) (s : IOPlug) (q : Plugin) (h_plugin : s._plugin = some q) :
    ∃ cs cos st0 st tr,
      s.setup H = Except.ok
        ({ s with _controls := cs, _control_outputs := cos,
                  _n_in := (IOPlug.negotiated H (q.with_state st0)).1,
                  _n_out := (IOPlug.negotiated H (q.with_state st0)).2,
                  _plugin := some (q.with_state st) }, tr) ∧
      ∀ c ∈ tr, c.is_restore = false := by
  obtain ⟨cs1, cos1, st1, tr1, h1, htr1⟩ := IOPlug.create_port_controls_eq H q.ports 0 s q []
  obtain ⟨cs2, h2⟩ := IOPlug.create_property_controls_eq (q.with_state st1)
    (q.with_state st1).supported_properties { s with _controls := cs1, _control_outputs := cos1 }
  have hcp : s.create_parameters H = Except.ok
      ({ s with _controls := cs2, _control_outputs := cos1, _plugin := some (q.with_state st1) },
        tr1 ++ [Call.plugin_connect_preset_port_set_value]) := by
    unfold IOPlug.create_parameters
    rw [h_plugin]
    simp only [h1, List.nil_append]
    rw [h2]
  have hinfo : ∀ st, (q.with_state st).info = q.info := fun _ => rfl
  cases hr : q.info.reconfigurable_io
  · simp only [IOPlug.setup, hcp, hinfo, hr, Bool.false_eq_true, if_false, IOPlug.negotiated,
      Plugin.with_state_with_state]
    refine ⟨cs2, cos1, st1, _, _, rfl, ?_⟩
    intro c hc
    simp only [List.mem_append, List.mem_cons, List.mem_singleton, List.not_mem_nil,
      or_false] at hc
    rcases hc with (hc | rfl) | rfl | rfl | rfl
    · exact htr1 c hc
    all_goals rfl
  · simp only [IOPlug.setup, hcp, hinfo, hr, if_true, IOPlug.negotiated,
      Plugin.with_state_with_state]
    refine ⟨cs2, cos1, st1, _, _, rfl, ?_⟩
    intro c hc
    simp only [List.mem_append, List.mem_cons, List.mem_singleton, List.not_mem_nil,
      or_false] at hc
    rcases hc with (hc | rfl) | rfl | rfl | rfl | rfl
    · exact htr1 c hc
    all_goals rfl

/-- Whatever `set_name` returns, it leaves the plugin, the position, the counts, the controls
and the id alone, and it makes none of the restoring calls. -/
theorem IOPlug.set_name_frame (H : Host) (fuel : Nat) (self : IOPlug) (str : String)
    (r : Bool × IOPlug × List Call) (h : self.set_name H fuel str = Except.ok r) :
    r.2.1._plugin = self._plugin ∧ r.2.1._pre = self._pre ∧ r.2.1._id = self._id ∧
    r.2.1._controls = self._controls ∧ r.2.1._control_outputs = self._control_outputs ∧
    r.2.1._n_in = self._n_in ∧ r.2.1._n_out = self._n_out ∧
    ∀ c ∈ r.2.2, c.is_restore = false := by
  unfold IOPlug.set_name at h
  split at h
  · cases h; simp
  · split at h
    · cases h
    · simp only [] at h
      cases hi : self._input <;> cases ho : self._output <;> simp only [hi, ho] at h <;>
        split_ifs at h <;> cases h <;> simp_all [Call.is_restore]

/-- The first part of `set_state`, once the document has been parsed, the plugin resolved to
`q` and `set_name` has returned: it runs through; the object is the one `set_name` left, with
the position taken from the document when it has one, the controls built by `setup`, the
channel counts negotiated by `q`, and `q` itself in some instance state; none of the
restoring calls has been made. -/
theorem IOPlug.set_state_load_eq (H : Host) (fuel : Nat) (self : IOPlug) (node : XMLNode)
    (version : Int) (t : PluginType) (uid : String) (q : Plugin)
    (r3 : Bool × IOPlug × List Call)
    (h_regen : H.regenerate_xml_or_string_ids = false)
    (h_parse : H.parse_plugin_type node = some (t, uid))
    (h_find : H.find_and_load_plugin node t uid = some q)
    (h_name : ({ self.set_id node with _plugin := some q } : IOPlug).set_name H fuel
        (match node.get_string "name" with
         | some name => name
         | none => "IO " ++ q.info.name) = Except.ok r3) :
    ∃ cs cos st0 st tr,
      self.set_state_load H fuel node version = Except.ok (true,
        { r3.2.1 with
          _pre := (match node.get_bool "pre" with
                   | some pre => pre
                   | none => r3.2.1._pre),
          _controls := cs, _control_outputs := cos,
          _n_in := (IOPlug.negotiated H (q.with_state st0)).1,
          _n_out := (IOPlug.negotiated H (q.with_state st0)).2,
          _plugin := some (q.with_state st) }, tr) ∧
      ∀ c ∈ tr, c.is_restore = false := by
  obtain ⟨hp3, -, -, -, -, -, -, htr3⟩ := IOPlug.set_name_frame H fuel _ _ r3 h_name
  cases hpre : node.get_bool "pre" with
  | none =>
    obtain ⟨cs, cos, st0, st, tr5, h5, htr5⟩ := IOPlug.setup_eq H r3.2.1 q hp3
    refine ⟨H.set_control_ids cs node version, cos, st0, st,
      [Call.find_and_load_plugin t uid] ++ r3.2.2 ++ tr5 ++ [Call.set_control_ids version],
      ?_, ?_⟩
    · simp only [IOPlug.set_state_load, h_regen, h_parse, h_find, h_name, hpre, h5]
      rfl
    · intro c hc
      simp only [List.mem_append, List.mem_singleton] at hc
      rcases hc with ((rfl | hc) | hc) | rfl
      · rfl
      · exact htr3 c hc
      · exact htr5 c hc
      · rfl
  | some pre =>
    have hp4 : ({ r3.2.1 with _pre := pre } : IOPlug)._plugin = some q := hp3
    obtain ⟨cs, cos, st0, st, tr5, h5, htr5⟩ :=
      IOPlug.setup_eq H { r3.2.1 with _pre := pre } q hp4
    refine ⟨H.set_control_ids cs node version, cos, st0, st,
      [Call.find_and_load_plugin t uid] ++ r3.2.2 ++ tr5 ++ [Call.set_control_ids version],
      ?_, ?_⟩
    · simp only [IOPlug.set_state_load, h_regen, h_parse, h_find, h_name, hpre, h5]
      rfl
    · intro c hc
      simp only [List.mem_append, List.mem_singleton] at hc
      rcases hc with ((rfl | hc) | hc) | rfl
      · rfl
      · exact htr3 c hc
      · exact htr5 c hc
      · rfl

/-- When the first part of `set_state` ran through, a plugin is loaded and none of the
restoring calls has been made. -/
theorem IOPlug.set_state_load_through (H : Host) (fuel : Nat) (self : IOPlug) (node : XMLNode)
    (version : Int) (s_mid : IOPlug) (tr_mid : List Call)
    (h : self.set_state_load H fuel node version = Except.ok (true, s_mid, tr_mid)) :
    (∃ q, s_mid._plugin = some q) ∧ ∀ c ∈ tr_mid, c.is_restore = false := by
  cases h_regen : H.regenerate_xml_or_string_ids with
  | true => simp [IOPlug.set_state_load, h_regen] at h
  | false =>
    cases h_parse : H.parse_plugin_type node with
    | none => simp [IOPlug.set_state_load, h_regen, h_parse] at h
    | some tu =>
      cases h_find : H.find_and_load_plugin node tu.1 tu.2 with
      | none => simp [IOPlug.set_state_load, h_regen, h_parse, h_find] at h
      | some q =>
        cases h_name : ({ self.set_id node with _plugin := some q } : IOPlug).set_name H fuel
            (match node.get_string "name" with
             | some name => name
             | none => "IO " ++ q.info.name) with
        | error e => simp [IOPlug.set_state_load, h_regen, h_parse, h_find, h_name] at h
        | ok r3 =>
          obtain ⟨cs, cos, st0, st, tr, heq, htr⟩ :=
            IOPlug.set_state_load_eq H fuel self node version tu.1 tu.2 q r3 h_regen h_parse
              h_find h_name
          rw [heq] at h
          simp only [Except.ok.injEq, Prod.mk.injEq, true_and] at h
          obtain ⟨h1, h2⟩ := h
          subst h1 h2
          exact ⟨⟨_, rfl⟩, htr⟩

/-- The first loop of the second part of `set_state`, with a plugin loaded: it always comes
back, touches neither port group, calls neither port group, and with no child named after the
plugin's state node it changes nothing and calls nothing. -/
theorem IOPlug.restore_plugin_state_cases (H : Host) (s : IOPlug) (node : XMLNode)
    (version : Int) (q : Plugin) (hq : s._plugin = some q) :
    ∃ s2 tr2, s.restore_plugin_state H node version = Except.ok (s2, tr2) ∧
      s2._input = s._input ∧ s2._output = s._output ∧
      (∀ c ∈ tr2, c.is_input_set_state = false ∧ c.is_output_set_state = false) ∧
      ((∀ c ∈ node.children, (c.name == q.state_node_name) = false) → s2 = s ∧ tr2 = []) := by
  cases hf : node.children.find? (fun c => c.name == q.state_node_name) with
  | none =>
    refine ⟨s, [], ?_, rfl, rfl, ?_, fun _ => ⟨rfl, rfl⟩⟩
    · simp only [IOPlug.restore_plugin_state, hq, hf]
    · intro c hc
      cases hc
  | some child =>
    refine ⟨{ s with _plugin := some (q.with_state (H.plugin_set_state q child version)) },
      [Call.plugin_set_state child version], ?_, rfl, rfl, ?_, ?_⟩
    · simp only [IOPlug.restore_plugin_state, hq, hf]
    · intro c hc
      simp only [List.mem_singleton] at hc
      subst hc
      exact ⟨rfl, rfl⟩
    · intro hno
      have hmem := List.mem_of_find?_eq_some hf
      have htrue := List.find?_some hf
      have hfalse := hno child hmem
      simp only [hfalse] at htrue
      cases htrue

/-- The second loop: it touches neither the plugin nor the output port group, calls neither,
and with no child tagged `Input` it changes nothing and calls nothing. -/
theorem IOPlug.restore_input_cases (H : Host) (s : IOPlug) (node : XMLNode) (version : Int) :
    (s.restore_input H node version).1._plugin = s._plugin ∧
    (s.restore_input H node version).1._output = s._output ∧
    (∀ c ∈ (s.restore_input H node version).2,
      c.is_plugin_set_state = false ∧ c.is_output_set_state = false) ∧
    ((∀ c ∈ node.children, c.has_direction Direction.Input = false) →
      s.restore_input H node version = (s, [])) := by
  unfold IOPlug.restore_input
  cases hi : s._input with
  | none => simp
  | some input =>
    cases hf : node.children.find? (XMLChild.has_direction Direction.Input) with
    | none => simp
    | some child =>
      refine ⟨rfl, rfl, ?_, ?_⟩
      · intro c hc
        simp only [List.mem_singleton] at hc
        subst hc
        exact ⟨rfl, rfl⟩
      · intro hno
        have hmem := List.mem_of_find?_eq_some hf
        have htrue := List.find?_some hf
        have hfalse := hno child hmem
        simp only [hfalse] at htrue
        cases htrue

/-- The body of the third loop: one `_output->set_state` call per child tagged `Output`, in
document order, and nothing else; with no such child the port group stays as it was. -/
theorem IOPlug.restore_output_from_eq (H : Host) (version : Int) (children : List XMLChild) :
    ∀ acc : ARDOUR.IO × List Call,
      (IOPlug.restore_output_from H version children acc).2
        = acc.2 ++ (children.filter (XMLChild.has_direction Direction.Output)).map
            (fun c => Call.output_set_state c version) ∧
      ((∀ c ∈ children, c.has_direction Direction.Output = false) →
        IOPlug.restore_output_from H version children acc = acc) := by
  induction children with
  | nil => intro acc; simp [IOPlug.restore_output_from]
  | cons child rest ih =>
    intro acc
    by_cases hc : child.has_direction Direction.Output = true
    · refine ⟨?_, ?_⟩
      · simp [IOPlug.restore_output_from, hc, (ih _).1]
      · intro hno
        have := hno child (List.mem_cons_self _ _)
        simp [hc] at this
    · refine ⟨?_, ?_⟩
      · simp [IOPlug.restore_output_from, hc, (ih _).1]
      · intro hno
        simp only [IOPlug.restore_output_from, hc]
        exact (ih acc).2 (fun c hm => hno c (List.mem_cons_of_mem _ hm))

/-- The third loop: it touches neither the plugin nor the input port group, calls neither,
and with no child tagged `Output` it changes nothing and calls nothing. -/
theorem IOPlug.restore_output_cases (H : Host) (s : IOPlug) (node : XMLNode) (version : Int) :
    (s.restore_output H node version).1._plugin = s._plugin ∧
    (s.restore_output H node version).1._input = s._input ∧
    (∀ c ∈ (s.restore_output H node version).2,
      c.is_plugin_set_state = false ∧ c.is_input_set_state = false) ∧
    ((∀ c ∈ node.children, c.has_direction Direction.Output = false) →
      (s.restore_output H node version).1._output = s._output ∧
      (s.restore_output H node version).2 = []) := by
  unfold IOPlug.restore_output
  cases ho : s._output with
  | none => simp [ho]
  | some output =>
    refine ⟨rfl, rfl, ?_, ?_⟩
    · intro c hc
      simp only [(IOPlug.restore_output_from_eq H version node.children (output, [])).1,
        List.nil_append, List.mem_map] at hc
      obtain ⟨x, -, rfl⟩ := hc
      exact ⟨rfl, rfl⟩
    · intro hno
      simp only [(IOPlug.restore_output_from_eq H version node.children (output, [])).2 hno]
      exact ⟨trivial, trivial⟩

/-- A call that is none of the restoring calls is not `_plugin->set_state`, not
`_input->set_state` and not `_output->set_state`. -/
theorem Call.is_restore_false (c : Call) (h : c.is_restore = false) :
    c.is_plugin_set_state = false ∧ c.is_input_set_state = false ∧
    c.is_output_set_state = false := by
  cases c <;> simp_all [Call.is_restore, Call.is_plugin_set_state, Call.is_input_set_state,
    Call.is_output_set_state]

/-- `set_state` once its first part ran through and the plugin's state loop came back: it
returns 0 after the two port-group loops. -/
theorem IOPlug.set_state_through (H : Host) (fuel : Nat) (self : IOPlug) (node : XMLNode)
    (version : Int) (s_mid s2 : IOPlug) (tr_mid tr2 : List Call)
    (h_load : self.set_state_load H fuel node version = Except.ok (true, s_mid, tr_mid))
    (h2 : s_mid.restore_plugin_state H node version = Except.ok (s2, tr2)) :
    self.set_state H fuel node version = Except.ok (0,
      ((s2.restore_input H node version).1.restore_output H node version).1,
      tr_mid ++ tr2 ++ (s2.restore_input H node version).2
        ++ ((s2.restore_input H node version).1.restore_output H node version).2) := by
  simp [IOPlug.set_state, h_load, h2]

/-! ## C17: lookups that find no match -/

/-- C17: when the first part of `set_state` (down to `set_control_ids`) ran through, leaving
the IOPlug `s_mid`, `set_state` returns 0, and: if no child of the document is tagged with
direction `Input`, the input port group afterwards is the one `s_mid` has and
`_input->set_state` is not among the calls made; if no child is tagged `Output`, the same for
the output port group and `_output->set_state`; if no child is named after the plugin's state
node, the plugin afterwards is the one `s_mid` has and `_plugin->set_state` is not among the
calls made. -/
theorem C17_set_state_missing_children (H : Host) (fuel : Nat) (self : IOPlug)
    (node : XMLNode) (version : Int) (s_mid : IOPlug) (tr_mid : List Call)
    (h_load : self.set_state_load H fuel node version = Except.ok (true, s_mid, tr_mid)) :
    ∃ s1 tr,
      self.set_state H fuel node version = Except.ok (0, s1, tr) ∧
      ((∀ c ∈ node.children, c.has_direction Direction.Input = false) →
        s1._input = s_mid._input ∧ ∀ c ∈ tr, c.is_input_set_state = false) ∧
      ((∀ c ∈ node.children, c.has_direction Direction.Output = false) →
        s1._output = s_mid._output ∧ ∀ c ∈ tr, c.is_output_set_state = false) ∧
      ((∀ q, s_mid._plugin = some q →
          ∀ c ∈ node.children, (c.name == q.state_node_name) = false) →
        s1._plugin = s_mid._plugin ∧ ∀ c ∈ tr, c.is_plugin_set_state = false) := by
  obtain ⟨⟨q, hq⟩, htr⟩ := IOPlug.set_state_load_through H fuel self node version s_mid tr_mid
    h_load
  obtain ⟨s2, tr2, h2, h2i, h2o, h2tr, h2no⟩ :=
    IOPlug.restore_plugin_state_cases H s_mid node version q hq
  obtain ⟨hIp, hIo, hItr, hIno⟩ := IOPlug.restore_input_cases H s2 node version
  obtain ⟨hOp, hOi, hOtr, hOno⟩ :=
    IOPlug.restore_output_cases H (s2.restore_input H node version).1 node version
  refine ⟨_, _, IOPlug.set_state_through H fuel self node version s_mid s2 tr_mid tr2 h_load h2,
    ?_, ?_, ?_⟩
  · intro hno
    refine ⟨?_, ?_⟩
    · rw [hOi, hIno hno]
      exact h2i
    · intro c hc
      simp only [List.mem_append] at hc
      rcases hc with ((hc | hc) | hc) | hc
      · exact (Call.is_restore_false c (htr c hc)).2.1
      · exact (h2tr c hc).1
      · rw [hIno hno] at hc
        cases hc
      · exact (hOtr c hc).2
  · intro hno
    refine ⟨?_, ?_⟩
    · rw [(hOno hno).1, hIo]
      exact h2o
    · intro c hc
      simp only [List.mem_append] at hc
      rcases hc with ((hc | hc) | hc) | hc
      · exact (Call.is_restore_false c (htr c hc)).2.2
      · exact (h2tr c hc).2
      · exact (hItr c hc).2
      · rw [(hOno hno).2] at hc
        cases hc
  · intro hno
    obtain ⟨hs2, htr2⟩ := h2no (hno q hq)
    refine ⟨?_, ?_⟩
    · rw [hOp, hIp, hs2]
    · intro c hc
      simp only [List.mem_append] at hc
      rcases hc with ((hc | hc) | hc) | hc
      · exact (Call.is_restore_false c (htr c hc)).1
      · rw [htr2] at hc
        cases hc
      · exact (hItr c hc).1
      · exact (hOtr c hc).1

/-- The witness of C17: `childless_document` loaded into the IOPlug built without a plugin,
the document resolving to `gain_plugin`. -/
theorem C17_set_state_missing_children_witness :
    IOPlug.unconfigured.set_state_load (Host.simple [] true true (some gain_plugin)) 8
        childless_document 3000 = Except.ok (true, IOPlug.gain_loaded, gain_load_trace) ∧
    ∃ s1 tr,
      IOPlug.unconfigured.set_state (Host.simple [] true true (some gain_plugin)) 8
        childless_document 3000 = Except.ok (0, s1, tr) ∧
      ((∀ c ∈ childless_document.children, c.has_direction Direction.Input = false) →
        s1._input = IOPlug.gain_loaded._input ∧ ∀ c ∈ tr, c.is_input_set_state = false) ∧
      ((∀ c ∈ childless_document.children, c.has_direction Direction.Output = false) →
        s1._output = IOPlug.gain_loaded._output ∧ ∀ c ∈ tr, c.is_output_set_state = false) ∧
      ((∀ q, IOPlug.gain_loaded._plugin = some q →
          ∀ c ∈ childless_document.children, (c.name == q.state_node_name) = false) →
        s1._plugin = IOPlug.gain_loaded._plugin ∧ ∀ c ∈ tr, c.is_plugin_set_state = false) :=
  ⟨rfl, C17_set_state_missing_children (Host.simple [] true true (some gain_plugin)) 8
    IOPlug.unconfigured childless_document 3000 IOPlug.gain_loaded gain_load_trace rfl⟩

/-! ## C15: loading what `get_state` wrote -/

/-- The head of the document `get_state` writes for an IOPlug with a plugin: the five
attributes, and the plugin's state document as the first child. -/
theorem IOPlug.get_state_head (H : Host) (A A1 : IOPlug) (p : Plugin) (node : XMLNode)
    (trA : List Call) (hA_plugin : A._plugin = some p)
    (h_get : A.get_state H = Except.ok (node, A1, trA)) :
    node.properties =
      [("type", XMLValue.string p.state_node_name),
       ("unique-id", XMLValue.string p.unique_id),
       ("id", XMLValue.uint A._id),
       ("name", XMLValue.string A._name),
       ("pre", XMLValue.bool A._pre)] ∧
    ∃ rest, node.children =
      H.plugin_get_state (p.with_state (H.plugin_set_insert_id p A._id)) :: rest := by
  cases hi : A._input <;> cases ho : A._output <;>
    simp [IOPlug.get_state, hA_plugin, hi, ho, IOPlug.add_control_states_eq,
      XMLNode.set_property, XMLNode.add_child_nocopy, XMLValue.assign] at h_get <;>
    obtain ⟨h1, -, -⟩ := h_get <;> subst h1 <;> simp

/-- When the session reports the requested name legal and every port group accepts it,
`set_name` returns true and the IOPlug carries the requested name. -/
theorem IOPlug.set_name_accepted (H : Host) (fuel : Nat) (self : IOPlug) (str : String)
    (h_legal : H.io_name_is_legal str = true)
    (h_accept : ∀ io, (H.io_set_name io str).1 = true) :
    ∃ r, self.set_name H fuel str = Except.ok r ∧ r.1 = true ∧ r.2.1._name = str := by
  by_cases hn : self._name = str
  · exact ⟨(true, self, []), by simp [IOPlug.set_name, hn], rfl, hn⟩
  · cases hi : self._input <;> cases ho : self._output <;>
      simp [IOPlug.set_name, hn, IOPlug.ensure_io_name_legal H self fuel str h_legal, hi, ho,
        h_accept]

/-- The first loop of the second part of `set_state` when the first child of the document is
named after the plugin's state node: the plugin's state is restored from that child. -/
theorem IOPlug.restore_plugin_state_first (H : Host) (s : IOPlug) (node : XMLNode)
    (version : Int) (q : Plugin) (child : XMLChild) (rest : List XMLChild)
    (hq : s._plugin = some q) (hc : node.children = child :: rest)
    (hn : child.name = q.state_node_name) :
    s.restore_plugin_state H node version = Except.ok
      ({ s with _plugin := some (q.with_state (H.plugin_set_state q child version)) },
       [Call.plugin_set_state child version]) := by
  simp [IOPlug.restore_plugin_state, hq, hc, hn]

/-- The two port-group loops of `set_state` change nothing but the port groups. -/
theorem IOPlug.restore_ports_frame (H : Host) (s : IOPlug) (node : XMLNode) (version : Int) :
    ((s.restore_input H node version).1.restore_output H node version).1._name = s._name ∧
    ((s.restore_input H node version).1.restore_output H node version).1._pre = s._pre ∧
    ((s.restore_input H node version).1.restore_output H node version).1._n_in = s._n_in ∧
    ((s.restore_input H node version).1.restore_output H node version).1._n_out = s._n_out ∧
    ((s.restore_input H node version).1.restore_output H node version).1._plugin
      = s._plugin := by
  unfold IOPlug.restore_input
  cases hi : s._input with
  | none =>
    unfold IOPlug.restore_output
    cases ho : s._output <;> simp [ho]
  | some input =>
    cases hf : node.children.find? (XMLChild.has_direction Direction.Input) with
    | none =>
      unfold IOPlug.restore_output
      cases ho : s._output <;> simp [ho]
    | some child =>
      unfold IOPlug.restore_output
      cases ho : s._output <;> simp [ho]

/-- C15, as stated, fails: the IOPlug constructed for `gain_plugin` is named `IO gain` and
`get_state` writes `gain_document` for it; in a session that reports the name `IO gain` as
not legal (it is in use), loading that document into the IOPlug built without a plugin, the
document resolving to `gain_plugin`, returns 0 and leaves the IOPlug named `IO gain 1`. -/
theorem C15_round_trip_renames :
    IOPlug.gain_constructed.get_state (Host.simple ["IO gain"] true true (some gain_plugin))
      = Except.ok (gain_document, IOPlug.gain_constructed, gain_get_state_trace) ∧
    IOPlug.gain_constructed._name = "IO gain" ∧
    (IOPlug.unconfigured.set_state (Host.simple ["IO gain"] true true (some gain_plugin)) 8
        gain_document 3000).map (fun r => (r.1, r.2.1._name))
      = Except.ok (0, "IO gain 1") ∧
    ("IO gain 1" : String) ≠ "IO gain" := by
  refine ⟨rfl, rfl, rfl, by decide⟩

/-- `ensure_io_name` reads nothing of the IOPlug but its name. -/
theorem IOPlug.ensure_io_name_congr (H : Host) (s1 s2 : IOPlug) (h : s1._name = s2._name) :
    ∀ (fuel : Nat) (str : String),
      s1.ensure_io_name H fuel str = s2.ensure_io_name H fuel str := by
  intro fuel
  induction fuel with
  | zero =>
    intro str
    unfold IOPlug.ensure_io_name
    rfl
  | succ n ih =>
    intro str
    unfold IOPlug.ensure_io_name
    simp only [h, ih]

/-- `set_name` returns whenever `ensure_io_name` does (or is not needed); the IOPlug then has
the name it had, or the name `ensure_io_name` produced. -/
theorem IOPlug.set_name_returns (H : Host) (fuel : Nat) (self : IOPlug) (str : String)
    (h : self._name ≠ str →
      ∃ new_name, self.ensure_io_name H fuel str = Except.ok new_name) :
    ∃ r, self.set_name H fuel str = Except.ok r ∧
      (r.2.1._name = self._name ∨ self.ensure_io_name H fuel str = Except.ok r.2.1._name) := by
  by_cases hn : self._name = str
  · exact ⟨(true, self, []), by simp [IOPlug.set_name, hn], Or.inl rfl⟩
  · obtain ⟨new_name, hnew⟩ := h hn
    cases hr : self.set_name H fuel str with
    | error e =>
      cases hi : self._input <;> cases ho : self._output <;>
        simp only [IOPlug.set_name, if_neg hn, hnew, hi, ho] at hr <;>
        split_ifs at hr
    | ok r =>
      refine ⟨r, rfl, ?_⟩
      rw [hnew]
      cases hi : self._input <;> cases ho : self._output <;>
        simp only [IOPlug.set_name, if_neg hn, hnew, hi, ho] at hr <;>
        split_ifs at hr <;> cases hr <;> simp

/-- The first loop of the second part of `set_state`, with the plugin `q` loaded: it returns
with nothing but the state of the plugin instance changed; when the first child of the
document is named after the plugin's state node, the instance is in the state the plugin's
`set_state` gave it from that child. -/
theorem IOPlug.restore_plugin_state_eq (H : Host) (s : IOPlug) (node : XMLNode)
    (version : Int) (q : Plugin) (hq : s._plugin = some q) :
    ∃ st tr2,
      s.restore_plugin_state H node version
        = Except.ok ({ s with _plugin := some (q.with_state st) }, tr2) ∧
      ∀ (child : XMLChild) (rest : List XMLChild), node.children = child :: rest →
        child.name = q.state_node_name → st = H.plugin_set_state q child version := by
  cases hf : node.children.find? (fun c => c.name == q.state_node_name) with
  | none =>
    refine ⟨q.state, [], ?_, ?_⟩
    · simp only [IOPlug.restore_plugin_state, hq, hf]
      have hs : ({ s with _plugin := some (q.with_state q.state) } : IOPlug) = s := by
        cases s
        simp only [IOPlug.mk.injEq, true_and, and_true] at hq ⊢
        rw [hq]
        rfl
      rw [hs]
    · intro child rest hc hn
      rw [hc] at hf
      simp [hn] at hf
  | some found =>
    refine ⟨H.plugin_set_state q found version, [Call.plugin_set_state found version], ?_, ?_⟩
    · simp only [IOPlug.restore_plugin_state, hq, hf]
    · intro child rest hc hn
      rw [hc] at hf
      simp only [List.find?_cons, hn, beq_self_eq_true, Option.some.injEq] at hf
      rw [hf]

/-- C15, amended: let `A` be an IOPlug with plugin `p` and `node` the document `A.get_state ()`
returns, and let `node` be loaded with `set_state` into any IOPlug `B`, in a session where
ids are not regenerated, the document parses and resolves to an instance of `p`, and
`ensure_io_name` produces a name for the name of `A` (when `B` is not already so named).
Then `set_state` returns 0 and `B` afterwards has the position of `A` and an instance of `p`
as its plugin; its name is the name it had or the name `ensure_io_name` produced for the name
of `A`, and it is the name of `A` when the session reports that name legal and every port
group accepts it; its channel counts are those of `A` when they are the counts `p`
negotiates whatever its instance state; and every `PluginControl` reads on `B` the value it
read on `A` when `get_state` was called, when the plugin's state document is named after the
plugin's state node and restoring it into an instance of `p` brings back the parameter values
`p` had. -/
theorem C15_round_trip_loads (H : Host) (fuel : Nat) (A A1 B : IOPlug) (p : Plugin)
    (node : XMLNode) (trA : List Call) (version : Int) (t : PluginType) (uid : String)
    (st : Nat)
    (hA_plugin : A._plugin = some p)
    (h_get : A.get_state H = Except.ok (node, A1, trA))
    (h_regen : H.regenerate_xml_or_string_ids = false)
    (h_parse : H.parse_plugin_type node = some (t, uid))
    (h_find : H.find_and_load_plugin node t uid = some (p.with_state st))
    (h_term : B._name ≠ A._name →
      ∃ new_name, B.ensure_io_name H fuel A._name = Except.ok new_name) :
    ∃ B1 tr,
      B.set_state H fuel node version = Except.ok (0, B1, tr) ∧
      B1._pre = A._pre ∧
      (∃ s, B1._plugin = some (p.with_state s)) ∧
      (B1._name = B._name ∨
        B.ensure_io_name H fuel A._name = Except.ok B1._name) ∧
      (H.io_name_is_legal A._name = true →
        (∀ io, (H.io_set_name io A._name).1 = true) → B1._name = A._name) ∧
      ((∀ s, IOPlug.negotiated H (p.with_state s) = (A._n_in, A._n_out)) →
        B1._n_in = A._n_in ∧ B1._n_out = A._n_out) ∧
      ((H.plugin_get_state (p.with_state (H.plugin_set_insert_id p A._id))).name
          = p.state_node_name →
        (∀ s i,
          H.plugin_get_parameter
            ((p.with_state s).with_state
              (H.plugin_set_state (p.with_state s)
                (H.plugin_get_state (p.with_state (H.plugin_set_insert_id p A._id)))
                version)) i
            = H.plugin_get_parameter p i) →
        ∀ c : Control, PluginControl.get_value H B1 c = PluginControl.get_value H A c) := by
  obtain ⟨hprops, rest, hchildren⟩ := IOPlug.get_state_head H A A1 p node trA hA_plugin h_get
  have h_nm : node.get_string "name" = some A._name := by
    simp [XMLNode.get_string, hprops, XMLValue.lookup]
  have h_pre : node.get_bool "pre" = some A._pre := by
    simp [XMLNode.get_bool, hprops, XMLValue.lookup]
  have h_b2 : ({ B.set_id node with _plugin := some (p.with_state st) } : IOPlug)._name
      = B._name := by
    show (B.set_id node)._name = B._name
    rw [IOPlug.set_id_frame]
  have h_e : ∀ str,
      ({ B.set_id node with _plugin := some (p.with_state st) } : IOPlug).ensure_io_name
        H fuel str = B.ensure_io_name H fuel str :=
    IOPlug.ensure_io_name_congr H _ _ h_b2 fuel
  obtain ⟨r3, h3, h3n⟩ := IOPlug.set_name_returns H fuel
    ({ B.set_id node with _plugin := some (p.with_state st) } : IOPlug) A._name
    (by
      rw [h_b2, h_e]
      exact h_term)
  rw [h_b2, h_e] at h3n
  have h_name : ({ B.set_id node with _plugin := some (p.with_state st) } : IOPlug).set_name
      H fuel
      (match node.get_string "name" with
       | some name => name
       | none => "IO " ++ (p.with_state st).info.name) = Except.ok r3 := by
    rw [h_nm]
    exact h3
  obtain ⟨cs, cos, st0, st1, trl, hload, -⟩ :=
    IOPlug.set_state_load_eq H fuel B node version t uid (p.with_state st) r3 h_regen h_parse
      h_find h_name
  simp only [Plugin.with_state_with_state, h_pre] at hload
  obtain ⟨st2, tr2, h2, h2first⟩ := IOPlug.restore_plugin_state_eq H
    ({ r3.2.1 with
      _pre := A._pre, _controls := cs, _control_outputs := cos,
      _n_in := (IOPlug.negotiated H (p.with_state st0)).1,
      _n_out := (IOPlug.negotiated H (p.with_state st0)).2,
      _plugin := some (p.with_state st1) } : IOPlug) node version
    (p.with_state st1) rfl
  refine ⟨_, _, IOPlug.set_state_through H fuel B node version _ _ _ _ hload h2, ?_⟩
  simp only [IOPlug.restore_ports_frame, Plugin.with_state_with_state, true_and]
  refine ⟨⟨_, rfl⟩, h3n, ?_, ?_, ?_⟩
  · intro h_legal h_accept
    obtain ⟨r, hr, -, hrn⟩ := IOPlug.set_name_accepted H fuel
      ({ B.set_id node with _plugin := some (p.with_state st) } : IOPlug) A._name h_legal
      h_accept
    rw [h3] at hr
    simp only [Except.ok.injEq] at hr
    rw [hr]
    exact hrn
  · intro h_counts
    rw [h_counts]
    exact ⟨rfl, rfl⟩
  · intro h_child h_state c
    simp only [PluginControl.get_value, IOPlug.restore_ports_frame, hA_plugin,
      Plugin.with_state_with_state]
    rw [h2first _ rest hchildren h_child]
    exact h_state st1 c.parameter.id

/-- The witness of C15, amended: the document of the IOPlug constructed for `gain_plugin`,
loaded into the IOPlug built without a plugin, once in a session where every name is legal
and once in a session where the name `IO gain` is in use. -/
theorem C15_round_trip_loads_witness :
    ((IOPlug.gain_constructed._plugin = some gain_plugin ∧
      IOPlug.gain_constructed.get_state (Host.simple [] true true (some gain_plugin))
        = Except.ok (gain_document, IOPlug.gain_constructed, gain_get_state_trace) ∧
      (Host.simple [] true true (some gain_plugin)).regenerate_xml_or_string_ids = false ∧
      (Host.simple [] true true (some gain_plugin)).parse_plugin_type gain_document = some (PluginType.LV2, "urn:example:gain") ∧
      (Host.simple [] true true (some gain_plugin)).find_and_load_plugin gain_document PluginType.LV2 "urn:example:gain"
        = some (gain_plugin.with_state 5) ∧
      (IOPlug.unconfigured._name ≠ IOPlug.gain_constructed._name →
        ∃ new_name, IOPlug.unconfigured.ensure_io_name (Host.simple [] true true (some gain_plugin)) 8
          IOPlug.gain_constructed._name = Except.ok new_name)) ∧
    ∃ B1 tr,
      IOPlug.unconfigured.set_state (Host.simple [] true true (some gain_plugin)) 8 gain_document 3000 = Except.ok (0, B1, tr) ∧
      B1._pre = IOPlug.gain_constructed._pre ∧
      (∃ s, B1._plugin = some (gain_plugin.with_state s)) ∧
      (B1._name = IOPlug.unconfigured._name ∨
        IOPlug.unconfigured.ensure_io_name (Host.simple [] true true (some gain_plugin)) 8 IOPlug.gain_constructed._name = Except.ok B1._name) ∧
      ((Host.simple [] true true (some gain_plugin)).io_name_is_legal IOPlug.gain_constructed._name = true →
        (∀ io, ((Host.simple [] true true (some gain_plugin)).io_set_name io IOPlug.gain_constructed._name).1 = true) → B1._name = IOPlug.gain_constructed._name) ∧
      ((∀ s, IOPlug.negotiated (Host.simple [] true true (some gain_plugin)) (gain_plugin.with_state s) = (IOPlug.gain_constructed._n_in, IOPlug.gain_constructed._n_out)) →
        B1._n_in = IOPlug.gain_constructed._n_in ∧ B1._n_out = IOPlug.gain_constructed._n_out) ∧
      (((Host.simple [] true true (some gain_plugin)).plugin_get_state (gain_plugin.with_state ((Host.simple [] true true (some gain_plugin)).plugin_set_insert_id gain_plugin IOPlug.gain_constructed._id))).name
          = gain_plugin.state_node_name →
        (∀ s i,
          (Host.simple [] true true (some gain_plugin)).plugin_get_parameter
            ((gain_plugin.with_state s).with_state
              ((Host.simple [] true true (some gain_plugin)).plugin_set_state (gain_plugin.with_state s)
                ((Host.simple [] true true (some gain_plugin)).plugin_get_state (gain_plugin.with_state ((Host.simple [] true true (some gain_plugin)).plugin_set_insert_id gain_plugin IOPlug.gain_constructed._id)))
                3000)) i
            = (Host.simple [] true true (some gain_plugin)).plugin_get_parameter gain_plugin i) →
        ∀ c : Control, PluginControl.get_value (Host.simple [] true true (some gain_plugin)) B1 c = PluginControl.get_value (Host.simple [] true true (some gain_plugin)) IOPlug.gain_constructed c)) ∧
    ((IOPlug.gain_constructed._plugin = some gain_plugin ∧
      IOPlug.gain_constructed.get_state (Host.simple ["IO gain"] true true (some gain_plugin))
        = Except.ok (gain_document, IOPlug.gain_constructed, gain_get_state_trace) ∧
      (Host.simple ["IO gain"] true true (some gain_plugin)).regenerate_xml_or_string_ids = false ∧
      (Host.simple ["IO gain"] true true (some gain_plugin)).parse_plugin_type gain_document = some (PluginType.LV2, "urn:example:gain") ∧
      (Host.simple ["IO gain"] true true (some gain_plugin)).find_and_load_plugin gain_document PluginType.LV2 "urn:example:gain"
        = some (gain_plugin.with_state 5) ∧
      (IOPlug.unconfigured._name ≠ IOPlug.gain_constructed._name →
        ∃ new_name, IOPlug.unconfigured.ensure_io_name (Host.simple ["IO gain"] true true (some gain_plugin)) 8
          IOPlug.gain_constructed._name = Except.ok new_name)) ∧
    ∃ B1 tr,
      IOPlug.unconfigured.set_state (Host.simple ["IO gain"] true true (some gain_plugin)) 8 gain_document 3000 = Except.ok (0, B1, tr) ∧
      B1._pre = IOPlug.gain_constructed._pre ∧
      (∃ s, B1._plugin = some (gain_plugin.with_state s)) ∧
      (B1._name = IOPlug.unconfigured._name ∨
        IOPlug.unconfigured.ensure_io_name (Host.simple ["IO gain"] true true (some gain_plugin)) 8 IOPlug.gain_constructed._name = Except.ok B1._name) ∧
      ((Host.simple ["IO gain"] true true (some gain_plugin)).io_name_is_legal IOPlug.gain_constructed._name = true →
        (∀ io, ((Host.simple ["IO gain"] true true (some gain_plugin)).io_set_name io IOPlug.gain_constructed._name).1 = true) → B1._name = IOPlug.gain_constructed._name) ∧
      ((∀ s, IOPlug.negotiated (Host.simple ["IO gain"] true true (some gain_plugin)) (gain_plugin.with_state s) = (IOPlug.gain_constructed._n_in, IOPlug.gain_constructed._n_out)) →
        B1._n_in = IOPlug.gain_constructed._n_in ∧ B1._n_out = IOPlug.gain_constructed._n_out) ∧
      (((Host.simple ["IO gain"] true true (some gain_plugin)).plugin_get_state (gain_plugin.with_state ((Host.simple ["IO gain"] true true (some gain_plugin)).plugin_set_insert_id gain_plugin IOPlug.gain_constructed._id))).name
          = gain_plugin.state_node_name →
        (∀ s i,
          (Host.simple ["IO gain"] true true (some gain_plugin)).plugin_get_parameter
            ((gain_plugin.with_state s).with_state
              ((Host.simple ["IO gain"] true true (some gain_plugin)).plugin_set_state (gain_plugin.with_state s)
                ((Host.simple ["IO gain"] true true (some gain_plugin)).plugin_get_state (gain_plugin.with_state ((Host.simple ["IO gain"] true true (some gain_plugin)).plugin_set_insert_id gain_plugin IOPlug.gain_constructed._id)))
                3000)) i
            = (Host.simple ["IO gain"] true true (some gain_plugin)).plugin_get_parameter gain_plugin i) →
        ∀ c : Control, PluginControl.get_value (Host.simple ["IO gain"] true true (some gain_plugin)) B1 c = PluginControl.get_value (Host.simple ["IO gain"] true true (some gain_plugin)) IOPlug.gain_constructed c)) :=
  ⟨⟨⟨rfl, rfl, rfl, rfl, rfl, fun _ => ⟨_, rfl⟩⟩,
    C15_round_trip_loads (Host.simple [] true true (some gain_plugin)) 8
      IOPlug.gain_constructed IOPlug.gain_constructed IOPlug.unconfigured gain_plugin
      gain_document gain_get_state_trace 3000 PluginType.LV2 "urn:example:gain" 5
      rfl rfl rfl rfl rfl (fun _ => ⟨_, rfl⟩)⟩,
   ⟨⟨rfl, rfl, rfl, rfl, rfl, fun _ => ⟨_, rfl⟩⟩,
    C15_round_trip_loads (Host.simple ["IO gain"] true true (some gain_plugin)) 8
      IOPlug.gain_constructed IOPlug.gain_constructed IOPlug.unconfigured gain_plugin
      gain_document gain_get_state_trace 3000 PluginType.LV2 "urn:example:gain" 5
      rfl rfl rfl rfl rfl (fun _ => ⟨_, rfl⟩)⟩⟩

/-! ## C21: what a property control persists -/

/-- Looking an attribute up in a list that starts with `q`. -/
theorem XMLValue.lookup_cons (q : String × XMLValue) (rest : List (String × XMLValue))
    (key : String) :
    XMLValue.lookup (q :: rest) key
      = if q.1 = key then some q.2 else XMLValue.lookup rest key := by
  unfold XMLValue.lookup
  by_cases h : q.1 = key
  · simp [List.find?_cons, h]
  · simp [List.find?_cons, h]

/-- After an attribute has been set, looking it up gives the value set. -/
theorem XMLValue.lookup_assign_self (ps : List (String × XMLValue)) (key : String)
    (v : XMLValue) : XMLValue.lookup (XMLValue.assign ps key v) key = some v := by
  unfold XMLValue.assign
  induction ps with
  | nil => simp [XMLValue.lookup]
  | cons q rest ih =>
    by_cases hq : q.1 = key
    · simp [hq, XMLValue.lookup_cons]
    · by_cases hr : (rest.any fun q => q.1 == key) = true
      · rw [if_pos hr] at ih
        have hany : ((q :: rest).any fun q => q.1 == key) = true := by
          simp only [List.any_cons, hr, Bool.or_true]
        rw [if_pos hany, List.map_cons, XMLValue.lookup_cons]
        simp only [beq_iff_eq, hq, if_false] at ih ⊢
        exact ih
      · rw [if_neg hr] at ih
        have hany : ¬ ((q :: rest).any fun q => q.1 == key) = true := by
          simp only [List.any_cons, Bool.or_eq_true, beq_iff_eq, hq, false_or]
          exact hr
        rw [if_neg hany, List.cons_append, XMLValue.lookup_cons, if_neg hq]
        exact ih

/-- After an attribute has been removed, looking it up finds nothing. -/
theorem XMLValue.lookup_filter_self (ps : List (String × XMLValue)) (key : String) :
    XMLValue.lookup (ps.filter (fun q => !(q.1 == key))) key = none := by
  induction ps with
  | nil => rfl
  | cons q rest ih =>
    by_cases hq : q.1 = key
    · rw [List.filter_cons_of_neg (by simp [hq])]
      exact ih
    · rw [List.filter_cons_of_pos (by simp [hq]), XMLValue.lookup_cons, if_neg hq]
      exact ih

/-- Removing an attribute does not change what another attribute holds. -/
theorem XMLValue.lookup_filter_ne (ps : List (String × XMLValue)) (key other : String)
    (h : other ≠ key) :
    XMLValue.lookup (ps.filter (fun q => !(q.1 == key))) other = XMLValue.lookup ps other := by
  induction ps with
  | nil => rfl
  | cons q rest ih =>
    by_cases hq : q.1 = key
    · have ho : ¬ q.1 = other := fun e => h (e.symm.trans hq)
      rw [List.filter_cons_of_neg (by simp [hq]), XMLValue.lookup_cons, if_neg ho]
      exact ih
    · rw [List.filter_cons_of_pos (by simp [hq]), XMLValue.lookup_cons, XMLValue.lookup_cons,
        ih]

/-- C21: for every `PluginPropertyControl`, whatever its cached value and whatever
`AutomationControl::get_state ()` writes for it, the document `get_state ()` returns has the
attribute `property` holding the control's parameter id and has no attribute `value`. -/
theorem C21_property_control_state (H : Host) (c : Control) :
    XMLValue.lookup (PluginPropertyControl.get_state H c).properties "property"
      = some (XMLValue.uint c.parameter.id) ∧
    XMLValue.lookup (PluginPropertyControl.get_state H c).properties "value" = none ∧
    (∀ q ∈ (PluginPropertyControl.get_state H c).properties, q.1 ≠ "value") ∧
    (∀ v : Variant,
      XMLValue.lookup (PluginPropertyControl.get_state H { c with _value := v }).properties
          "property" = some (XMLValue.uint c.parameter.id) ∧
      XMLValue.lookup (PluginPropertyControl.get_state H { c with _value := v }).properties
          "value" = none) := by
  have hne : ("property" : String) ≠ "value" := by decide
  refine ⟨?_, ?_, ?_, fun v => ⟨?_, ?_⟩⟩
  · simp only [PluginPropertyControl.get_state, XMLChild.remove_property,
      XMLChild.set_property]
    rw [XMLValue.lookup_filter_ne _ _ _ hne, XMLValue.lookup_assign_self]
  · simp only [PluginPropertyControl.get_state, XMLChild.remove_property]
    exact XMLValue.lookup_filter_self _ _
  · intro q hq
    simp only [PluginPropertyControl.get_state, XMLChild.remove_property, List.mem_filter,
      Bool.not_eq_true', beq_eq_false_iff_ne, ne_eq] at hq
    exact hq.2
  · simp only [PluginPropertyControl.get_state, XMLChild.remove_property,
      XMLChild.set_property]
    rw [XMLValue.lookup_filter_ne _ _ _ hne, XMLValue.lookup_assign_self]
  · simp only [PluginPropertyControl.get_state, XMLChild.remove_property]
    exact XMLValue.lookup_filter_self _ _

/-! ## C25: the timing bracket of `run` -/

/-- The calls of the copy loop are neither `_timing_stats.start ()` nor
`_timing_stats.update ()`. -/
theorem IOPlug.copy_loop_filter_timing (bufs : BufferSet) (n_samples : Nat) :
    (IOPlug.copy_loop bufs n_samples).filter Call.is_timing_start = [] ∧
    (IOPlug.copy_loop bufs n_samples).filter Call.is_timing_update = [] := by
  constructor <;>
  · rw [List.filter_eq_nil_iff]
    intro c hc
    obtain ⟨t, rfl, -⟩ := IOPlug.copy_loop_mem bufs n_samples c hc
    simp [Call.is_timing_start, Call.is_timing_update]

/-- C25: every `run` (both port groups in place, n_samples > 0) returns, and: with a plugin
loaded, whether `connect_and_run` succeeds or fails, its calls are the flag exchange, then
`_timing_stats.start ()` immediately followed by `collect_input`, then calls that touch the
timing accumulator no more, then `_timing_stats.update ()` as the last call, so that `start`
and `update` are each called exactly once and the accumulator holds one more measurement
taken between the two; with no plugin loaded neither `start` nor `update` is called and the
accumulator is as the flag exchange left it. -/
theorem C25_run_brackets_timing (E : Env) (self : IOPlug) (input out : ARDOUR.IO)
    (start : Int) (n_samples : Nat) (h_in : self._input = some input)
    (h_out : self._output = some out) (h_n : 0 < n_samples) :
    (∀ plugin : Plugin, self._plugin = some plugin →
      ∃ s2 tr mid, self.run E start n_samples = Except.ok (s2, tr) ∧
        tr = [Call.update_thread_tempo_map] ++ self.consume_stat_reset.2
              ++ [Call.timing_stats_start, Call.input_collect_input n_samples ChanCount.ZERO]
              ++ mid ++ [Call.timing_stats_update] ∧
        mid.filter Call.is_timing_start = [] ∧ mid.filter Call.is_timing_update = [] ∧
        tr.filter Call.is_timing_start = [Call.timing_stats_start] ∧
        tr.filter Call.is_timing_update = [Call.timing_stats_update] ∧
        s2._timing_stats =
          (self.consume_stat_reset.1._timing_stats.start E.clock_at_start).update
            E.clock_at_update) ∧
    (self._plugin = none →
      ∃ s2 tr, self.run E start n_samples = Except.ok (s2, tr) ∧
        tr.filter Call.is_timing_start = [] ∧ tr.filter Call.is_timing_update = [] ∧
        s2._timing_stats = self.consume_stat_reset.1._timing_stats) := by
  constructor
  · intro plugin h_plugin
    by_cases h_rc : (self.plugin_answer E plugin input start n_samples).1 = 0
    · refine ⟨_, _,
        [Call.plugin_connect_and_run start (samplepos_end start n_samples 1) 1
          (ChanMapping.identity self._n_in) (ChanMapping.identity self._n_out) n_samples 0]
          ++ IOPlug.copy_loop (self.plugin_answer E plugin input start n_samples).2 n_samples,
        self.run_plugin_success E plugin input out start n_samples h_plugin h_in h_out h_n h_rc,
        ?_, ?_, ?_, ?_, ?_, rfl⟩
      · simp
      · simp [Call.is_timing_start, (IOPlug.copy_loop_filter_timing _ _).1]
      · simp [Call.is_timing_update, (IOPlug.copy_loop_filter_timing _ _).2]
      · rcases self.consume_stat_reset_calls with h | h <;>
          simp [h, List.filter_cons, Call.is_timing_start,
            (IOPlug.copy_loop_filter_timing _ _).1]
      · rcases self.consume_stat_reset_calls with h | h <;>
          simp [h, List.filter_cons, Call.is_timing_update,
            (IOPlug.copy_loop_filter_timing _ _).2]
    · refine ⟨_, _,
        [Call.plugin_connect_and_run start (samplepos_end start n_samples 1) 1
          (ChanMapping.identity self._n_in) (ChanMapping.identity self._n_out) n_samples 0,
         Call.output_silence n_samples],
        self.run_plugin_failure E plugin input out start n_samples h_plugin h_in h_out h_n h_rc,
        ?_, ?_, ?_, ?_, ?_, rfl⟩
      · simp
      · simp [Call.is_timing_start]
      · simp [Call.is_timing_update]
      · rcases self.consume_stat_reset_calls with h | h <;>
          simp [h, List.filter_cons, Call.is_timing_start]
      · rcases self.consume_stat_reset_calls with h | h <;>
          simp [h, List.filter_cons, Call.is_timing_update]
  · intro h_plugin
    refine ⟨_, _, self.run_no_plugin E out start n_samples h_plugin h_out h_n, ?_, ?_, rfl⟩
    · rcases self.consume_stat_reset_calls with h | h <;>
        simp [h, List.filter_cons, Call.is_timing_start]
    · rcases self.consume_stat_reset_calls with h | h <;>
        simp [h, List.filter_cons, Call.is_timing_update]

/-- The witness of C25: the configured 2-in/2-out effect, one cycle of 512 samples. -/
theorem C25_run_brackets_timing_witness :
    (0 < 512) ∧
    (∀ plugin : Plugin, IOPlug.stereo_ready._plugin = some plugin →
      ∃ s2 tr mid,
        IOPlug.stereo_ready.run (Env.simple lt_by_total true true 0) 0 512
          = Except.ok (s2, tr) ∧
        tr = [Call.update_thread_tempo_map] ++ IOPlug.stereo_ready.consume_stat_reset.2
              ++ [Call.timing_stats_start, Call.input_collect_input 512 ChanCount.ZERO]
              ++ mid ++ [Call.timing_stats_update] ∧
        mid.filter Call.is_timing_start = [] ∧ mid.filter Call.is_timing_update = [] ∧
        tr.filter Call.is_timing_start = [Call.timing_stats_start] ∧
        tr.filter Call.is_timing_update = [Call.timing_stats_update] ∧
        s2._timing_stats =
          (IOPlug.stereo_ready.consume_stat_reset.1._timing_stats.start
            (Env.simple lt_by_total true true 0).clock_at_start).update
            (Env.simple lt_by_total true true 0).clock_at_update) ∧
    (IOPlug.stereo_ready._plugin = none →
      ∃ s2 tr,
        IOPlug.stereo_ready.run (Env.simple lt_by_total true true 0) 0 512
          = Except.ok (s2, tr) ∧
        tr.filter Call.is_timing_start = [] ∧ tr.filter Call.is_timing_update = [] ∧
        s2._timing_stats = IOPlug.stereo_ready.consume_stat_reset.1._timing_stats) :=
  ⟨by decide,
   C25_run_brackets_timing (Env.simple lt_by_total true true 0) IOPlug.stereo_ready
     { name := "IO", direction := Direction.Input, n_ports := { n_audio := 2, n_midi := 0 } }
     { name := "IO", direction := Direction.Output, n_ports := { n_audio := 2, n_midi := 0 } }
     0 512 rfl rfl (by decide)⟩

/-! ## C30: `get_state` without a plugin -/

/-- C30: `get_state` ends in the dereference of an empty plugin handle if and only if no
plugin is loaded, and yields a document for every IOPlug that has a plugin; it fails on the
IOPlug the constructor builds without a plugin, on which `run` (n_samples > 0) still returns,
having silenced the outputs, and on which `PluginControl::get_value ()` is 0. -/
theorem C30_get_state_needs_plugin (H : Host) (E : Env) (self : IOPlug) :
    (self.get_state H = Except.error Fault.null_dereference ↔ self._plugin = none) ∧
    (∀ plugin : Plugin, self._plugin = some plugin →
      ∃ node s1 tr, self.get_state H = Except.ok (node, s1, tr) ∧ node.name = "IOPlug") ∧
    (∀ (fuel : Nat) (pre : Bool) (id : Nat) (fresh : IOPlug) (tr0 : List Call),
      IOPlug.construct H fuel none pre id = Except.ok (fresh, tr0) →
        fresh._plugin = none ∧
        fresh.get_state H = Except.error Fault.null_dereference ∧
        (∀ (start : Int) (n_samples : Nat), 0 < n_samples →
          fresh.run E start n_samples
            = Except.ok (fresh,
                [Call.update_thread_tempo_map, Call.output_silence n_samples])) ∧
        (∀ c : Control, PluginControl.get_value H fresh c = 0)) := by
  refine ⟨?_, ?_, ?_⟩
  · cases hp : self._plugin with
    | none => simp [IOPlug.get_state, hp]
    | some plugin => simp [IOPlug.get_state, hp]
  · intro plugin hp
    simp only [IOPlug.get_state, hp]
    refine ⟨_, _, _, rfl, ?_⟩
    cases hi : self._input <;> cases ho : self._output <;>
      simp [IOPlug.add_control_states_eq, XMLNode.set_property, XMLNode.add_child_nocopy]
  · intro fuel pre id fresh tr0 hc
    simp only [IOPlug.construct, Except.ok.injEq, Prod.mk.injEq] at hc
    obtain ⟨rfl, -⟩ := hc
    refine ⟨rfl, ?_, ?_, ?_⟩
    · simp [IOPlug.get_state]
    · intro start n_samples hn
      have hn0 : n_samples ≠ 0 := Nat.pos_iff_ne_zero.mp hn
      simp [IOPlug.run, hn0, IOPlug.consume_stat_reset]
    · intro c
      simp [PluginControl.get_value]

/-! ## C24: the arguments of `connect_and_run` -/

/-- An integer below 2^53 in absolute value converts to `double` exactly. -/
theorem double_of_int_exact (z : Int) (h : z.natAbs < 2 ^ 53) : double_of_int z = z := by
  unfold double_of_int
  exact if_pos h

/-- While `start` and `start + n_samples` are below 2^53 in absolute value, the end position
`run` computes in `double` is `start + n_samples`. -/
theorem samplepos_end_exact (start : Int) (n_samples : Nat) (h_start : start.natAbs < 2 ^ 53)
    (h_n : n_samples < 2 ^ 32) (h_end : (start + (n_samples : Int)).natAbs < 2 ^ 53) :
    samplepos_end start n_samples 1 = start + n_samples := by
  have hn : ((n_samples : Int)).natAbs < 2 ^ 53 := by
    simp only [Int.natAbs_ofNat]
    omega
  unfold samplepos_end
  rw [double_of_int_exact _ hn, mul_one, double_of_int_exact _ hn, double_of_int_exact _ h_start,
    double_of_int_exact _ h_end]

/-- The binary exponent of a 54-bit number. -/
theorem log2_of_54_bits (a : Nat) (h1 : 2 ^ 53 ≤ a) (h2 : a < 2 ^ 54) : Nat.log2 a = 53 := by
  rw [Nat.log2_eq_log_two]
  exact Nat.log_eq_of_pow_le_of_lt_pow h1 h2

/-- The odd number 2^53 + 1 is not a `double`: it converts to 2^53 (round half to even). -/
theorem double_of_int_odd : double_of_int (2 ^ 53 + 1) = 2 ^ 53 := by
  have hl : Nat.log2 (9007199254740993) = 53 := log2_of_54_bits _ (by norm_num) (by norm_num)
  have ha : ((2 : Int) ^ 53 + 1).natAbs = 9007199254740993 := by norm_num
  unfold double_of_int
  simp only [ha, hl]
  norm_num
  exact Int.sign_eq_one_of_pos (by norm_num)

/-- The even number 2^53 + 512 is a `double`. -/
theorem double_of_int_even : double_of_int (2 ^ 53 + 512) = 2 ^ 53 + 512 := by
  have hl : Nat.log2 (9007199254741504) = 53 := log2_of_54_bits _ (by norm_num) (by norm_num)
  have ha : ((2 : Int) ^ 53 + 512).natAbs = 9007199254741504 := by norm_num
  unfold double_of_int
  simp only [ha, hl]
  norm_num
  exact Int.sign_eq_one_of_pos (by norm_num)

/-- At `start` = 2^53 + 1 and 512 samples the end position `run` computes is 2^53 + 512. -/
theorem samplepos_end_rounds : samplepos_end (2 ^ 53 + 1) 512 1 = 2 ^ 53 + 512 := by
  have h512 : double_of_int ((512 : Nat) : Int) = 512 := double_of_int_exact _ (by norm_num)
  unfold samplepos_end
  rw [h512, mul_one]
  have h512b : double_of_int (512 : Int) = 512 := double_of_int_exact _ (by norm_num)
  rw [h512b, double_of_int_odd, double_of_int_even]

/-- The map `ChanMapping (count)` sends channel `i` to `i` for every `i` below the count of
its data type, and holds nothing else. -/
theorem ChanMapping.identity_pairs (c : ChanCount) (t : DataType) (i j : Nat) :
    (t, i, j) ∈ (ChanMapping.identity c).pairs ↔ i < c.get t ∧ j = i := by
  cases t <;>
    simp only [ChanMapping.identity, List.mem_append, List.mem_map, List.mem_range,
      Prod.mk.injEq, ChanCount.get] <;>
    constructor
  · rintro (⟨k, hk, -, rfl, rfl⟩ | ⟨k, -, h, -⟩)
    · exact ⟨hk, rfl⟩
    · cases h
  · rintro ⟨hi, hj⟩
    exact Or.inl ⟨i, hi, trivial, rfl, hj.symm⟩
  · rintro (⟨k, -, h, -⟩ | ⟨k, hk, -, rfl, rfl⟩)
    · cases h
    · exact ⟨hk, rfl⟩
  · rintro ⟨hi, hj⟩
    exact Or.inr ⟨i, hi, trivial, rfl, hj.symm⟩

/-- C24, as stated, fails: `run` computes the end position as `start + n_samples * speed` in
`double`.  On the configured 2-in/2-out effect, `run (2^53 + 1, 512)` hands `connect_and_run`
the end position 2^53 + 512, which is not `start + n_samples` = 2^53 + 513. -/
theorem C24_end_position_is_rounded :
    (IOPlug.stereo_ready.run (Env.simple lt_by_total true true 0) (2 ^ 53 + 1) 512).map
        (fun r => r.2.filter Call.is_connect_and_run)
      = Except.ok
          [Call.plugin_connect_and_run (2 ^ 53 + 1) (2 ^ 53 + 512) 1
            (ChanMapping.identity { n_audio := 2, n_midi := 0 })
            (ChanMapping.identity { n_audio := 2, n_midi := 0 }) 512 0] ∧
    ((2 : Int) ^ 53 + 1) + ((512 : Nat) : Int) ≠ 2 ^ 53 + 512 := by
  constructor
  · obtain ⟨s2, tr2, h, hf⟩ := IOPlug.run_calls_plugin_once (Env.simple lt_by_total true true 0)
      IOPlug.stereo_ready stereo_effect
      { name := "IO", direction := Direction.Input, n_ports := { n_audio := 2, n_midi := 0 } }
      { name := "IO", direction := Direction.Output, n_ports := { n_audio := 2, n_midi := 0 } }
      (2 ^ 53 + 1) 512 rfl rfl rfl (by decide)
    rw [h, samplepos_end_rounds] at *
    simp only [Except.map]
    rw [hf]
    rfl
  · norm_num

/-- C24, amended: for every n_samples > 0 (a 32-bit count) and every start such that start
and start + n_samples are below 2^53 in absolute value, a run with a plugin loaded (both port
groups in place) returns after calling `connect_and_run` exactly once, immediately after
`collect_input (_bufs, n_samples, ChanCount::ZERO)` and on the buffer set as that call left
it, with start time `start`, end time exactly `start + n_samples`, speed 1.0, sample count
`n_samples`, offset 0, an input map that sends channel i to i exactly for the i below n_in
and an output map that sends channel i to i exactly for the i below n_out. -/
theorem C24_run_invokes_plugin_over_range (E : Env) (self : IOPlug) (plugin : Plugin)
    (input out : ARDOUR.IO) (start : Int) (n_samples : Nat)
    (h_plugin : self._plugin = some plugin) (h_in : self._input = some input)
    (h_out : self._output = some out) (h_n : 0 < n_samples) (h_n32 : n_samples < 2 ^ 32)
    (h_start : start.natAbs < 2 ^ 53)
    (h_end : (start + (n_samples : Int)).natAbs < 2 ^ 53) :
    ∃ s2 pre post,
      self.run E start n_samples = Except.ok (s2,
        pre ++ [Call.input_collect_input n_samples ChanCount.ZERO,
                Call.plugin_connect_and_run start (start + n_samples) 1
                  (ChanMapping.identity self._n_in) (ChanMapping.identity self._n_out)
                  n_samples 0] ++ post) ∧
      pre.filter Call.is_connect_and_run = [] ∧ post.filter Call.is_connect_and_run = [] ∧
      s2._bufs = (E.plugin_connect_and_run plugin
        (E.io_collect_input input self._bufs n_samples ChanCount.ZERO)
        start (start + n_samples) 1
        (ChanMapping.identity self._n_in) (ChanMapping.identity self._n_out) n_samples 0).2 ∧
      (∀ t i j, (t, i, j) ∈ (ChanMapping.identity self._n_in).pairs
        ↔ i < self._n_in.get t ∧ j = i) ∧
      (∀ t i j, (t, i, j) ∈ (ChanMapping.identity self._n_out).pairs
        ↔ i < self._n_out.get t ∧ j = i) := by
  have hend := samplepos_end_exact start n_samples h_start h_n32 h_end
  by_cases h_rc : (self.plugin_answer E plugin input start n_samples).1 = 0
  · refine ⟨{ self.consume_stat_reset.1 with
        _bufs := (self.plugin_answer E plugin input start n_samples).2,
        _timing_stats :=
          (self.consume_stat_reset.1._timing_stats.start E.clock_at_start).update
            E.clock_at_update },
      [Call.update_thread_tempo_map] ++ self.consume_stat_reset.2
        ++ [Call.timing_stats_start],
      IOPlug.copy_loop (self.plugin_answer E plugin input start n_samples).2 n_samples
        ++ [Call.timing_stats_update], ?_, ?_, ?_, ?_,
      ChanMapping.identity_pairs self._n_in, ChanMapping.identity_pairs self._n_out⟩
    · rw [self.run_plugin_success E plugin input out start n_samples h_plugin h_in h_out h_n
        h_rc, hend]
      simp
    · rcases self.consume_stat_reset_calls with h | h <;>
        simp [h, List.filter_cons, Call.is_connect_and_run]
    · simp [List.filter_cons, Call.is_connect_and_run, IOPlug.copy_loop_filter_connect]
    · simp [IOPlug.plugin_answer, hend]
  · refine ⟨{ self.consume_stat_reset.1 with
        _bufs := (self.plugin_answer E plugin input start n_samples).2,
        _timing_stats :=
          (self.consume_stat_reset.1._timing_stats.start E.clock_at_start).update
            E.clock_at_update },
      [Call.update_thread_tempo_map] ++ self.consume_stat_reset.2
        ++ [Call.timing_stats_start],
      [Call.output_silence n_samples, Call.timing_stats_update], ?_, ?_, ?_, ?_,
      ChanMapping.identity_pairs self._n_in, ChanMapping.identity_pairs self._n_out⟩
    · rw [self.run_plugin_failure E plugin input out start n_samples h_plugin h_in h_out h_n
        h_rc, hend]
      simp
    · rcases self.consume_stat_reset_calls with h | h <;>
        simp [h, List.filter_cons, Call.is_connect_and_run]
    · simp [List.filter_cons, Call.is_connect_and_run]
    · simp [IOPlug.plugin_answer, hend]

/-- The witness of C24 amended: the configured 2-in/2-out effect, `run (0, 512)`. -/
theorem C24_run_invokes_plugin_over_range_witness :
    ((0 : Int).natAbs < 2 ^ 53 ∧ ((0 : Int) + ((512 : Nat) : Int)).natAbs < 2 ^ 53) ∧
    ∃ s2 pre post,
      IOPlug.stereo_ready.run (Env.simple lt_by_total true true 0) 0 512 = Except.ok (s2,
        pre ++ [Call.input_collect_input 512 ChanCount.ZERO,
                Call.plugin_connect_and_run 0 (0 + ((512 : Nat) : Int)) 1
                  (ChanMapping.identity IOPlug.stereo_ready._n_in)
                  (ChanMapping.identity IOPlug.stereo_ready._n_out) 512 0] ++ post) ∧
      pre.filter Call.is_connect_and_run = [] ∧ post.filter Call.is_connect_and_run = [] ∧
      s2._bufs = ((Env.simple lt_by_total true true 0).plugin_connect_and_run stereo_effect
        ((Env.simple lt_by_total true true 0).io_collect_input
          { name := "IO", direction := Direction.Input,
            n_ports := { n_audio := 2, n_midi := 0 } }
          IOPlug.stereo_ready._bufs 512 ChanCount.ZERO)
        0 (0 + ((512 : Nat) : Int)) 1
        (ChanMapping.identity IOPlug.stereo_ready._n_in)
        (ChanMapping.identity IOPlug.stereo_ready._n_out) 512 0).2 ∧
      (∀ t i j, (t, i, j) ∈ (ChanMapping.identity IOPlug.stereo_ready._n_in).pairs
        ↔ i < IOPlug.stereo_ready._n_in.get t ∧ j = i) ∧
      (∀ t i j, (t, i, j) ∈ (ChanMapping.identity IOPlug.stereo_ready._n_out).pairs
        ↔ i < IOPlug.stereo_ready._n_out.get t ∧ j = i) :=
  ⟨⟨by norm_num, by norm_num⟩,
   C24_run_invokes_plugin_over_range (Env.simple lt_by_total true true 0) IOPlug.stereo_ready
     stereo_effect
     { name := "IO", direction := Direction.Input, n_ports := { n_audio := 2, n_midi := 0 } }
     { name := "IO", direction := Direction.Output, n_ports := { n_audio := 2, n_midi := 0 } }
     0 512 rfl rfl rfl (by decide) (by norm_num) (by norm_num) (by norm_num)⟩

/-! ## C28: `describe_parameter` -/

/-- C28, the code at the failing input.  On the IOPlug constructed for `gain_plugin`, whose
plugin describes parameter 0 as `gain`, `describe_parameter (PluginAutomation, 0, 0)` returns
the event-type symbol `parameter`, not `gain`.  For every IOPlug with a plugin and every
`PluginAutomation` parameter the result is the event-type symbol, whatever the plugin's
description is; for a `PluginPropertyAutomation` parameter it is `Property ` followed by the
URI mapped to the parameter id, and for any other parameter type the event-type symbol. -/
theorem C28_describe_parameter_drops_description :
    IOPlug.gain_constructed.describe_parameter (Host.simple [] true true none)
        { type := AutomationType.PluginAutomation, channel := 0, id := 0 }
      = Except.ok "parameter" ∧
    (Host.simple [] true true none).plugin_describe_parameter gain_plugin
        { type := AutomationType.PluginAutomation, channel := 0, id := 0 } = "gain" ∧
    ("parameter" : String) ≠ "gain" ∧
    (∀ (H : Host) (self : IOPlug) (plugin : Plugin) (param : Parameter),
      self._plugin = some plugin → param.type = AutomationType.PluginAutomation →
      self.describe_parameter H param = Except.ok (H.event_type_map_to_symbol param)) ∧
    (∀ (H : Host) (self : IOPlug) (param : Parameter),
      param.type = AutomationType.PluginPropertyAutomation →
      self.describe_parameter H param
        = Except.ok ("Property " ++ H.uri_map_id_to_uri param.id)) ∧
    (∀ (H : Host) (self : IOPlug) (param : Parameter) (n : Nat),
      param.type = AutomationType.Other n →
      self.describe_parameter H param = Except.ok (H.event_type_map_to_symbol param)) := by
  refine ⟨rfl, rfl, by decide, ?_, ?_, ?_⟩
  · intro H self plugin param hp ht
    simp [IOPlug.describe_parameter, hp, ht]
  · intro H self param ht
    simp [IOPlug.describe_parameter, ht]
  · intro H self param n ht
    simp [IOPlug.describe_parameter, ht]

/-! ## C29: how many children `set_state` restores from -/

/-- C29, the code at the failing input.  `doubled_document` is loaded into the IOPlug built
without a plugin, the document resolving to `gain_plugin`.  `set_state` returns 0; the plugin
is restored from the first child named after its state node (state 1) and the input port
group from the first child tagged `Input` (one call each); the output port group is restored
from both children tagged `Output`, one after the other, and ends up as the second one says
(`out second`), not the first. -/
theorem C29_output_restored_from_every_child :
    (IOPlug.unconfigured.set_state (Host.simple [] true true (some gain_plugin)) 8
        doubled_document 3000).map
      (fun r => (r.1, r.2.1._plugin.map (fun q => q.state),
        r.2.1._input.map (fun io => io.name), r.2.1._output.map (fun io => io.name),
        r.2.2.filter Call.is_restore))
      = Except.ok (0, some 1, some "in first", some "out second",
          [Call.plugin_set_state
             { name := "lv2", properties := [("state", XMLValue.uint 1)] } 3000,
           Call.input_set_state
             { name := "IO",
               properties := [("name", XMLValue.string "in first"),
                              ("direction", XMLValue.string "Input")] } 3000,
           Call.output_set_state
             { name := "IO",
               properties := [("name", XMLValue.string "out first"),
                              ("direction", XMLValue.string "Output")] } 3000,
           Call.output_set_state
             { name := "IO",
               properties := [("name", XMLValue.string "out second"),
                              ("direction", XMLValue.string "Output")] } 3000]) ∧
    ("out second" : String) ≠ "out first" := by
  refine ⟨rfl, by decide⟩

/-! ## C26, C23: the channel counts `setup` computes -/

/-- `create_parameters` on an IOPlug with a plugin returns, and leaves the same plugin in
some instance state. -/
theorem IOPlug.create_parameters_returns (H : Host) (s : IOPlug) (q : Plugin)
    (h_plugin : s._plugin = some q) :
    ∃ s_cp tr_cp st, s.create_parameters H = Except.ok (s_cp, tr_cp) ∧
      s_cp._plugin = some (q.with_state st) := by
  obtain ⟨cs1, cos1, st1, tr1, h1, -⟩ := IOPlug.create_port_controls_eq H q.ports 0 s q []
  obtain ⟨cs2, h2⟩ := IOPlug.create_property_controls_eq (q.with_state st1)
    (q.with_state st1).supported_properties { s with _controls := cs1, _control_outputs := cos1 }
  refine ⟨{ s with _controls := cs2, _control_outputs := cos1,
                   _plugin := some (q.with_state st1) },
    tr1 ++ [Call.plugin_connect_preset_port_set_value], st1, ?_, rfl⟩
  unfold IOPlug.create_parameters
  rw [h_plugin]
  simp only [h1, List.nil_append]
  rw [h2]

/-- C26, as stated, fails: `aux_in` is handed to `match_variable_io` and then to
`reconfigure_io`.  Constructed with a reconfigurable 2-in/2-out effect whose negotiation asks
for one auxiliary audio input, the IOPlug tells the plugin to `reconfigure_io` to
(2 audio, 1 auxiliary audio, 2 audio), not to zero auxiliary inputs. -/
theorem C26_negotiated_aux_is_passed_on :
    (IOPlug.construct Host.sidechain 8 (some variable_effect) true 1).map
        (fun r => r.2.filter Call.is_reconfigure_io)
      = Except.ok [Call.plugin_reconfigure_io { n_audio := 2, n_midi := 0 }
          { n_audio := 1, n_midi := 0 } { n_audio := 2, n_midi := 0 }] ∧
    ({ n_audio := 1, n_midi := 0 } : ChanCount) ≠ ChanCount.ZERO := by
  refine ⟨rfl, by decide⟩

/-- The two ways through `setup` on an IOPlug with a plugin, `q` being the plugin as
`create_parameters` left it: the counts stored, the plugin afterwards and the calls made. -/
theorem IOPlug.setup_cases (H : Host) (self : IOPlug) (p : Plugin)
    (h_plugin : self._plugin = some p) :
    ∃ s_cp tr_cp q s1 tr,
      self.create_parameters H = Except.ok (s_cp, tr_cp) ∧ s_cp._plugin = some q ∧
      q.info = p.info ∧
      self.setup H = Except.ok (s1, tr) ∧
      (q.info.reconfigurable_io = true →
        s1._n_in = (H.plugin_match_variable_io q (H.plugin_input_streams q) ChanCount.ZERO
          (H.plugin_output_streams q)).1.1 ∧
        s1._n_out = (H.plugin_match_variable_io q (H.plugin_input_streams q) ChanCount.ZERO
          (H.plugin_output_streams q)).1.2.2 ∧
        s1._plugin = some (H.configured
          (q.with_state (H.plugin_match_variable_io q (H.plugin_input_streams q) ChanCount.ZERO
            (H.plugin_output_streams q)).2)
          s1._n_in
          (H.plugin_match_variable_io q (H.plugin_input_streams q) ChanCount.ZERO
            (H.plugin_output_streams q)).1.2.1
          s1._n_out) ∧
        tr = tr_cp ++
          [Call.plugin_match_variable_io (H.plugin_input_streams q) ChanCount.ZERO
             (H.plugin_output_streams q),
           Call.plugin_reconfigure_io s1._n_in
             (H.plugin_match_variable_io q (H.plugin_input_streams q) ChanCount.ZERO
               (H.plugin_output_streams q)).1.2.1 s1._n_out,
           Call.plugin_connect_parameter_changed_externally, Call.plugin_activate]) ∧
      (q.info.reconfigurable_io = false →
        s1._n_in = q.info.n_inputs ∧ s1._n_out = q.info.n_outputs ∧
        s1._plugin = some (H.configured q s1._n_in ChanCount.ZERO s1._n_out) ∧
        tr = tr_cp ++
          [Call.plugin_reconfigure_io s1._n_in ChanCount.ZERO s1._n_out,
           Call.plugin_connect_parameter_changed_externally, Call.plugin_activate]) := by
  obtain ⟨s_cp, tr_cp, st, hcp, hq⟩ := IOPlug.create_parameters_returns H self p h_plugin
  cases hs : self.setup H with
  | error e =>
    cases hr : (p.with_state st).info.reconfigurable_io <;>
      simp [IOPlug.setup, hcp, hq, hr] at hs
  | ok r =>
    obtain ⟨s1, tr⟩ := r
    refine ⟨s_cp, tr_cp, p.with_state st, s1, tr, hcp, hq, rfl, rfl, ?_, ?_⟩
    · intro hr
      simp only [IOPlug.setup, hcp, hq, hr, if_true, Except.ok.injEq, Prod.mk.injEq] at hs
      obtain ⟨rfl, rfl⟩ := hs
      exact ⟨rfl, rfl, rfl, rfl⟩
    · intro hr
      simp only [IOPlug.setup, hcp, hq, hr, Bool.false_eq_true, if_false, Except.ok.injEq,
        Prod.mk.injEq] at hs
      obtain ⟨rfl, rfl⟩ := hs
      exact ⟨rfl, rfl, rfl, rfl⟩

/-- C26, amended: `setup` on an IOPlug with a plugin returns.  With `q` the plugin as
`create_parameters` left it: if its info reports reconfigurable I/O, `match_variable_io` is
called with the plugin's current `input_streams ()`, zero auxiliary input and its current
`output_streams ()`, n_in and n_out are the input and output counts of the triple it leaves,
and `reconfigure_io` is then called with that triple (n_in, the auxiliary count as the
negotiation left it, n_out); otherwise n_in and n_out are the info's declared
`n_inputs`/`n_outputs` and `reconfigure_io` is called with (n_in, zero, n_out).  In both cases
`reconfigure_io` is followed by the connection of `ParameterChangedExternally` and then by
`activate`, the last call. -/
theorem C26_setup_channel_counts (H : Host) (self : IOPlug) (p : Plugin)
    (h_plugin : self._plugin = some p) :
    ∃ s_cp tr_cp q s1 tr,
      self.create_parameters H = Except.ok (s_cp, tr_cp) ∧ s_cp._plugin = some q ∧
      q.info = p.info ∧
      self.setup H = Except.ok (s1, tr) ∧
      (q.info.reconfigurable_io = true →
        s1._n_in = (H.plugin_match_variable_io q (H.plugin_input_streams q) ChanCount.ZERO
          (H.plugin_output_streams q)).1.1 ∧
        s1._n_out = (H.plugin_match_variable_io q (H.plugin_input_streams q) ChanCount.ZERO
          (H.plugin_output_streams q)).1.2.2 ∧
        tr = tr_cp ++
          [Call.plugin_match_variable_io (H.plugin_input_streams q) ChanCount.ZERO
             (H.plugin_output_streams q),
           Call.plugin_reconfigure_io s1._n_in
             (H.plugin_match_variable_io q (H.plugin_input_streams q) ChanCount.ZERO
               (H.plugin_output_streams q)).1.2.1 s1._n_out,
           Call.plugin_connect_parameter_changed_externally, Call.plugin_activate]) ∧
      (q.info.reconfigurable_io = false →
        s1._n_in = q.info.n_inputs ∧ s1._n_out = q.info.n_outputs ∧
        tr = tr_cp ++
          [Call.plugin_reconfigure_io s1._n_in ChanCount.ZERO s1._n_out,
           Call.plugin_connect_parameter_changed_externally, Call.plugin_activate]) := by
  obtain ⟨s_cp, tr_cp, q, s1, tr, hcp, hq, hinfo, hs, h_var, h_fix⟩ :=
    IOPlug.setup_cases H self p h_plugin
  refine ⟨s_cp, tr_cp, q, s1, tr, hcp, hq, hinfo, hs, ?_, ?_⟩
  · intro hr
    obtain ⟨h1, h2, -, h4⟩ := h_var hr
    exact ⟨h1, h2, h4⟩
  · intro hr
    obtain ⟨h1, h2, -, h4⟩ := h_fix hr
    exact ⟨h1, h2, h4⟩

/-- The witness of C26 amended: the object on which the constructor runs `setup ()` for
`gain_plugin`, whose I/O is fixed at 2 audio inputs and 2 audio outputs. -/
theorem C26_setup_channel_counts_witness :
    (IOPlug.initial gain_plugin false 42)._plugin = some gain_plugin ∧
    ∃ s_cp tr_cp q s1 tr,
      (IOPlug.initial gain_plugin false 42).create_parameters (Host.simple [] true true none)
        = Except.ok (s_cp, tr_cp) ∧ s_cp._plugin = some q ∧
      q.info = gain_plugin.info ∧
      (IOPlug.initial gain_plugin false 42).setup (Host.simple [] true true none)
        = Except.ok (s1, tr) ∧
      (q.info.reconfigurable_io = true →
        s1._n_in = ((Host.simple [] true true none).plugin_match_variable_io q
          ((Host.simple [] true true none).plugin_input_streams q) ChanCount.ZERO
          ((Host.simple [] true true none).plugin_output_streams q)).1.1 ∧
        s1._n_out = ((Host.simple [] true true none).plugin_match_variable_io q
          ((Host.simple [] true true none).plugin_input_streams q) ChanCount.ZERO
          ((Host.simple [] true true none).plugin_output_streams q)).1.2.2 ∧
        tr = tr_cp ++
          [Call.plugin_match_variable_io
             ((Host.simple [] true true none).plugin_input_streams q) ChanCount.ZERO
             ((Host.simple [] true true none).plugin_output_streams q),
           Call.plugin_reconfigure_io s1._n_in
             ((Host.simple [] true true none).plugin_match_variable_io q
               ((Host.simple [] true true none).plugin_input_streams q) ChanCount.ZERO
               ((Host.simple [] true true none).plugin_output_streams q)).1.2.1 s1._n_out,
           Call.plugin_connect_parameter_changed_externally, Call.plugin_activate]) ∧
      (q.info.reconfigurable_io = false →
        s1._n_in = q.info.n_inputs ∧ s1._n_out = q.info.n_outputs ∧
        tr = tr_cp ++
          [Call.plugin_reconfigure_io s1._n_in ChanCount.ZERO s1._n_out,
           Call.plugin_connect_parameter_changed_externally, Call.plugin_activate]) :=
  ⟨rfl, C26_setup_channel_counts (Host.simple [] true true none)
    (IOPlug.initial gain_plugin false 42) gain_plugin rfl⟩

/-- After `add_control (c)` the control set holds `c`. -/
theorem IOPlug.add_control_mem_self (s : IOPlug) (c : Control) :
    c ∈ (s.add_control c)._controls := by
  unfold IOPlug.add_control
  simp only
  split
  · rename_i h
    simp only [List.any_eq_true, decide_eq_true_eq] at h
    obtain ⟨x, hx, hxp⟩ := h
    exact List.mem_map.mpr ⟨x, hx, by simp [hxp]⟩
  · simp

/-- `add_control (c)` keeps every control that is not keyed like `c` (or is `c` itself). -/
theorem IOPlug.add_control_mem_keep (s : IOPlug) (c x : Control) (hx : x ∈ s._controls)
    (h : x.parameter = c.parameter → x = c) : x ∈ (s.add_control c)._controls := by
  unfold IOPlug.add_control
  simp only
  split
  · by_cases hp : x.parameter = c.parameter
    · rw [h hp]
      exact List.mem_map.mpr ⟨x, hx, by simp [hp]⟩
    · exact List.mem_map.mpr ⟨x, hx, by simp [hp]⟩
  · exact List.mem_append_left _ hx

/-- After `add_control (c)` the control set holds `c` and controls it held before. -/
theorem IOPlug.add_control_mem (s : IOPlug) (c x : Control)
    (hx : x ∈ (s.add_control c)._controls) : x = c ∨ x ∈ s._controls := by
  unfold IOPlug.add_control at hx
  simp only at hx
  split at hx
  · obtain ⟨y, hy, rfl⟩ := List.mem_map.mp hx
    by_cases hp : y.parameter = c.parameter
    · left
      simp [hp]
    · right
      simpa [hp] using hy
  · rcases List.mem_append.mp hx with h | h
    · exact Or.inr h
    · exact Or.inl (by simpa using h)

/-- `add_control` keeps the keys of the control set distinct. -/
theorem IOPlug.add_control_keys_nodup (s : IOPlug) (c : Control)
    (h : (s._controls.map (fun x => x.parameter)).Nodup) :
    ((s.add_control c)._controls.map (fun x => x.parameter)).Nodup := by
  unfold IOPlug.add_control
  simp only
  split
  · have hmap : (s._controls.map (fun x => if x.parameter = c.parameter then c else x)).map
        (fun x => x.parameter) = s._controls.map (fun x => x.parameter) := by
      rw [List.map_map]
      apply List.map_congr_left
      intro x _
      by_cases hp : x.parameter = c.parameter <;> simp [hp]
    rw [hmap]
    exact h
  · rename_i hany
    simp only [List.any_eq_true, decide_eq_true_eq, not_exists, not_and] at hany
    rw [List.map_append]
    refine List.Nodup.append h (by simp) ?_
    intro k hk hk1
    simp only [List.map_cons, List.map_nil, List.mem_singleton] at hk1
    subst hk1
    obtain ⟨x, hx, hxp⟩ := List.mem_map.mp hk
    exact hany x hx hxp

/-- After `_control_outputs[i] = ...` the indices with a meter are those before and `i`. -/
theorem IOPlug.add_control_output_mem (s : IOPlug) (i k : Nat) :
    k ∈ (s.add_control_output i)._control_outputs ↔ k ∈ s._control_outputs ∨ k = i := by
  unfold IOPlug.add_control_output
  simp only
  split
  · rename_i h
    have hi : i ∈ s._control_outputs := by simpa using h
    constructor
    · exact Or.inl
    · rintro (h1 | rfl)
      · exact h1
      · exact hi
  · simp

/-- One step of the first loop of `create_parameters`, by the kind of the parameter. -/
theorem IOPlug.create_port_controls_step (H : Host) (i : Nat) (port : PortDeclaration)
    (rest : List PortDeclaration) (acc : IOPlug × Plugin × List Call) :
    IOPlug.create_port_controls H i (port :: rest) acc =
      if port.is_control = false then IOPlug.create_port_controls H (i + 1) rest acc
      else if port.is_input = false then
        IOPlug.create_port_controls H (i + 1) rest
          (acc.1.add_control_output i, acc.2.1, acc.2.2)
      else
        IOPlug.create_port_controls H (i + 1) rest
          (acc.1.add_control (PluginControl.for_port H i port),
           acc.2.1.with_state (H.plugin_set_automation_control acc.2.1 i),
           acc.2.2 ++ [Call.plugin_set_automation_control i]) := by
  simp only [IOPlug.create_port_controls, PluginControl.for_port]

/-- After the first loop of `create_parameters`, the indices with a meter are those before
and the indices of the parameters that are control ports and not inputs. -/
theorem IOPlug.create_port_controls_outputs (H : Host) (ports : List PortDeclaration) :
    ∀ (i : Nat) (acc : IOPlug × Plugin × List Call) (k : Nat),
      k ∈ (IOPlug.create_port_controls H i ports acc).1._control_outputs ↔
        k ∈ acc.1._control_outputs ∨
        ∃ port, (k, port) ∈ ports.enumFrom i ∧
          port.is_control = true ∧ port.is_input = false := by
  induction ports with
  | nil =>
    intro i acc k
    simp [IOPlug.create_port_controls]
  | cons port rest ih =>
    intro i acc k
    rw [IOPlug.create_port_controls_step]
    simp only [List.enumFrom_cons, List.mem_cons, Prod.mk.injEq]
    by_cases hc : port.is_control = false
    · rw [if_pos hc, ih]
      constructor
      · rintro (h | ⟨q, hm, h1, h2⟩)
        · exact Or.inl h
        · exact Or.inr ⟨q, Or.inr hm, h1, h2⟩
      · rintro (h | ⟨q, (⟨-, rfl⟩ | hm), h1, h2⟩)
        · exact Or.inl h
        · rw [hc] at h1
          cases h1
        · exact Or.inr ⟨q, hm, h1, h2⟩
    · rw [if_neg hc]
      by_cases hi : port.is_input = false
      · rw [if_pos hi, ih]
        simp only [IOPlug.add_control_output_mem]
        constructor
        · rintro ((h | rfl) | ⟨q, hm, h1, h2⟩)
          · exact Or.inl h
          · exact Or.inr ⟨port, Or.inl ⟨rfl, rfl⟩, by simpa using hc, hi⟩
          · exact Or.inr ⟨q, Or.inr hm, h1, h2⟩
        · rintro (h | ⟨q, (⟨rfl, rfl⟩ | hm), h1, h2⟩)
          · exact Or.inl (Or.inl h)
          · exact Or.inl (Or.inr rfl)
          · exact Or.inr ⟨q, hm, h1, h2⟩
      · rw [if_neg hi, ih]
        constructor
        · rintro (h | ⟨q, hm, h1, h2⟩)
          · exact Or.inl h
          · exact Or.inr ⟨q, Or.inr hm, h1, h2⟩
        · rintro (h | ⟨q, (⟨-, rfl⟩ | hm), h1, h2⟩)
          · exact Or.inl h
          · exact absurd h2 hi
          · exact Or.inr ⟨q, hm, h1, h2⟩

/-- Every control in the control set after the first loop of `create_parameters` was there
before or is the `PluginControl` made for a parameter that is a control port and an input. -/
theorem IOPlug.create_port_controls_mem (H : Host) (ports : List PortDeclaration) :
    ∀ (i : Nat) (acc : IOPlug × Plugin × List Call) (x : Control),
      x ∈ (IOPlug.create_port_controls H i ports acc).1._controls →
        x ∈ acc.1._controls ∨
        ∃ k port, (k, port) ∈ ports.enumFrom i ∧
          port.is_control = true ∧ port.is_input = true ∧
          x = PluginControl.for_port H k port := by
  induction ports with
  | nil =>
    intro i acc x hx
    exact Or.inl (by simpa [IOPlug.create_port_controls] using hx)
  | cons port rest ih =>
    intro i acc x hx
    rw [IOPlug.create_port_controls_step] at hx
    simp only [List.enumFrom_cons, List.mem_cons, Prod.mk.injEq]
    by_cases hc : port.is_control = false
    · rw [if_pos hc] at hx
      rcases ih _ _ _ hx with h | ⟨k, q, hm, h1, h2, h3⟩
      · exact Or.inl h
      · exact Or.inr ⟨k, q, Or.inr hm, h1, h2, h3⟩
    · rw [if_neg hc] at hx
      by_cases hi : port.is_input = false
      · rw [if_pos hi] at hx
        rcases ih _ _ _ hx with h | ⟨k, q, hm, h1, h2, h3⟩
        · exact Or.inl h
        · exact Or.inr ⟨k, q, Or.inr hm, h1, h2, h3⟩
      · rw [if_neg hi] at hx
        rcases ih _ _ _ hx with h | ⟨k, q, hm, h1, h2, h3⟩
        · rcases IOPlug.add_control_mem _ _ _ h with h | h
          · exact Or.inr ⟨i, port, Or.inl ⟨rfl, rfl⟩, by simpa using hc, by simpa using hi, h⟩
          · exact Or.inl h
        · exact Or.inr ⟨k, q, Or.inr hm, h1, h2, h3⟩

/-- The first loop of `create_parameters` keeps every control that is not keyed like a
`PluginControl` of one of the parameters it visits. -/
theorem IOPlug.create_port_controls_keep (H : Host) (ports : List PortDeclaration) :
    ∀ (i : Nat) (acc : IOPlug × Plugin × List Call) (x : Control),
      x ∈ acc.1._controls →
      (∀ k, i ≤ k → x.parameter
        ≠ { type := AutomationType.PluginAutomation, channel := 0, id := k }) →
      x ∈ (IOPlug.create_port_controls H i ports acc).1._controls := by
  induction ports with
  | nil =>
    intro i acc x hx _
    simpa [IOPlug.create_port_controls] using hx
  | cons port rest ih =>
    intro i acc x hx hne
    rw [IOPlug.create_port_controls_step]
    have hne1 : ∀ k, i + 1 ≤ k → x.parameter
        ≠ { type := AutomationType.PluginAutomation, channel := 0, id := k } :=
      fun k hk => hne k (by omega)
    by_cases hc : port.is_control = false
    · rw [if_pos hc]
      exact ih _ _ _ hx hne1
    · rw [if_neg hc]
      by_cases hi : port.is_input = false
      · rw [if_pos hi]
        exact ih _ _ _ hx hne1
      · rw [if_neg hi]
        refine ih _ _ _ (IOPlug.add_control_mem_keep _ _ _ hx ?_) hne1
        intro hp
        exact absurd hp (hne i (Nat.le_refl i))

/-- After the first loop of `create_parameters` the control set holds the `PluginControl` of
every parameter that is a control port and an input. -/
theorem IOPlug.create_port_controls_new (H : Host) (ports : List PortDeclaration) :
    ∀ (i : Nat) (acc : IOPlug × Plugin × List Call) (k : Nat) (port : PortDeclaration),
      (k, port) ∈ ports.enumFrom i → port.is_control = true → port.is_input = true →
      PluginControl.for_port H k port
        ∈ (IOPlug.create_port_controls H i ports acc).1._controls := by
  induction ports with
  | nil =>
    intro i acc k port hm
    simp at hm
  | cons head rest ih =>
    intro i acc k port hm h1 h2
    rw [IOPlug.create_port_controls_step]
    simp only [List.enumFrom_cons, List.mem_cons, Prod.mk.injEq] at hm
    rcases hm with ⟨rfl, rfl⟩ | hm
    · rw [if_neg (by simp [h1]), if_neg (by simp [h2])]
      refine IOPlug.create_port_controls_keep H rest _ _ _
        (IOPlug.add_control_mem_self _ _) ?_
      intro j hj hp
      simp only [PluginControl.for_port, Parameter.mk.injEq, true_and] at hp
      omega
    · by_cases hc : head.is_control = false
      · rw [if_pos hc]
        exact ih _ _ _ _ hm h1 h2
      · rw [if_neg hc]
        by_cases hi : head.is_input = false
        · rw [if_pos hi]
          exact ih _ _ _ _ hm h1 h2
        · rw [if_neg hi]
          exact ih _ _ _ _ hm h1 h2

/-- The first loop of `create_parameters` keeps the keys of the control set distinct. -/
theorem IOPlug.create_port_controls_nodup (H : Host) (ports : List PortDeclaration) :
    ∀ (i : Nat) (acc : IOPlug × Plugin × List Call),
      (acc.1._controls.map (fun x => x.parameter)).Nodup →
      ((IOPlug.create_port_controls H i ports acc).1._controls.map
        (fun x => x.parameter)).Nodup := by
  induction ports with
  | nil =>
    intro i acc h
    simpa [IOPlug.create_port_controls] using h
  | cons port rest ih =>
    intro i acc h
    rw [IOPlug.create_port_controls_step]
    by_cases hc : port.is_control = false
    · rw [if_pos hc]
      exact ih _ _ h
    · rw [if_neg hc]
      by_cases hi : port.is_input = false
      · rw [if_pos hi]
        exact ih _ _ h
      · rw [if_neg hi]
        exact ih _ _ (IOPlug.add_control_keys_nodup _ _ h)

/-- One step of the second loop of `create_parameters`, by the datatype of the property. -/
theorem IOPlug.create_property_controls_step (plugin : Plugin) (key : Nat) (rest : List Nat)
    (s : IOPlug) :
    IOPlug.create_property_controls plugin (key :: rest) s =
      if (plugin.get_property_descriptor key).datatype = VariantType.NOTHING then
        IOPlug.create_property_controls plugin rest s
      else
        IOPlug.create_property_controls plugin rest
          (s.add_control (PluginPropertyControl.for_key plugin key)) := by
  simp only [IOPlug.create_property_controls, PluginPropertyControl.for_key]

/-- Every control in the control set after the second loop of `create_parameters` was there
before or is the `PluginPropertyControl` made for a supported property whose datatype is not
`NOTHING`. -/
theorem IOPlug.create_property_controls_mem (plugin : Plugin) (keys : List Nat) :
    ∀ (s : IOPlug) (x : Control),
      x ∈ (IOPlug.create_property_controls plugin keys s)._controls →
        x ∈ s._controls ∨
        ∃ key, key ∈ keys ∧
          (plugin.get_property_descriptor key).datatype ≠ VariantType.NOTHING ∧
          x = PluginPropertyControl.for_key plugin key := by
  induction keys with
  | nil =>
    intro s x hx
    exact Or.inl (by simpa [IOPlug.create_property_controls] using hx)
  | cons key rest ih =>
    intro s x hx
    rw [IOPlug.create_property_controls_step] at hx
    by_cases hd : (plugin.get_property_descriptor key).datatype = VariantType.NOTHING
    · rw [if_pos hd] at hx
      rcases ih _ _ hx with h | ⟨k, hk, h1, h2⟩
      · exact Or.inl h
      · exact Or.inr ⟨k, List.mem_cons_of_mem _ hk, h1, h2⟩
    · rw [if_neg hd] at hx
      rcases ih _ _ hx with h | ⟨k, hk, h1, h2⟩
      · rcases IOPlug.add_control_mem _ _ _ h with h | h
        · exact Or.inr ⟨key, List.mem_cons_self _ _, hd, h⟩
        · exact Or.inl h
      · exact Or.inr ⟨k, List.mem_cons_of_mem _ hk, h1, h2⟩

/-- The second loop of `create_parameters` keeps every control that is not keyed like a
property it visits, or is the very control it makes for that property. -/
theorem IOPlug.create_property_controls_keep (plugin : Plugin) (keys : List Nat) :
    ∀ (s : IOPlug) (x : Control),
      x ∈ s._controls →
      (∀ key, key ∈ keys →
        x.parameter
          = { type := AutomationType.PluginPropertyAutomation, channel := 0, id := key } →
        x = PluginPropertyControl.for_key plugin key) →
      x ∈ (IOPlug.create_property_controls plugin keys s)._controls := by
  induction keys with
  | nil =>
    intro s x hx _
    simpa [IOPlug.create_property_controls] using hx
  | cons key rest ih =>
    intro s x hx h
    rw [IOPlug.create_property_controls_step]
    have hrest : ∀ k, k ∈ rest →
        x.parameter
          = { type := AutomationType.PluginPropertyAutomation, channel := 0, id := k } →
        x = PluginPropertyControl.for_key plugin k :=
      fun k hk => h k (List.mem_cons_of_mem _ hk)
    by_cases hd : (plugin.get_property_descriptor key).datatype = VariantType.NOTHING
    · rw [if_pos hd]
      exact ih _ _ hx hrest
    · rw [if_neg hd]
      exact ih _ _ (IOPlug.add_control_mem_keep _ _ _ hx (h key (List.mem_cons_self _ _))) hrest

/-- After the second loop of `create_parameters` the control set holds the
`PluginPropertyControl` of every supported property whose datatype is not `NOTHING`. -/
theorem IOPlug.create_property_controls_new (plugin : Plugin) (keys : List Nat) :
    ∀ (s : IOPlug) (key : Nat), key ∈ keys →
      (plugin.get_property_descriptor key).datatype ≠ VariantType.NOTHING →
      PluginPropertyControl.for_key plugin key
        ∈ (IOPlug.create_property_controls plugin keys s)._controls := by
  induction keys with
  | nil =>
    intro s key hk
    simp at hk
  | cons head rest ih =>
    intro s key hk hd
    rw [IOPlug.create_property_controls_step]
    by_cases hk1 : key ∈ rest
    · by_cases hh : (plugin.get_property_descriptor head).datatype = VariantType.NOTHING
      · rw [if_pos hh]
        exact ih _ _ hk1 hd
      · rw [if_neg hh]
        exact ih _ _ hk1 hd
    · have hkh : key = head := by
        rcases List.mem_cons.mp hk with h | h
        · exact h
        · exact absurd h hk1
      subst hkh
      rw [if_neg hd]
      refine IOPlug.create_property_controls_keep plugin rest _ _
        (IOPlug.add_control_mem_self _ _) ?_
      intro k hk2 hp
      simp only [PluginPropertyControl.for_key, Parameter.mk.injEq, true_and] at hp
      subst hp
      rfl

/-- The second loop of `create_parameters` keeps the keys of the control set distinct. -/
theorem IOPlug.create_property_controls_nodup (plugin : Plugin) (keys : List Nat) :
    ∀ s : IOPlug, (s._controls.map (fun x => x.parameter)).Nodup →
      ((IOPlug.create_property_controls plugin keys s)._controls.map
        (fun x => x.parameter)).Nodup := by
  induction keys with
  | nil =>
    intro s h
    simpa [IOPlug.create_property_controls] using h
  | cons key rest ih =>
    intro s h
    rw [IOPlug.create_property_controls_step]
    by_cases hd : (plugin.get_property_descriptor key).datatype = VariantType.NOTHING
    · rw [if_pos hd]
      exact ih _ h
    · rw [if_neg hd]
      exact ih _ (IOPlug.add_control_keys_nodup _ _ h)

/-- `create_parameters` on an IOPlug with plugin `p` whose control set is empty: it returns;
the control set is then made of the `PluginControl`s of the parameters that are control ports
and inputs and of the `PluginPropertyControl`s of the supported properties whose datatype is
not `NOTHING`, no two of them sharing a key; the indices with a meter are those there before
and those of the parameters that are control ports and not inputs. -/
theorem IOPlug.create_parameters_controls (H : Host) (self : IOPlug) (p : Plugin)
    (h_plugin : self._plugin = some p) (h_controls : self._controls = []) :
    ∃ s1 tr, self.create_parameters H = Except.ok (s1, tr) ∧
      (∀ x, x ∈ s1._controls ↔
        (∃ k port, p.ports[k]? = some port ∧ port.is_control = true ∧ port.is_input = true ∧
          x = PluginControl.for_port H k port) ∨
        (∃ key, key ∈ p.supported_properties ∧
          (p.get_property_descriptor key).datatype ≠ VariantType.NOTHING ∧
          x = PluginPropertyControl.for_key p key)) ∧
      (∀ k, k ∈ s1._control_outputs ↔
        k ∈ self._control_outputs ∨
        ∃ port, p.ports[k]? = some port ∧ port.is_control = true ∧ port.is_input = false) ∧
      (s1._controls.map (fun x => x.parameter)).Nodup := by
  obtain ⟨cs1, cos1, st1, tr1, h1, -⟩ := IOPlug.create_port_controls_eq H p.ports 0 self p []
  have hq : (IOPlug.create_port_controls H 0 p.ports (self, p, [])).2.1 = p.with_state st1 := by
    rw [h1]
  obtain ⟨cs2, h2⟩ := IOPlug.create_property_controls_eq (p.with_state st1)
    p.supported_properties (IOPlug.create_port_controls H 0 p.ports (self, p, [])).1
  have hcp : self.create_parameters H = Except.ok
      ({ IOPlug.create_property_controls (p.with_state st1) p.supported_properties
            (IOPlug.create_port_controls H 0 p.ports (self, p, [])).1 with
          _plugin := some (p.with_state st1) },
        (IOPlug.create_port_controls H 0 p.ports (self, p, [])).2.2
          ++ [Call.plugin_connect_preset_port_set_value]) := by
    unfold IOPlug.create_parameters
    rw [h_plugin]
    simp only [hq]
    rfl
  have henum : ∀ (k : Nat) (port : PortDeclaration),
      (k, port) ∈ p.ports.enumFrom 0 ↔ p.ports[k]? = some port :=
    fun k port => List.mk_mem_enum_iff_getElem?
  refine ⟨_, _, hcp, ?_, ?_, ?_⟩
  · intro x
    constructor
    · intro hx
      rcases IOPlug.create_property_controls_mem _ _ _ _ hx with h | ⟨key, hk, hd, hxk⟩
      · rcases IOPlug.create_port_controls_mem H _ _ _ _ h with h | ⟨k, port, hm, hc, hi, hxp⟩
        · rw [h_controls] at h
          cases h
        · exact Or.inl ⟨k, port, (henum k port).mp hm, hc, hi, hxp⟩
      · exact Or.inr ⟨key, hk, hd, hxk⟩
    · rintro (⟨k, port, hm, hc, hi, rfl⟩ | ⟨key, hk, hd, rfl⟩)
      · refine IOPlug.create_property_controls_keep _ _ _ _
          (IOPlug.create_port_controls_new H _ _ _ _ _ ((henum k port).mpr hm) hc hi) ?_
        intro key _ hp
        simp [PluginControl.for_port] at hp
      · exact IOPlug.create_property_controls_new (p.with_state st1) _ _ _ hk hd
  · intro k
    have hout : (IOPlug.create_property_controls (p.with_state st1) p.supported_properties
        (IOPlug.create_port_controls H 0 p.ports (self, p, [])).1)._control_outputs
        = (IOPlug.create_port_controls H 0 p.ports (self, p, [])).1._control_outputs := by
      rw [h2]
    show k ∈ (IOPlug.create_property_controls (p.with_state st1) p.supported_properties
        (IOPlug.create_port_controls H 0 p.ports (self, p, [])).1)._control_outputs ↔ _
    rw [hout, IOPlug.create_port_controls_outputs]
    constructor
    · rintro (h | ⟨port, hm, hc, hi⟩)
      · exact Or.inl h
      · exact Or.inr ⟨port, (henum k port).mp hm, hc, hi⟩
    · rintro (h | ⟨port, hm, hc, hi⟩)
      · exact Or.inl h
      · exact Or.inr ⟨port, (henum k port).mpr hm, hc, hi⟩
  · refine IOPlug.create_property_controls_nodup _ _ _
      (IOPlug.create_port_controls_nodup H _ _ _ ?_)
    simp [h_controls]

/-- `setup` on an IOPlug with a plugin returns with the control set and the control outputs
as `create_parameters` left them. -/
theorem IOPlug.setup_keeps_controls (H : Host) (self : IOPlug) (p : Plugin)
    (h_plugin : self._plugin = some p) (s_cp : IOPlug) (tr_cp : List Call)
    (hcp : self.create_parameters H = Except.ok (s_cp, tr_cp)) :
    ∃ s1 tr, self.setup H = Except.ok (s1, tr) ∧
      s1._controls = s_cp._controls ∧ s1._control_outputs = s_cp._control_outputs := by
  obtain ⟨s_cp1, tr_cp1, st, hcp1, hq⟩ := IOPlug.create_parameters_returns H self p h_plugin
  rw [hcp] at hcp1
  simp only [Except.ok.injEq, Prod.mk.injEq] at hcp1
  obtain ⟨rfl, rfl⟩ := hcp1
  cases hr : (p.with_state st).info.reconfigurable_io with
  | false =>
    simp only [IOPlug.setup, hcp, hq, hr, Bool.false_eq_true, if_false]
    exact ⟨_, _, rfl, rfl, rfl⟩
  | true =>
    simp only [IOPlug.setup, hcp, hq, hr, if_true]
    exact ⟨_, _, rfl, rfl, rfl⟩

/-- C22: `create_parameters` on an IOPlug with a plugin whose control set and control outputs
are empty (as they are when the constructor or `set_state` on a plugin-less IOPlug runs
`setup`) returns, and `setup` returns with the same control set and control outputs; then for
every index i below the plugin's `parameter_count ()`: the control set holds a `PluginControl`
keyed (PluginAutomation, 0, i) iff parameter i is a control port and an input; the control
outputs hold a meter keyed i iff parameter i is a control port and not an input; no index is
both the key of a control and of a control output; a parameter that is not a control port
yields neither. -/
theorem C22_controls_and_control_outputs (H : Host) (self : IOPlug) (p : Plugin)
    (h_plugin : self._plugin = some p) (h_controls : self._controls = [])
    (h_outputs : self._control_outputs = []) :
    ∃ s_cp tr_cp s1 tr,
      self.create_parameters H = Except.ok (s_cp, tr_cp) ∧
      self.setup H = Except.ok (s1, tr) ∧
      s1._controls = s_cp._controls ∧ s1._control_outputs = s_cp._control_outputs ∧
      ∀ (i : Nat) (port : PortDeclaration), p.ports[i]? = some port →
        ((∃ c, c ∈ s_cp._controls ∧ c.cls = ControlClass.PluginControl ∧
            c.parameter = { type := AutomationType.PluginAutomation, channel := 0, id := i }) ↔
          (port.is_control = true ∧ port.is_input = true)) ∧
        (i ∈ s_cp._control_outputs ↔ (port.is_control = true ∧ port.is_input = false)) ∧
        ¬ ((∃ c, c ∈ s_cp._controls ∧ c.parameter = { type := AutomationType.PluginAutomation, channel := 0, id := i }) ∧
            i ∈ s_cp._control_outputs) ∧
        (port.is_control = false →
          (¬ ∃ c, c ∈ s_cp._controls ∧ c.parameter = { type := AutomationType.PluginAutomation, channel := 0, id := i }) ∧
          i ∉ s_cp._control_outputs) := by
  obtain ⟨s_cp, tr_cp, hcp, hmem, hout, -⟩ :=
    IOPlug.create_parameters_controls H self p h_plugin h_controls
  obtain ⟨s1, tr, hs, hc1, ho1⟩ := IOPlug.setup_keeps_controls H self p h_plugin s_cp tr_cp hcp
  refine ⟨s_cp, tr_cp, s1, tr, hcp, hs, hc1, ho1, ?_⟩
  intro i port hport
  have h_key : (∃ c, c ∈ s_cp._controls ∧ c.parameter = { type := AutomationType.PluginAutomation, channel := 0, id := i }) →
      port.is_control = true ∧ port.is_input = true := by
    rintro ⟨c, hc, hp⟩
    rcases (hmem c).mp hc with ⟨k, q, hk, hqc, hqi, rfl⟩ | ⟨key, -, -, rfl⟩
    · simp only [PluginControl.for_port, Parameter.mk.injEq, true_and] at hp
      subst hp
      rw [hport] at hk
      cases hk
      exact ⟨hqc, hqi⟩
    · simp [PluginPropertyControl.for_key] at hp
  have h_out : i ∈ s_cp._control_outputs ↔ (port.is_control = true ∧ port.is_input = false) := by
    rw [hout, h_outputs]
    constructor
    · rintro (h | ⟨q, hq, h1, h2⟩)
      · cases h
      · rw [hport] at hq
        cases hq
        exact ⟨h1, h2⟩
    · rintro ⟨h1, h2⟩
      exact Or.inr ⟨port, hport, h1, h2⟩
  refine ⟨?_, h_out, ?_, ?_⟩
  · constructor
    · rintro ⟨c, hc, -, hp⟩
      exact h_key ⟨c, hc, hp⟩
    · rintro ⟨h1, h2⟩
      exact ⟨PluginControl.for_port H i port,
        (hmem _).mpr (Or.inl ⟨i, port, hport, h1, h2, rfl⟩), rfl, rfl⟩
  · rintro ⟨hk, ho⟩
    have h1 := (h_key hk).2
    have h2 := (h_out.mp ho).2
    rw [h1] at h2
    cases h2
  · intro hnc
    refine ⟨?_, ?_⟩
    · intro hk
      have h1 := (h_key hk).1
      rw [hnc] at h1
      cases h1
    · intro ho
      have h1 := (h_out.mp ho).1
      rw [hnc] at h1
      cases h1

/-- The witness of C22: the object on which the constructor runs `setup ()` for
`gain_plugin` (parameter 0 a control input, parameter 1 a control output, parameter 2 an audio
port). -/
theorem C22_controls_and_control_outputs_witness :
    ((IOPlug.initial gain_plugin false 42)._controls = [] ∧
      (IOPlug.initial gain_plugin false 42)._control_outputs = []) ∧
    ∃ s_cp tr_cp s1 tr,
      (IOPlug.initial gain_plugin false 42).create_parameters (Host.simple [] true true none) = Except.ok (s_cp, tr_cp) ∧
      (IOPlug.initial gain_plugin false 42).setup (Host.simple [] true true none) = Except.ok (s1, tr) ∧
      s1._controls = s_cp._controls ∧ s1._control_outputs = s_cp._control_outputs ∧
      ∀ (i : Nat) (port : PortDeclaration), gain_plugin.ports[i]? = some port →
        ((∃ c, c ∈ s_cp._controls ∧ c.cls = ControlClass.PluginControl ∧
            c.parameter = { type := AutomationType.PluginAutomation, channel := 0, id := i }) ↔
          (port.is_control = true ∧ port.is_input = true)) ∧
        (i ∈ s_cp._control_outputs ↔ (port.is_control = true ∧ port.is_input = false)) ∧
        ¬ ((∃ c, c ∈ s_cp._controls ∧ c.parameter = { type := AutomationType.PluginAutomation, channel := 0, id := i }) ∧
            i ∈ s_cp._control_outputs) ∧
        (port.is_control = false →
          (¬ ∃ c, c ∈ s_cp._controls ∧ c.parameter = { type := AutomationType.PluginAutomation, channel := 0, id := i }) ∧
          i ∉ s_cp._control_outputs) :=
  ⟨⟨rfl, rfl⟩,
   C22_controls_and_control_outputs (Host.simple [] true true none)
     (IOPlug.initial gain_plugin false 42) gain_plugin rfl rfl rfl⟩

/-- C27: `create_parameters` on an IOPlug with a plugin whose control set is empty returns,
and then: the control set holds a `PluginPropertyControl` keyed
(PluginPropertyAutomation, 0, key) exactly for the supported properties of the plugin whose
descriptor datatype is not `NOTHING`; no two controls of the control set share a key, so
there is one per property; and every control of the control set, `PluginControl` or
`PluginPropertyControl`, carries the flag `NotAutomatable`. -/
theorem C27_property_controls (H : Host) (self : IOPlug) (p : Plugin)
    (h_plugin : self._plugin = some p) (h_controls : self._controls = []) :
    ∃ s1 tr,
      self.create_parameters H = Except.ok (s1, tr) ∧
      (∀ key : Nat,
        (∃ c, c ∈ s1._controls ∧ c.cls = ControlClass.PluginPropertyControl ∧
          c.parameter = { type := AutomationType.PluginPropertyAutomation, channel := 0, id := key }) ↔
        (key ∈ p.supported_properties ∧
          (p.get_property_descriptor key).datatype ≠ VariantType.NOTHING)) ∧
      (s1._controls.map (fun c => c.parameter)).Nodup ∧
      (∀ c, c ∈ s1._controls → c.not_automatable = true ∧
        (c.cls = ControlClass.PluginControl ∨ c.cls = ControlClass.PluginPropertyControl)) := by
  obtain ⟨s1, tr, hcp, hmem, -, hnodup⟩ :=
    IOPlug.create_parameters_controls H self p h_plugin h_controls
  refine ⟨s1, tr, hcp, ?_, hnodup, ?_⟩
  · intro key
    constructor
    · rintro ⟨c, hc, -, hp⟩
      rcases (hmem c).mp hc with ⟨k, q, -, -, -, rfl⟩ | ⟨key1, hk, hd, rfl⟩
      · simp [PluginControl.for_port] at hp
      · simp only [PluginPropertyControl.for_key, Parameter.mk.injEq, true_and] at hp
        subst hp
        exact ⟨hk, hd⟩
    · rintro ⟨hk, hd⟩
      exact ⟨PluginPropertyControl.for_key p key, (hmem _).mpr (Or.inr ⟨key, hk, hd, rfl⟩),
        rfl, rfl⟩
  · intro c hc
    rcases (hmem c).mp hc with ⟨k, q, -, -, -, rfl⟩ | ⟨key1, -, -, rfl⟩
    · exact ⟨rfl, Or.inl rfl⟩
    · exact ⟨rfl, Or.inr rfl⟩

/-- The witness of C27: the object on which the constructor runs `setup ()` for
`gain_plugin` (supported properties 7 and 9, of which only 7 has a datatype). -/
theorem C27_property_controls_witness :
    (IOPlug.initial gain_plugin false 42)._controls = [] ∧
    ∃ s1 tr,
      (IOPlug.initial gain_plugin false 42).create_parameters (Host.simple [] true true none) = Except.ok (s1, tr) ∧
      (∀ key : Nat,
        (∃ c, c ∈ s1._controls ∧ c.cls = ControlClass.PluginPropertyControl ∧
          c.parameter = { type := AutomationType.PluginPropertyAutomation, channel := 0, id := key }) ↔
        (key ∈ gain_plugin.supported_properties ∧
          (gain_plugin.get_property_descriptor key).datatype ≠ VariantType.NOTHING)) ∧
      (s1._controls.map (fun c => c.parameter)).Nodup ∧
      (∀ c, c ∈ s1._controls → c.not_automatable = true ∧
        (c.cls = ControlClass.PluginControl ∨ c.cls = ControlClass.PluginPropertyControl)) :=
  ⟨rfl,
   C27_property_controls (Host.simple [] true true none)
     (IOPlug.initial gain_plugin false 42) gain_plugin rfl rfl⟩

end ARDOUR
